import Mathlib

/-!
Shallow embedding of `src/logic/reference.py` (Cite-controller): validated
bibliographic entry records `Book`, `Article`, `Inproceedings` built with the
Python `attrs` library, plus the module's four validator functions
`check_year`, `check_name`, `check_len`, `check_str`.

Modelling conventions:
* Python strings are lists of Unicode code points (`List Char`); `len` is
  `List.length`, which matches Python's `len` on `str`.
* Python runtime values reaching the validators are modelled by the dynamic
  type `PyVal` (the fragment the module can observe: `None`, `int`, `float`,
  `str`).  CPython floats are modelled as exact rationals; `int(float)`
  truncates toward zero.
* Raised exceptions are modelled by `Err`, one constructor per observable
  raise site (exception class plus message); data interpolated into a message
  (the attribute name in `attrs.validators.instance_of`, the upper bound in
  `check_year`) is carried as an argument.
* `attrs` semantics, from the generated code of `attrs.define`:
  - the generated `__init__` first assigns every attribute in declaration
    order, running converters inline (here only `year` has the converter
    `int`), and then runs every attribute's validators in declaration order;
    the first exception propagates and the instance is never produced;
  - `attrs.define` classes are not frozen: the generated `__setattr__` runs
    the field's converter then its validators on the new value and only then
    stores it, so a failing reassignment raises and leaves the field as it
    was.
-/

namespace Reference

/-- Python `str` as a list of Unicode code points. -/
abbrev PyStr := List Char

/-- The fragment of Python runtime values the module's validators can
receive.  CPython `float` is modelled as an exact rational. -/
inductive PyVal where
  | none
  | int (n : ℤ)
  | float (q : ℚ)
  | str (s : PyStr)
  deriving DecidableEq

/-- Python whitespace classification used by `str.split()` with no
arguments.  Exact for code points below `0x100` (ASCII whitespace, the
C0 separators `0x1C`–`0x1F`, NEL `0x85`, NBSP `0xA0`); the higher Unicode
space code points are outside the model's character repertoire. -/
def pyIsSpace (c : Char) : Bool :=
  let n := c.toNat
  n == 32 || n == 9 || n == 10 || n == 13 || n == 11 || n == 12 ||
    decide (28 ≤ n ∧ n ≤ 31) || n == 0x85 || n == 0xA0

/-- Python `str.isalpha` character classification (Unicode general
categories Lu, Ll, Lt, Lm, Lo).  Exact for code points below `0x100`:
ASCII letters plus `ª`, `µ`, `º` and the Latin-1 letters
`À`–`Ö`, `Ø`–`ö`, `ø`–`ÿ`.  Code points at `0x100` and above are outside
the model's character repertoire and classified non-alphabetic. -/
def pyIsAlpha (c : Char) : Bool :=
  let n := c.toNat
  decide ((65 ≤ n ∧ n ≤ 90) ∨ (97 ≤ n ∧ n ≤ 122) ∨ n = 0xAA ∨ n = 0xB5 ∨
    n = 0xBA ∨ (0xC0 ≤ n ∧ n ≤ 0xD6) ∨ (0xD8 ≤ n ∧ n ≤ 0xF6) ∨
    (0xF8 ≤ n ∧ n ≤ 0xFF))

/-- Python `str.isalpha` on a whole string: nonempty and every character
alphabetic. -/
def pyStrIsAlpha (s : PyStr) : Bool :=
  !s.isEmpty && s.all pyIsAlpha

/-- Helper for `pySplit`: accumulates the current (reversed) token. -/
def pySplitAux : PyStr → PyStr → List PyStr
  | [], acc => if acc.isEmpty then [] else [acc.reverse]
  | c :: cs, acc =>
    if pyIsSpace c then
      if acc.isEmpty then pySplitAux cs [] else acc.reverse :: pySplitAux cs []
    else pySplitAux cs (c :: acc)

/-- Python `str.split()` with no arguments: split on runs of whitespace,
discarding empty tokens. -/
def pySplit (s : PyStr) : List PyStr := pySplitAux s []

/-- Truncation of a rational toward zero, the behaviour of Python's
`int(float)`. -/
def ratTrunc (q : ℚ) : ℤ := q.num.tdiv q.den

/-- Strip Python whitespace from both ends of a string. -/
def stripSpaces (l : PyStr) : PyStr :=
  ((l.dropWhile pyIsSpace).reverse.dropWhile pyIsSpace).reverse

/-- Parse a nonempty run of ASCII digits as a natural number. -/
def parseDigits (l : PyStr) : Option ℕ :=
  if !l.isEmpty && l.all (fun c => c.isDigit) then
    some (l.foldl (fun acc c => 10 * acc + (c.toNat - 48)) 0)
  else Option.none

/-- Python `int(str)`: optional surrounding whitespace, an optional sign,
then decimal digits.  Exact on that fragment; Python additionally accepts
underscore digit-group separators and non-ASCII decimal digits, which are
outside the model's repertoire. -/
def pyIntOfStr (s : PyStr) : Option ℤ :=
  match stripSpaces s with
  | '+' :: l => (parseDigits l).map Int.ofNat
  | '-' :: l => (parseDigits l).map (fun n => -(n : ℤ))
  | l => (parseDigits l).map Int.ofNat

/-- The Python builtin `int(x)` on the modelled value fragment, used as the
`attrs` converter of the `year` fields.  `Option.none` is a raised
conversion error (`TypeError` for `None`, `ValueError` for a bad string). -/
def pyInt : PyVal → Option ℤ
  | .none => Option.none
  | .int n => some n
  | .float q => some (ratTrunc q)
  | .str s => pyIntOfStr s

/-- Observable construction/assignment failures, one constructor per raise
site (exception class and message) of the module and of the `attrs`
machinery it uses. -/
inductive Err where
  | notInstanceOfStr (attr : String)
  | intCoerce
  | yearRange (bound : ℤ)
  | nameTooShort
  | nameNotAlpha
  | strTooLong
  | notStr
  | attrError
  | lenTypeError
  deriving DecidableEq

/-- `check_year(instance, attribute, given_year)` from the source: rejects a
year outside `[500, year_now + 5]`, where `year_now` is
`datetime.now().year`, passed here as a parameter.  The raised message
interpolates `year_now + 5`. -/
def check_year (year_now : ℤ) (given_year : ℤ) : Except Err Unit :=
  if given_year > year_now + 5 ∨ given_year < 500 then
    .error (.yearRange (year_now + 5))
  else .ok ()

/-- `check_name(instance, attribute, given_name)` from the source:
`given_name.split()` must have at least two tokens and every token must
satisfy `str.isalpha`.  The source raises on the first non-alphabetic token
inside a loop; since that loop has a single raise site this is observably
the same as the `List.all` test.  Calling `.split()` on a non-string raises
`AttributeError` (unreachable: `instance_of(str)` runs earlier in the
field's validator list). -/
def check_name (given_name : PyVal) : Except Err Unit :=
  match given_name with
  | .str s =>
    let split_name := pySplit s
    if split_name.length < 2 then .error .nameTooShort
    else if split_name.all pyStrIsAlpha then .ok ()
    else .error .nameNotAlpha
  | _ => .error .attrError

/-- `check_len(instance, attribute, given_str)` from the source:
`given_str is not None and len(given_str) > 5000` raises.  `len` on a
non-sized value (an `int` or `float`) raises `TypeError` (unreachable:
`instance_of(str)` or `check_str` runs earlier in the field's validator
list). -/
def check_len (given_str : PyVal) : Except Err Unit :=
  match given_str with
  | .none => .ok ()
  | .str s => if 5000 < s.length then .error .strTooLong else .ok ()
  | _ => .error .lenTypeError

/-- `check_str(instance, attribute, given_str)` from the source: a value
that is neither `None` nor a string is rejected. -/
def check_str (given_str : PyVal) : Except Err Unit :=
  match given_str with
  | .none => .ok ()
  | .str _ => .ok ()
  | _ => .error .notStr

/-- `attrs.validators.instance_of(str)`: raises `TypeError` whose message
names the attribute.  Returns the witnessed string so later validators can
be typed. -/
def instance_of_str (attr : String) (v : PyVal) : Except Err PyStr :=
  match v with
  | .str s => .ok s
  | _ => .error (.notInstanceOfStr attr)

/-- The converter `int` of the `year` fields, run during the assignment
phase of the generated `__init__` (and first on reassignment). -/
def convert_year (v : PyVal) : Except Err ℤ :=
  match pyInt v with
  | some n => .ok n
  | Option.none => .error .intCoerce

/-- The validator list `[instance_of(str), check_name, check_len]` of the
`author` fields, in source order. -/
def authorField (v : PyVal) : Except Err PyStr := do
  let s ← instance_of_str "author" v
  check_name v
  check_len v
  pure s

/-- The validator list `[instance_of(str), check_len]` of a required plain
string field, in source order. -/
def strField (attr : String) (v : PyVal) : Except Err PyStr := do
  let s ← instance_of_str attr v
  check_len v
  pure s

/-- An `Optional[str]` field with `default=None` and validator list
`[check_str, check_len]`: an omitted argument (`Option.none`) is replaced
by the default `None` before validation. -/
def optField (v : Option PyVal) : Except Err (Option PyStr) := do
  let w := v.getD PyVal.none
  check_str w
  check_len w
  pure (match w with | .str s => some s | _ => Option.none)

/-- The `Book` record: required `author`, `title`, `year`, `publisher`,
optional `address`, `edition`, `editor`, `month`, `note`, `number`,
`series`, `volume`. -/
structure Book where
  author : PyStr
  title : PyStr
  year : ℤ
  publisher : PyStr
  address : Option PyStr
  edition : Option PyStr
  editor : Option PyStr
  month : Option PyStr
  note : Option PyStr
  number : Option PyStr
  series : Option PyStr
  volume : Option PyStr
  deriving DecidableEq

/-- The generated `Book.__init__`: assignment phase first (the only
converter is `int` on `year`), then every field's validators in declaration
order; the first raise aborts and no instance is produced. -/
def mkBook (year_now : ℤ) (author title year publisher : PyVal)
    (address edition editor month note number series volume : Option PyVal) :
    Except Err Book := do
  let y ← convert_year year
  let a ← authorField author
  let t ← strField "title" title
  check_year year_now y
  let p ← strField "publisher" publisher
  let f_address ← optField address
  let f_edition ← optField edition
  let f_editor ← optField editor
  let f_month ← optField month
  let f_note ← optField note
  let f_number ← optField number
  let f_series ← optField series
  let f_volume ← optField volume
  pure ⟨a, t, y, p, f_address, f_edition, f_editor, f_month, f_note,
    f_number, f_series, f_volume⟩

/-- The `Article` record: required `author`, `journal`, `title`, `year`,
optional `month`, `note`, `number`, `pages`, `volume`. -/
structure Article where
  author : PyStr
  journal : PyStr
  title : PyStr
  year : ℤ
  month : Option PyStr
  note : Option PyStr
  number : Option PyStr
  pages : Option PyStr
  volume : Option PyStr
  deriving DecidableEq

/-- The generated `Article.__init__` (same phase structure as `mkBook`). -/
def mkArticle (year_now : ℤ) (author journal title year : PyVal)
    (month note number pages volume : Option PyVal) : Except Err Article := do
  let y ← convert_year year
  let a ← authorField author
  let j ← strField "journal" journal
  let t ← strField "title" title
  check_year year_now y
  let f_month ← optField month
  let f_note ← optField note
  let f_number ← optField number
  let f_pages ← optField pages
  let f_volume ← optField volume
  pure ⟨a, j, t, y, f_month, f_note, f_number, f_pages, f_volume⟩

/-- The `Inproceedings` record: required `author`, `title`, `year`,
`booktitle`, optional `address`, `editor`, `month`, `note`, `number`,
`organization`, `pages`, `publisher`, `series`, `volume`. -/
structure Inproceedings where
  author : PyStr
  title : PyStr
  year : ℤ
  booktitle : PyStr
  address : Option PyStr
  editor : Option PyStr
  month : Option PyStr
  note : Option PyStr
  number : Option PyStr
  organization : Option PyStr
  pages : Option PyStr
  publisher : Option PyStr
  series : Option PyStr
  volume : Option PyStr
  deriving DecidableEq

/-- The generated `Inproceedings.__init__` (same phase structure as
`mkBook`). -/
def mkInproceedings (year_now : ℤ) (author title year booktitle : PyVal)
    (address editor month note number organization pages publisher series
      volume : Option PyVal) : Except Err Inproceedings := do
  let y ← convert_year year
  let a ← authorField author
  let t ← strField "title" title
  check_year year_now y
  let b ← strField "booktitle" booktitle
  let f_address ← optField address
  let f_editor ← optField editor
  let f_month ← optField month
  let f_note ← optField note
  let f_number ← optField number
  let f_organization ← optField organization
  let f_pages ← optField pages
  let f_publisher ← optField publisher
  let f_series ← optField series
  let f_volume ← optField volume
  pure ⟨a, t, y, b, f_address, f_editor, f_month, f_note, f_number,
    f_organization, f_pages, f_publisher, f_series, f_volume⟩

/-- The attributes of `Book`, for modelling attribute reassignment. -/
inductive BookAttr where
  | author | title | year | publisher | address | edition | editor | month
  | note | number | series | volume
  deriving DecidableEq

/-- The generated `Book.__setattr__` under `attrs.define`'s default
`on_setattr = setters.pipe(setters.convert, setters.validate)`: the new
value is run through the field's converter (only `year` has one) and then
the field's validator list, and only afterwards stored; a raising hook
leaves the instance unchanged. -/
def Book.setattr (year_now : ℤ) (b : Book) (f : BookAttr) (v : PyVal) :
    Except Err Book :=
  match f with
  | .author => do let s ← authorField v; pure { b with author := s }
  | .title => do let s ← strField "title" v; pure { b with title := s }
  | .year => do
    let y ← convert_year v
    check_year year_now y
    pure { b with year := y }
  | .publisher => do let s ← strField "publisher" v; pure { b with publisher := s }
  | .address => do let o ← optField (some v); pure { b with address := o }
  | .edition => do let o ← optField (some v); pure { b with edition := o }
  | .editor => do let o ← optField (some v); pure { b with editor := o }
  | .month => do let o ← optField (some v); pure { b with month := o }
  | .note => do let o ← optField (some v); pure { b with note := o }
  | .number => do let o ← optField (some v); pure { b with number := o }
  | .series => do let o ← optField (some v); pure { b with series := o }
  | .volume => do let o ← optField (some v); pure { b with volume := o }

/-- The attributes of `Article`. -/
inductive ArticleAttr where
  | author | journal | title | year | month | note | number | pages | volume
  deriving DecidableEq

/-- The generated `Article.__setattr__` (same hook pipeline as
`Book.setattr`). -/
def Article.setattr (year_now : ℤ) (b : Article) (f : ArticleAttr)
    (v : PyVal) : Except Err Article :=
  match f with
  | .author => do let s ← authorField v; pure { b with author := s }
  | .journal => do let s ← strField "journal" v; pure { b with journal := s }
  | .title => do let s ← strField "title" v; pure { b with title := s }
  | .year => do
    let y ← convert_year v
    check_year year_now y
    pure { b with year := y }
  | .month => do let o ← optField (some v); pure { b with month := o }
  | .note => do let o ← optField (some v); pure { b with note := o }
  | .number => do let o ← optField (some v); pure { b with number := o }
  | .pages => do let o ← optField (some v); pure { b with pages := o }
  | .volume => do let o ← optField (some v); pure { b with volume := o }

/-- The attributes of `Inproceedings`. -/
inductive InproceedingsAttr where
  | author | title | year | booktitle | address | editor | month | note
  | number | organization | pages | publisher | series | volume
  deriving DecidableEq

/-- The generated `Inproceedings.__setattr__` (same hook pipeline as
`Book.setattr`). -/
def Inproceedings.setattr (year_now : ℤ) (b : Inproceedings)
    (f : InproceedingsAttr) (v : PyVal) : Except Err Inproceedings :=
  match f with
  | .author => do let s ← authorField v; pure { b with author := s }
  | .title => do let s ← strField "title" v; pure { b with title := s }
  | .year => do
    let y ← convert_year v
    check_year year_now y
    pure { b with year := y }
  | .booktitle => do let s ← strField "booktitle" v; pure { b with booktitle := s }
  | .address => do let o ← optField (some v); pure { b with address := o }
  | .editor => do let o ← optField (some v); pure { b with editor := o }
  | .month => do let o ← optField (some v); pure { b with month := o }
  | .note => do let o ← optField (some v); pure { b with note := o }
  | .number => do let o ← optField (some v); pure { b with number := o }
  | .organization => do let o ← optField (some v); pure { b with organization := o }
  | .pages => do let o ← optField (some v); pure { b with pages := o }
  | .publisher => do let o ← optField (some v); pure { b with publisher := o }
  | .series => do let o ← optField (some v); pure { b with series := o }
  | .volume => do let o ← optField (some v); pure { b with volume := o }

/-- The source's name-format condition on an author value: at least two
whitespace-separated tokens, each passing `str.isalpha`. -/
def nameOk (s : PyStr) : Bool :=
  decide (2 ≤ (pySplit s).length) && (pySplit s).all pyStrIsAlpha

/-- The source's length condition on a string field value. -/
def lenOk (s : PyStr) : Bool := decide (s.length ≤ 5000)

/-- The source's condition on a stored optional field: `None` or a string
within the length limit. -/
def optOk : Option PyStr → Bool
  | Option.none => true
  | some s => lenOk s

/-- The source's year-range condition. -/
def yearOk (year_now n : ℤ) : Bool := decide (500 ≤ n ∧ n ≤ year_now + 5)

/-- All per-field validation conditions of a stored `Book`. -/
def Book.inv (year_now : ℤ) (b : Book) : Bool :=
  nameOk b.author && lenOk b.author && lenOk b.title &&
    yearOk year_now b.year && lenOk b.publisher && optOk b.address &&
    optOk b.edition && optOk b.editor && optOk b.month && optOk b.note &&
    optOk b.number && optOk b.series && optOk b.volume

/-- All per-field validation conditions of a stored `Article`. -/
def Article.inv (year_now : ℤ) (b : Article) : Bool :=
  nameOk b.author && lenOk b.author && lenOk b.journal && lenOk b.title &&
    yearOk year_now b.year && optOk b.month && optOk b.note &&
    optOk b.number && optOk b.pages && optOk b.volume

/-- All per-field validation conditions of a stored `Inproceedings`. -/
def Inproceedings.inv (year_now : ℤ) (b : Inproceedings) : Bool :=
  nameOk b.author && lenOk b.author && lenOk b.title &&
    yearOk year_now b.year && lenOk b.booktitle && optOk b.address &&
    optOk b.editor && optOk b.month && optOk b.note && optOk b.number &&
    optOk b.organization && optOk b.pages && optOk b.publisher &&
    optOk b.series && optOk b.volume

/-- Validity of a raw input for an `author` slot, per the spec's §3–§4
constraints (name format plus length limit, on an actual string). -/
def validAuthorInput (v : PyVal) : Bool :=
  match v with
  | .str s => nameOk s && lenOk s
  | _ => false

/-- Validity of a raw input for a required plain string slot. -/
def validStrInput (v : PyVal) : Bool :=
  match v with
  | .str s => lenOk s
  | _ => false

/-- Validity of a raw input for a `year` slot: integer-coercible and in
range. -/
def validYearInput (year_now : ℤ) (v : PyVal) : Bool :=
  match pyInt v with
  | some n => yearOk year_now n
  | Option.none => false

/-- Validity of a raw input for an optional slot: omitted, `None`, or a
string within the length limit. -/
def validOptInput (v : Option PyVal) : Bool :=
  match v.getD PyVal.none with
  | PyVal.none => true
  | .str s => lenOk s
  | _ => false

/-- The string carried by a `PyVal` known to be a string. -/
def pyStrOf : PyVal → PyStr
  | .str s => s
  | _ => []

/-- The stored value of an optional slot from its raw input. -/
def pyOptStrOf (v : Option PyVal) : Option PyStr :=
  match v.getD PyVal.none with
  | .str s => some s
  | _ => Option.none

/-- Re-injection of a stored optional field back into a raw input value. -/
def pyOfOpt : Option PyStr → PyVal
  | Option.none => PyVal.none
  | some s => .str s

/-- Modelled from the spec's words for claim C1: the claimed "strict
character classification with no locale awareness" under which accented
characters are rejected, i.e. ASCII letters only.  This is the spec-side
reading, to be compared against the code's Unicode-aware `str.isalpha`. -/
def claimStrictAlpha (c : Char) : Bool :=
  let n := c.toNat
  decide ((65 ≤ n ∧ n ≤ 90) ∨ (97 ≤ n ∧ n ≤ 122))

/-- The spec-side (claim C1) name condition: at least two tokens, each
nonempty and made of `claimStrictAlpha` characters only. -/
def claimStrictNameOk (s : PyStr) : Bool :=
  decide (2 ≤ (pySplit s).length) &&
    (pySplit s).all (fun t => !t.isEmpty && t.all claimStrictAlpha)

/-- Fixture: the Martin09 `Book` from the source docstring. -/
def authorRM : PyStr := "Robert Martin".toList

/-- Fixture title. -/
def titleCC : PyStr := "Clean Code".toList

/-- Fixture publisher. -/
def pubPH : PyStr := "Prentice Hall".toList

/-- Fixture journal. -/
def journalAE : PyStr := "American Educator".toList

/-- Fixture booktitle. -/
def bookSIG : PyStr := "SIGCSE Proceedings".toList

/-- Fixture: the validated Martin09 `Book` instance. -/
def martinBook : Book :=
  ⟨authorRM, titleCC, 2008, pubPH, Option.none, Option.none, Option.none,
    Option.none, Option.none, Option.none, Option.none, Option.none⟩

deriving instance DecidableEq for Except

/-! ### Helper lemmas about the validator chains -/

theorem bind_eq_ok {α β : Type} (x : Except Err α) (f : α → Except Err β)
    (b : β) : (x >>= f) = .ok b ↔ ∃ a, x = .ok a ∧ f a = .ok b := by
  cases x <;> simp [Bind.bind, Except.bind]

theorem pure_eq_ok {α : Type} (a b : α) :
    (pure a : Except Err α) = .ok b ↔ a = b := by
  constructor
  · intro h; cases h; rfl
  · intro h; cases h; rfl

theorem ok_bind {α β : Type} (a : α) (f : α → Except Err β) :
    (Except.ok a : Except Err α) >>= f = f a := rfl

theorem error_bind {α β : Type} (e : Err) (f : α → Except Err β) :
    (Except.error e : Except Err α) >>= f = .error e := rfl

theorem instance_of_str_eq_ok (attr : String) (v : PyVal) (s : PyStr) :
    instance_of_str attr v = .ok s ↔ v = .str s := by
  cases v <;> simp [instance_of_str]

theorem check_name_str_ok (s : PyStr) :
    check_name (.str s) = .ok () ↔ nameOk s = true := by
  simp only [check_name, nameOk, Bool.and_eq_true, decide_eq_true_eq]
  by_cases h1 : (pySplit s).length < 2
  · rw [if_pos h1]
    exact ⟨fun hh => Except.noConfusion hh, fun hh => absurd hh.1 (by omega)⟩
  · rw [if_neg h1]
    by_cases h2 : (pySplit s).all pyStrIsAlpha = true
    · rw [if_pos h2]
      exact ⟨fun _ => ⟨by omega, h2⟩, fun _ => rfl⟩
    · rw [if_neg h2]
      exact ⟨fun hh => Except.noConfusion hh, fun hh => absurd hh.2 h2⟩

theorem check_len_str_ok (s : PyStr) :
    check_len (.str s) = .ok () ↔ lenOk s = true := by
  simp only [check_len, lenOk, decide_eq_true_eq]
  by_cases h : 5000 < s.length
  · rw [if_pos h]
    exact ⟨fun hh => Except.noConfusion hh, fun hh => absurd hh (by omega)⟩
  · rw [if_neg h]
    exact ⟨(fun _ => by omega), fun _ => rfl⟩

theorem check_year_ok (year_now n : ℤ) :
    check_year year_now n = .ok () ↔ yearOk year_now n = true := by
  simp only [check_year, yearOk, decide_eq_true_eq]
  by_cases h : n > year_now + 5 ∨ n < 500
  · rw [if_pos h]
    exact ⟨fun hh => Except.noConfusion hh, fun hh => absurd h (by omega)⟩
  · rw [if_neg h]
    exact ⟨(fun _ => by omega), fun _ => rfl⟩

theorem convert_year_eq_ok (v : PyVal) (n : ℤ) :
    convert_year v = .ok n ↔ pyInt v = some n := by
  unfold convert_year
  cases h : pyInt v <;> simp

theorem authorField_eq_ok (v : PyVal) (s : PyStr) :
    authorField v = .ok s ↔
      v = .str s ∧ nameOk s = true ∧ lenOk s = true := by
  cases v with
  | str s0 =>
    constructor
    · intro h
      unfold authorField at h
      rcases (bind_eq_ok _ _ _).mp h with ⟨a, ha, h⟩
      rcases (bind_eq_ok _ _ _).mp h with ⟨u, hn, h⟩
      rcases (bind_eq_ok _ _ _).mp h with ⟨u2, hl, h⟩
      have hs : a = s := (pure_eq_ok _ _).mp h
      have hv : PyVal.str s0 = PyVal.str a :=
        (instance_of_str_eq_ok _ _ _).mp ha
      cases hv
      cases hs
      cases u
      cases u2
      exact ⟨rfl, (check_name_str_ok _).mp hn, (check_len_str_ok _).mp hl⟩
    · rintro ⟨hv, hn, hl⟩
      cases hv
      unfold authorField
      exact (bind_eq_ok _ _ _).mpr ⟨s, rfl,
        (bind_eq_ok _ _ _).mpr ⟨(), (check_name_str_ok _).mpr hn,
          (bind_eq_ok _ _ _).mpr ⟨(), (check_len_str_ok _).mpr hl, rfl⟩⟩⟩
  | none =>
    unfold authorField
    simp only [instance_of_str, error_bind]
    exact ⟨fun hh => Except.noConfusion hh, fun hh => PyVal.noConfusion hh.1⟩
  | int n0 =>
    unfold authorField
    simp only [instance_of_str, error_bind]
    exact ⟨fun hh => Except.noConfusion hh, fun hh => PyVal.noConfusion hh.1⟩
  | float q =>
    unfold authorField
    simp only [instance_of_str, error_bind]
    exact ⟨fun hh => Except.noConfusion hh, fun hh => PyVal.noConfusion hh.1⟩

theorem strField_eq_ok (attr : String) (v : PyVal) (s : PyStr) :
    strField attr v = .ok s ↔ v = .str s ∧ lenOk s = true := by
  cases v with
  | str s0 =>
    constructor
    · intro h
      unfold strField at h
      rcases (bind_eq_ok _ _ _).mp h with ⟨a, ha, h⟩
      rcases (bind_eq_ok _ _ _).mp h with ⟨u, hl, h⟩
      have hs : a = s := (pure_eq_ok _ _).mp h
      have hv : PyVal.str s0 = PyVal.str a :=
        (instance_of_str_eq_ok _ _ _).mp ha
      cases hv
      cases hs
      cases u
      exact ⟨rfl, (check_len_str_ok _).mp hl⟩
    · rintro ⟨hv, hl⟩
      cases hv
      unfold strField
      exact (bind_eq_ok _ _ _).mpr ⟨s, rfl,
        (bind_eq_ok _ _ _).mpr ⟨(), (check_len_str_ok _).mpr hl, rfl⟩⟩
  | none =>
    unfold strField
    simp only [instance_of_str, error_bind]
    exact ⟨fun hh => Except.noConfusion hh, fun hh => PyVal.noConfusion hh.1⟩
  | int n0 =>
    unfold strField
    simp only [instance_of_str, error_bind]
    exact ⟨fun hh => Except.noConfusion hh, fun hh => PyVal.noConfusion hh.1⟩
  | float q =>
    unfold strField
    simp only [instance_of_str, error_bind]
    exact ⟨fun hh => Except.noConfusion hh, fun hh => PyVal.noConfusion hh.1⟩

theorem optField_eq_ok (v : Option PyVal) (o : Option PyStr) :
    optField v = .ok o ↔
      (v.getD PyVal.none = PyVal.none ∧ o = Option.none) ∨
        (∃ s, v.getD PyVal.none = PyVal.str s ∧ lenOk s = true ∧
          o = some s) := by
  cases hw : v.getD PyVal.none with
  | none =>
    simp only [optField, hw, check_str, check_len, ok_bind]
    constructor
    · intro hh
      cases hh
      refine Or.inl ⟨?_, rfl⟩
      trivial
    · rintro (⟨-, rfl⟩ | ⟨s2, hs2, -⟩)
      · rfl
      · cases hs2
  | str s2 =>
    simp only [optField, hw, check_str, ok_bind]
    constructor
    · intro h
      rcases (bind_eq_ok _ _ _).mp h with ⟨u, hl, h⟩
      cases u
      have ho : some s2 = o := (pure_eq_ok _ _).mp h
      cases ho
      exact Or.inr ⟨s2, rfl, (check_len_str_ok _).mp hl, rfl⟩
    · rintro (⟨hh, -⟩ | ⟨s3, hs3, hl, rfl⟩)
      · cases hh
      · cases hs3
        exact (bind_eq_ok _ _ _).mpr ⟨(), (check_len_str_ok _).mpr hl, rfl⟩
  | int n0 =>
    simp only [optField, hw, check_str, error_bind]
    constructor
    · intro hh; cases hh
    · rintro (⟨hh, -⟩ | ⟨s3, hs3, -⟩)
      · cases hh
      · cases hs3
  | float q =>
    simp only [optField, hw, check_str, error_bind]
    constructor
    · intro hh; cases hh
    · rintro (⟨hh, -⟩ | ⟨s3, hs3, -⟩)
      · cases hh
      · cases hs3

theorem mkBook_eq_ok (year_now : ℤ) (a t y p : PyVal)
    (o1 o2 o3 o4 o5 o6 o7 o8 : Option PyVal) (b : Book) :
    mkBook year_now a t y p o1 o2 o3 o4 o5 o6 o7 o8 = .ok b ↔
      convert_year y = .ok b.year ∧ authorField a = .ok b.author ∧
      strField "title" t = .ok b.title ∧
      check_year year_now b.year = .ok () ∧
      strField "publisher" p = .ok b.publisher ∧
      optField o1 = .ok b.address ∧ optField o2 = .ok b.edition ∧
      optField o3 = .ok b.editor ∧ optField o4 = .ok b.month ∧
      optField o5 = .ok b.note ∧ optField o6 = .ok b.number ∧
      optField o7 = .ok b.series ∧ optField o8 = .ok b.volume := by
  constructor
  · intro h
    unfold mkBook at h
    rcases (bind_eq_ok _ _ _).mp h with ⟨yv, hy, h⟩
    rcases (bind_eq_ok _ _ _).mp h with ⟨av, ha, h⟩
    rcases (bind_eq_ok _ _ _).mp h with ⟨tv, ht, h⟩
    rcases (bind_eq_ok _ _ _).mp h with ⟨u, hcy, h⟩
    rcases (bind_eq_ok _ _ _).mp h with ⟨pv, hp, h⟩
    rcases (bind_eq_ok _ _ _).mp h with ⟨w1, h1, h⟩
    rcases (bind_eq_ok _ _ _).mp h with ⟨w2, h2, h⟩
    rcases (bind_eq_ok _ _ _).mp h with ⟨w3, h3, h⟩
    rcases (bind_eq_ok _ _ _).mp h with ⟨w4, h4, h⟩
    rcases (bind_eq_ok _ _ _).mp h with ⟨w5, h5, h⟩
    rcases (bind_eq_ok _ _ _).mp h with ⟨w6, h6, h⟩
    rcases (bind_eq_ok _ _ _).mp h with ⟨w7, h7, h⟩
    rcases (bind_eq_ok _ _ _).mp h with ⟨w8, h8, h⟩
    have hb := (pure_eq_ok _ _).mp h
    cases u
    subst hb
    exact ⟨hy, ha, ht, hcy, hp, h1, h2, h3, h4, h5, h6, h7, h8⟩
  · rintro ⟨hy, ha, ht, hcy, hp, h1, h2, h3, h4, h5, h6, h7, h8⟩
    unfold mkBook
    exact (bind_eq_ok _ _ _).mpr ⟨b.year, hy,
      (bind_eq_ok _ _ _).mpr ⟨b.author, ha,
      (bind_eq_ok _ _ _).mpr ⟨b.title, ht,
      (bind_eq_ok _ _ _).mpr ⟨(), hcy,
      (bind_eq_ok _ _ _).mpr ⟨b.publisher, hp,
      (bind_eq_ok _ _ _).mpr ⟨b.address, h1,
      (bind_eq_ok _ _ _).mpr ⟨b.edition, h2,
      (bind_eq_ok _ _ _).mpr ⟨b.editor, h3,
      (bind_eq_ok _ _ _).mpr ⟨b.month, h4,
      (bind_eq_ok _ _ _).mpr ⟨b.note, h5,
      (bind_eq_ok _ _ _).mpr ⟨b.number, h6,
      (bind_eq_ok _ _ _).mpr ⟨b.series, h7,
      (bind_eq_ok _ _ _).mpr ⟨b.volume, h8, rfl⟩⟩⟩⟩⟩⟩⟩⟩⟩⟩⟩⟩⟩

theorem mkArticle_eq_ok (year_now : ℤ) (a j t y : PyVal)
    (o1 o2 o3 o4 o5 : Option PyVal) (b : Article) :
    mkArticle year_now a j t y o1 o2 o3 o4 o5 = .ok b ↔
      convert_year y = .ok b.year ∧ authorField a = .ok b.author ∧
      strField "journal" j = .ok b.journal ∧
      strField "title" t = .ok b.title ∧
      check_year year_now b.year = .ok () ∧
      optField o1 = .ok b.month ∧ optField o2 = .ok b.note ∧
      optField o3 = .ok b.number ∧ optField o4 = .ok b.pages ∧
      optField o5 = .ok b.volume := by
  constructor
  · intro h
    unfold mkArticle at h
    rcases (bind_eq_ok _ _ _).mp h with ⟨yv, hy, h⟩
    rcases (bind_eq_ok _ _ _).mp h with ⟨av, ha, h⟩
    rcases (bind_eq_ok _ _ _).mp h with ⟨jv, hj, h⟩
    rcases (bind_eq_ok _ _ _).mp h with ⟨tv, ht, h⟩
    rcases (bind_eq_ok _ _ _).mp h with ⟨u, hcy, h⟩
    rcases (bind_eq_ok _ _ _).mp h with ⟨w1, h1, h⟩
    rcases (bind_eq_ok _ _ _).mp h with ⟨w2, h2, h⟩
    rcases (bind_eq_ok _ _ _).mp h with ⟨w3, h3, h⟩
    rcases (bind_eq_ok _ _ _).mp h with ⟨w4, h4, h⟩
    rcases (bind_eq_ok _ _ _).mp h with ⟨w5, h5, h⟩
    have hb := (pure_eq_ok _ _).mp h
    cases u
    subst hb
    exact ⟨hy, ha, hj, ht, hcy, h1, h2, h3, h4, h5⟩
  · rintro ⟨hy, ha, hj, ht, hcy, h1, h2, h3, h4, h5⟩
    unfold mkArticle
    exact (bind_eq_ok _ _ _).mpr ⟨b.year, hy,
      (bind_eq_ok _ _ _).mpr ⟨b.author, ha,
      (bind_eq_ok _ _ _).mpr ⟨b.journal, hj,
      (bind_eq_ok _ _ _).mpr ⟨b.title, ht,
      (bind_eq_ok _ _ _).mpr ⟨(), hcy,
      (bind_eq_ok _ _ _).mpr ⟨b.month, h1,
      (bind_eq_ok _ _ _).mpr ⟨b.note, h2,
      (bind_eq_ok _ _ _).mpr ⟨b.number, h3,
      (bind_eq_ok _ _ _).mpr ⟨b.pages, h4,
      (bind_eq_ok _ _ _).mpr ⟨b.volume, h5, rfl⟩⟩⟩⟩⟩⟩⟩⟩⟩⟩

theorem mkInproceedings_eq_ok (year_now : ℤ) (a t y bk : PyVal)
    (o1 o2 o3 o4 o5 o6 o7 o8 o9 o10 : Option PyVal) (b : Inproceedings) :
    mkInproceedings year_now a t y bk o1 o2 o3 o4 o5 o6 o7 o8 o9 o10 =
        .ok b ↔
      convert_year y = .ok b.year ∧ authorField a = .ok b.author ∧
      strField "title" t = .ok b.title ∧
      check_year year_now b.year = .ok () ∧
      strField "booktitle" bk = .ok b.booktitle ∧
      optField o1 = .ok b.address ∧ optField o2 = .ok b.editor ∧
      optField o3 = .ok b.month ∧ optField o4 = .ok b.note ∧
      optField o5 = .ok b.number ∧ optField o6 = .ok b.organization ∧
      optField o7 = .ok b.pages ∧ optField o8 = .ok b.publisher ∧
      optField o9 = .ok b.series ∧ optField o10 = .ok b.volume := by
  constructor
  · intro h
    unfold mkInproceedings at h
    rcases (bind_eq_ok _ _ _).mp h with ⟨yv, hy, h⟩
    rcases (bind_eq_ok _ _ _).mp h with ⟨av, ha, h⟩
    rcases (bind_eq_ok _ _ _).mp h with ⟨tv, ht, h⟩
    rcases (bind_eq_ok _ _ _).mp h with ⟨u, hcy, h⟩
    rcases (bind_eq_ok _ _ _).mp h with ⟨bv, hbk, h⟩
    rcases (bind_eq_ok _ _ _).mp h with ⟨w1, h1, h⟩
    rcases (bind_eq_ok _ _ _).mp h with ⟨w2, h2, h⟩
    rcases (bind_eq_ok _ _ _).mp h with ⟨w3, h3, h⟩
    rcases (bind_eq_ok _ _ _).mp h with ⟨w4, h4, h⟩
    rcases (bind_eq_ok _ _ _).mp h with ⟨w5, h5, h⟩
    rcases (bind_eq_ok _ _ _).mp h with ⟨w6, h6, h⟩
    rcases (bind_eq_ok _ _ _).mp h with ⟨w7, h7, h⟩
    rcases (bind_eq_ok _ _ _).mp h with ⟨w8, h8, h⟩
    rcases (bind_eq_ok _ _ _).mp h with ⟨w9, h9, h⟩
    rcases (bind_eq_ok _ _ _).mp h with ⟨w10, h10, h⟩
    have hb := (pure_eq_ok _ _).mp h
    cases u
    subst hb
    exact ⟨hy, ha, ht, hcy, hbk, h1, h2, h3, h4, h5, h6, h7, h8, h9, h10⟩
  · rintro ⟨hy, ha, ht, hcy, hbk, h1, h2, h3, h4, h5, h6, h7, h8, h9, h10⟩
    unfold mkInproceedings
    exact (bind_eq_ok _ _ _).mpr ⟨b.year, hy,
      (bind_eq_ok _ _ _).mpr ⟨b.author, ha,
      (bind_eq_ok _ _ _).mpr ⟨b.title, ht,
      (bind_eq_ok _ _ _).mpr ⟨(), hcy,
      (bind_eq_ok _ _ _).mpr ⟨b.booktitle, hbk,
      (bind_eq_ok _ _ _).mpr ⟨b.address, h1,
      (bind_eq_ok _ _ _).mpr ⟨b.editor, h2,
      (bind_eq_ok _ _ _).mpr ⟨b.month, h3,
      (bind_eq_ok _ _ _).mpr ⟨b.note, h4,
      (bind_eq_ok _ _ _).mpr ⟨b.number, h5,
      (bind_eq_ok _ _ _).mpr ⟨b.organization, h6,
      (bind_eq_ok _ _ _).mpr ⟨b.pages, h7,
      (bind_eq_ok _ _ _).mpr ⟨b.publisher, h8,
      (bind_eq_ok _ _ _).mpr ⟨b.series, h9,
      (bind_eq_ok _ _ _).mpr ⟨b.volume, h10, rfl⟩⟩⟩⟩⟩⟩⟩⟩⟩⟩⟩⟩⟩⟩⟩

theorem pySplitAux_cons_nospace (c : Char) (cs acc : PyStr)
    (hc : pyIsSpace c = false) :
    pySplitAux (c :: cs) acc = pySplitAux cs (c :: acc) := by
  simp [pySplitAux, hc]

theorem pySplitAux_cons_space (c : Char) (cs acc : PyStr)
    (hc : pyIsSpace c = true) :
    pySplitAux (c :: cs) acc =
      if acc.isEmpty then pySplitAux cs []
      else acc.reverse :: pySplitAux cs [] := by
  simp [pySplitAux, hc]

theorem pySplitAux_nospace (l : PyStr) (acc : PyStr)
    (h : ∀ c ∈ l, pyIsSpace c = false) (hne : acc.reverse ++ l ≠ []) :
    pySplitAux l acc = [acc.reverse ++ l] := by
  induction l generalizing acc with
  | nil =>
    cases acc with
    | nil => simp at hne
    | cons a as => simp [pySplitAux]
  | cons c cs ih =>
    have hc : pyIsSpace c = false := h c (List.mem_cons_self c cs)
    have hcs : ∀ d ∈ cs, pyIsSpace d = false :=
      fun d hd => h d (List.mem_cons_of_mem c hd)
    rw [pySplitAux_cons_nospace c cs acc hc]
    rw [ih (c :: acc) hcs (by simp)]
    simp [List.reverse_cons, List.append_assoc]

theorem pySplit_nospace (l : PyStr) (hne : l ≠ [])
    (h : ∀ c ∈ l, pyIsSpace c = false) : pySplit l = [l] := by
  unfold pySplit
  rw [pySplitAux_nospace l [] h (by simpa using hne)]
  simp

theorem pySplitAux_prepend (l rest acc : PyStr)
    (h : ∀ c ∈ l, pyIsSpace c = false) :
    pySplitAux (l ++ rest) acc = pySplitAux rest (l.reverse ++ acc) := by
  induction l generalizing acc with
  | nil => simp
  | cons c cs ih =>
    have hc : pyIsSpace c = false := h c (List.mem_cons_self c cs)
    have hcs : ∀ d ∈ cs, pyIsSpace d = false :=
      fun d hd => h d (List.mem_cons_of_mem c hd)
    rw [List.cons_append, pySplitAux_cons_nospace c (cs ++ rest) acc hc]
    rw [ih (c :: acc) hcs]
    simp [List.reverse_cons, List.append_assoc]

theorem pySplit_two (l1 l2 : PyStr) (h1ne : l1 ≠ []) (h2ne : l2 ≠ [])
    (h1 : ∀ c ∈ l1, pyIsSpace c = false)
    (h2 : ∀ c ∈ l2, pyIsSpace c = false) :
    pySplit (l1 ++ ' ' :: l2) = [l1, l2] := by
  unfold pySplit
  rw [pySplitAux_prepend l1 (' ' :: l2) [] h1]
  rw [pySplitAux_cons_space ' ' l2 (l1.reverse ++ []) (by decide)]
  rw [if_neg (by simp [h1ne])]
  rw [pySplitAux_nospace l2 [] h2 (by simpa using h2ne)]
  simp

theorem replicate_nospace (n : ℕ) (c : Char) (hc : pyIsSpace c = false) :
    ∀ d ∈ List.replicate n c, pyIsSpace d = false :=
  fun d hd => by rw [List.eq_of_mem_replicate hd]; exact hc

theorem replicate_strIsAlpha (n : ℕ) (c : Char) (hn : 0 < n)
    (hc : pyIsAlpha c = true) :
    pyStrIsAlpha (List.replicate n c) = true := by
  unfold pyStrIsAlpha
  rw [Bool.and_eq_true]
  constructor
  · cases n with
    | zero => omega
    | succ m => simp [List.replicate]
  · rw [List.all_eq_true]
    intro d hd
    rw [List.eq_of_mem_replicate hd]
    exact hc

theorem check_len_str_long (s : PyStr) (h : 5000 < s.length) :
    check_len (.str s) = .error .strTooLong := by
  simp [check_len, if_pos h]

theorem strField_long (attr : String) (s : PyStr) (h : 5000 < s.length) :
    strField attr (.str s) = .error .strTooLong := by
  unfold strField
  simp only [instance_of_str, ok_bind, check_len_str_long s h, error_bind]

theorem optField_long (s : PyStr) (h : 5000 < s.length) :
    optField (some (.str s)) = .error .strTooLong := by
  simp only [optField, Option.getD_some, check_str, ok_bind,
    check_len_str_long s h, error_bind]

theorem authorField_long (s : PyStr) (hn : check_name (.str s) = .ok ())
    (h : 5000 < s.length) : authorField (.str s) = .error .strTooLong := by
  unfold authorField
  simp only [instance_of_str, ok_bind, hn, check_len_str_long s h,
    error_bind]

theorem check_name_str_error (s : PyStr) (e : Err)
    (h : check_name (.str s) = .error e) :
    e = .nameTooShort ∨ e = .nameNotAlpha := by
  simp only [check_name] at h
  by_cases h1 : (pySplit s).length < 2
  · rw [if_pos h1] at h
    cases h
    exact Or.inl rfl
  · rw [if_neg h1] at h
    by_cases h2 : (pySplit s).all pyStrIsAlpha = true
    · rw [if_pos h2] at h
      cases h
    · rw [if_neg h2] at h
      cases h
      exact Or.inr rfl

theorem strField_short (attr : String) (s : PyStr) (h : s.length ≤ 5000) :
    strField attr (.str s) = .ok s :=
  (strField_eq_ok attr _ s).mpr ⟨rfl, by simp [lenOk, h]⟩

theorem optField_short (s : PyStr) (h : s.length ≤ 5000) :
    optField (some (.str s)) = .ok (some s) :=
  (optField_eq_ok _ _).mpr (Or.inr ⟨s, rfl, by simp [lenOk, h], rfl⟩)

theorem authorField_ne_strTooLong (s : PyStr) (h : s.length ≤ 5000) :
    authorField (.str s) ≠ .error .strTooLong := by
  unfold authorField
  simp only [instance_of_str, ok_bind]
  cases hn : check_name (.str s) with
  | error e =>
    rcases check_name_str_error s e hn with rfl | rfl <;>
      simp [error_bind]
  | ok u =>
    cases u
    have hl : check_len (.str s) = .ok () :=
      (check_len_str_ok s).mpr (by simp [lenOk, h])
    simp [ok_bind, hl]

theorem authorField_reinject (v : PyVal) (s : PyStr)
    (h : authorField v = .ok s) : authorField (.str s) = .ok s := by
  rcases (authorField_eq_ok v s).mp h with ⟨rfl, -, -⟩
  exact h

theorem strField_reinject (attr : String) (v : PyVal) (s : PyStr)
    (h : strField attr v = .ok s) : strField attr (.str s) = .ok s := by
  rcases (strField_eq_ok attr v s).mp h with ⟨rfl, -⟩
  exact h

theorem optField_reinject (v : Option PyVal) (o : Option PyStr)
    (h : optField v = .ok o) : optField (some (pyOfOpt o)) = .ok o := by
  rcases (optField_eq_ok v o).mp h with ⟨-, rfl⟩ | ⟨s, -, hl, rfl⟩
  · rfl
  · exact optField_short s (by simpa [lenOk] using hl)

theorem optOk_of_optField (v : Option PyVal) (o : Option PyStr)
    (h : optField v = .ok o) : optOk o = true := by
  rcases (optField_eq_ok v o).mp h with ⟨-, rfl⟩ | ⟨s, -, hl, rfl⟩
  · rfl
  · simpa [optOk] using hl

theorem authorField_valid (v : PyVal) (h : validAuthorInput v = true) :
    authorField v = .ok (pyStrOf v) := by
  cases v with
  | str s =>
    simp only [validAuthorInput, Bool.and_eq_true] at h
    exact (authorField_eq_ok _ _).mpr ⟨rfl, h.1, h.2⟩
  | none => simp [validAuthorInput] at h
  | int n => simp [validAuthorInput] at h
  | float q => simp [validAuthorInput] at h

theorem strField_valid (attr : String) (v : PyVal)
    (h : validStrInput v = true) : strField attr v = .ok (pyStrOf v) := by
  cases v with
  | str s => exact (strField_eq_ok _ _ _).mpr ⟨rfl, h⟩
  | none => simp [validStrInput] at h
  | int n => simp [validStrInput] at h
  | float q => simp [validStrInput] at h

theorem optField_valid (v : Option PyVal) (h : validOptInput v = true) :
    optField v = .ok (pyOptStrOf v) := by
  unfold validOptInput at h
  unfold pyOptStrOf
  cases hw : v.getD PyVal.none with
  | none => exact (optField_eq_ok _ _).mpr (Or.inl ⟨hw, rfl⟩)
  | str s =>
    rw [hw] at h
    exact (optField_eq_ok _ _).mpr (Or.inr ⟨s, hw, h, rfl⟩)
  | int n => rw [hw] at h; cases h
  | float q => rw [hw] at h; cases h

theorem convert_year_valid (year_now : ℤ) (v : PyVal)
    (h : validYearInput year_now v = true) :
    convert_year v = .ok ((pyInt v).getD 0) ∧
      check_year year_now ((pyInt v).getD 0) = .ok () := by
  unfold validYearInput at h
  cases hy : pyInt v with
  | none => rw [hy] at h; cases h
  | some n =>
    rw [hy] at h
    exact ⟨(convert_year_eq_ok _ _).mpr hy, (check_year_ok _ _).mpr h⟩

theorem book_inv_iff (year_now : ℤ) (b : Book) :
    Book.inv year_now b = true ↔
      nameOk b.author = true ∧ lenOk b.author = true ∧
      lenOk b.title = true ∧ yearOk year_now b.year = true ∧
      lenOk b.publisher = true ∧ optOk b.address = true ∧
      optOk b.edition = true ∧ optOk b.editor = true ∧
      optOk b.month = true ∧ optOk b.note = true ∧
      optOk b.number = true ∧ optOk b.series = true ∧
      optOk b.volume = true := by
  simp [Book.inv, Bool.and_eq_true, and_assoc]

theorem article_inv_iff (year_now : ℤ) (b : Article) :
    Article.inv year_now b = true ↔
      nameOk b.author = true ∧ lenOk b.author = true ∧
      lenOk b.journal = true ∧ lenOk b.title = true ∧
      yearOk year_now b.year = true ∧ optOk b.month = true ∧
      optOk b.note = true ∧ optOk b.number = true ∧
      optOk b.pages = true ∧ optOk b.volume = true := by
  simp [Article.inv, Bool.and_eq_true, and_assoc]

theorem inproceedings_inv_iff (year_now : ℤ) (b : Inproceedings) :
    Inproceedings.inv year_now b = true ↔
      nameOk b.author = true ∧ lenOk b.author = true ∧
      lenOk b.title = true ∧ yearOk year_now b.year = true ∧
      lenOk b.booktitle = true ∧ optOk b.address = true ∧
      optOk b.editor = true ∧ optOk b.month = true ∧
      optOk b.note = true ∧ optOk b.number = true ∧
      optOk b.organization = true ∧ optOk b.pages = true ∧
      optOk b.publisher = true ∧ optOk b.series = true ∧
      optOk b.volume = true := by
  simp [Inproceedings.inv, Bool.and_eq_true, and_assoc]

/-! ### Claim theorems -/

/-- Claim C1, counterexample: the claim says the alphabetic test rejects
accented characters, but the code's `str.isalpha` is Unicode character
classification, so the accented author string "José García" passes
`check_name` and the whole author validator chain, while the claim's
strict reading (`claimStrictNameOk`, ASCII letters only) requires its
rejection — refuting the claimed iff at this input. -/
theorem C1_counterexample :
    check_name (.str "José García".toList) = .ok () ∧
      authorField (.str "José García".toList) = .ok "José García".toList ∧
      claimStrictNameOk "José García".toList = false :=
  ⟨by decide, by decide, by decide⟩

/-- Claim C1, amended: the name-format check accepts an author string iff
it splits into at least two whitespace-separated tokens, each purely
alphabetic under Python's Unicode `str.isalpha` classification; hyphens
and apostrophes are rejected, but accented letters are accepted. -/
theorem C1_amended :
    (∀ s : PyStr, check_name (.str s) = .ok () ↔
      2 ≤ (pySplit s).length ∧ (pySplit s).all pyStrIsAlpha = true) ∧
    check_name (.str "José García".toList) = .ok () ∧
    check_name (.str "Jean-Luc Picard".toList) = .error .nameNotAlpha ∧
    check_name (.str "O\x27Brien Pat".toList) = .error .nameNotAlpha := by
  refine ⟨?_, by decide, by decide, by decide⟩
  intro s
  rw [check_name_str_ok]
  simp [nameOk, Bool.and_eq_true]

/-- Claim C2: construction succeeds on the `year` field iff the supplied
value is `int`-coercible and the coerced integer lies in
`[500, current_year + 5]` (the current year is the `year_now` parameter,
read from the clock at validation time); a coercion failure surfaces as
the converter's type error (`intCoerce`), never as the range error
(`yearRange`).  Stated for `Book`, `Article` and `Inproceedings` with
fixed valid values for the other required fields. -/
theorem C2_year_iff :
    (∀ (year_now : ℤ) (v : PyVal),
      (∃ b, mkBook year_now (.str authorRM) (.str titleCC) v (.str pubPH)
          Option.none Option.none Option.none Option.none Option.none
          Option.none Option.none Option.none = .ok b) ↔
        (∃ n, pyInt v = some n ∧ 500 ≤ n ∧ n ≤ year_now + 5)) ∧
    (∀ (year_now : ℤ) (v : PyVal), pyInt v = Option.none →
      mkBook year_now (.str authorRM) (.str titleCC) v (.str pubPH)
        Option.none Option.none Option.none Option.none Option.none
        Option.none Option.none Option.none = .error .intCoerce) ∧
    (∀ (year_now : ℤ) (v : PyVal) (n : ℤ), pyInt v = some n →
      ¬(500 ≤ n ∧ n ≤ year_now + 5) →
      mkBook year_now (.str authorRM) (.str titleCC) v (.str pubPH)
        Option.none Option.none Option.none Option.none Option.none
        Option.none Option.none Option.none =
        .error (.yearRange (year_now + 5))) ∧
    (∀ (year_now : ℤ) (v : PyVal),
      (∃ b, mkArticle year_now (.str authorRM) (.str journalAE)
          (.str titleCC) v Option.none Option.none Option.none Option.none
          Option.none = .ok b) ↔
        (∃ n, pyInt v = some n ∧ 500 ≤ n ∧ n ≤ year_now + 5)) ∧
    (∀ (year_now : ℤ) (v : PyVal),
      (∃ b, mkInproceedings year_now (.str authorRM) (.str titleCC) v
          (.str bookSIG) Option.none Option.none Option.none Option.none
          Option.none Option.none Option.none Option.none Option.none
          Option.none = .ok b) ↔
        (∃ n, pyInt v = some n ∧ 500 ≤ n ∧ n ≤ year_now + 5)) := by
  refine ⟨?_, ?_, ?_, ?_, ?_⟩
  · intro year_now v
    constructor
    · rintro ⟨b, hb⟩
      rcases (mkBook_eq_ok _ _ _ _ _ _ _ _ _ _ _ _ _ _).mp hb with
        ⟨hy, -, -, hcy, -, -, -, -, -, -, -, -, -⟩
      refine ⟨b.year, (convert_year_eq_ok _ _).mp hy, ?_⟩
      simpa [yearOk] using (check_year_ok _ _).mp hcy
    · rintro ⟨n, hn, hr⟩
      refine ⟨⟨authorRM, titleCC, n, pubPH, Option.none, Option.none,
        Option.none, Option.none, Option.none, Option.none, Option.none,
        Option.none⟩, (mkBook_eq_ok _ _ _ _ _ _ _ _ _ _ _ _ _ _).mpr
        ⟨(convert_year_eq_ok _ _).mpr hn, rfl, rfl,
          (check_year_ok _ _).mpr (by simpa [yearOk] using hr), rfl, rfl,
          rfl, rfl, rfl, rfl, rfl, rfl, rfl⟩⟩
  · intro year_now v h
    unfold mkBook convert_year
    rw [h]
    rfl
  · intro year_now v n hn hr
    have hA : authorField (.str authorRM) = .ok authorRM := rfl
    have hT : strField "title" (.str titleCC) = .ok titleCC := rfl
    have hC : check_year year_now n = .error (.yearRange (year_now + 5)) := by
      unfold check_year
      rw [if_pos (by omega)]
    simp only [mkBook, convert_year, hn, hA, hT, hC, ok_bind, error_bind]
  · intro year_now v
    constructor
    · rintro ⟨b, hb⟩
      rcases (mkArticle_eq_ok _ _ _ _ _ _ _ _ _ _ _).mp hb with
        ⟨hy, -, -, -, hcy, -, -, -, -, -⟩
      refine ⟨b.year, (convert_year_eq_ok _ _).mp hy, ?_⟩
      simpa [yearOk] using (check_year_ok _ _).mp hcy
    · rintro ⟨n, hn, hr⟩
      refine ⟨⟨authorRM, journalAE, titleCC, n, Option.none, Option.none,
        Option.none, Option.none, Option.none⟩,
        (mkArticle_eq_ok _ _ _ _ _ _ _ _ _ _ _).mpr
        ⟨(convert_year_eq_ok _ _).mpr hn, rfl, rfl, rfl,
          (check_year_ok _ _).mpr (by simpa [yearOk] using hr), rfl, rfl,
          rfl, rfl, rfl⟩⟩
  · intro year_now v
    constructor
    · rintro ⟨b, hb⟩
      rcases (mkInproceedings_eq_ok _ _ _ _ _ _ _ _ _ _ _ _ _ _ _ _).mp hb
        with ⟨hy, -, -, hcy, -, -, -, -, -, -, -, -, -, -, -⟩
      refine ⟨b.year, (convert_year_eq_ok _ _).mp hy, ?_⟩
      simpa [yearOk] using (check_year_ok _ _).mp hcy
    · rintro ⟨n, hn, hr⟩
      refine ⟨⟨authorRM, titleCC, n, bookSIG, Option.none, Option.none,
        Option.none, Option.none, Option.none, Option.none, Option.none,
        Option.none, Option.none, Option.none⟩,
        (mkInproceedings_eq_ok _ _ _ _ _ _ _ _ _ _ _ _ _ _ _ _).mpr
        ⟨(convert_year_eq_ok _ _).mpr hn, rfl, rfl,
          (check_year_ok _ _).mpr (by simpa [yearOk] using hr), rfl, rfl,
          rfl, rfl, rfl, rfl, rfl, rfl, rfl, rfl, rfl⟩⟩

/-- Witness for C2: the uncoercible string "abc" fails with the converter
error, the out-of-range integer 2999 (under current year 2026) fails with
the range error, and the coercible string "2008" succeeds. -/
theorem C2_year_iff_witness :
    pyInt (.str "abc".toList) = Option.none ∧
    mkBook 2026 (.str authorRM) (.str titleCC) (.str "abc".toList)
      (.str pubPH) Option.none Option.none Option.none Option.none
      Option.none Option.none Option.none Option.none =
      .error .intCoerce ∧
    pyInt (.int 2999) = some 2999 ∧
    ¬((500 : ℤ) ≤ 2999 ∧ (2999 : ℤ) ≤ 2026 + 5) ∧
    mkBook 2026 (.str authorRM) (.str titleCC) (.int 2999) (.str pubPH)
      Option.none Option.none Option.none Option.none Option.none
      Option.none Option.none Option.none =
      .error (.yearRange (2026 + 5)) ∧
    (∃ n, pyInt (.str "2008".toList) = some n ∧ 500 ≤ n ∧ n ≤ (2026 : ℤ) + 5) ∧
    (∃ b, mkBook 2026 (.str authorRM) (.str titleCC) (.str "2008".toList)
      (.str pubPH) Option.none Option.none Option.none Option.none
      Option.none Option.none Option.none Option.none = .ok b) :=
  ⟨by decide,
   C2_year_iff.2.1 2026 (.str "abc".toList) (by decide),
   by decide,
   by decide,
   C2_year_iff.2.2.1 2026 (.int 2999) 2999 (by decide) (by decide),
   ⟨2008, by decide, by decide, by decide⟩,
   (C2_year_iff.1 2026 (.str "2008".toList)).mpr
     ⟨2008, by decide, by decide, by decide⟩⟩

/-- Claim C3, counterexample: `attrs.define` classes are not frozen, so an
instance is not immutable — after constructing the Martin09 book,
assigning a new valid title through the generated `__setattr__` succeeds
and changes the field, i.e. a later-mutation path exists. -/
theorem C3_counterexample :
    mkBook 2026 (.str authorRM) (.str titleCC) (.int 2008) (.str pubPH)
      Option.none Option.none Option.none Option.none Option.none
      Option.none Option.none Option.none = .ok martinBook ∧
    Book.setattr 2026 martinBook .title (.str "Refactoring".toList) =
      .ok { martinBook with title := "Refactoring".toList } ∧
    ({ martinBook with title := "Refactoring".toList }).title ≠
      martinBook.title :=
  ⟨by decide, by decide, by decide⟩

/-- Claim C3, amended: instances are mutable — attribute reassignment after
construction is a supported update path — but every reassignment first
re-runs the field's converter and validator list and stores only accepted
values: for every attribute of all three entry types, reassignment
succeeds exactly when the new raw value passes that field's checks (name
format and length for `author`, string-within-limit for the required
string fields, `int` conversion — the converter visibly re-runs — and
range for `year`, `None`-or-short-string for the optionals), and then
replaces precisely that field; a rejected value yields an error and no
new state. -/
theorem C3_amended :
    (∀ (year_now : ℤ) (b b2 : Book) (v : PyVal),
      Book.setattr year_now b .author v = .ok b2 ↔
        ∃ s, v = .str s ∧ nameOk s = true ∧ lenOk s = true ∧
          b2 = { b with author := s }) ∧
    (∀ (year_now : ℤ) (b b2 : Book) (v : PyVal),
      Book.setattr year_now b .title v = .ok b2 ↔
        ∃ s, v = .str s ∧ lenOk s = true ∧
          b2 = { b with title := s }) ∧
    (∀ (year_now : ℤ) (b b2 : Book) (v : PyVal),
      Book.setattr year_now b .year v = .ok b2 ↔
        ∃ n, pyInt v = some n ∧ yearOk year_now n = true ∧
          b2 = { b with year := n }) ∧
    (∀ (year_now : ℤ) (b b2 : Book) (v : PyVal),
      Book.setattr year_now b .publisher v = .ok b2 ↔
        ∃ s, v = .str s ∧ lenOk s = true ∧
          b2 = { b with publisher := s }) ∧
    (∀ (year_now : ℤ) (b b2 : Book) (v : PyVal),
      Book.setattr year_now b .address v = .ok b2 ↔
        ((v = PyVal.none ∧ b2 = { b with address := Option.none }) ∨
          ∃ s, v = .str s ∧ lenOk s = true ∧
            b2 = { b with address := some s })) ∧
    (∀ (year_now : ℤ) (b b2 : Book) (v : PyVal),
      Book.setattr year_now b .edition v = .ok b2 ↔
        ((v = PyVal.none ∧ b2 = { b with edition := Option.none }) ∨
          ∃ s, v = .str s ∧ lenOk s = true ∧
            b2 = { b with edition := some s })) ∧
    (∀ (year_now : ℤ) (b b2 : Book) (v : PyVal),
      Book.setattr year_now b .editor v = .ok b2 ↔
        ((v = PyVal.none ∧ b2 = { b with editor := Option.none }) ∨
          ∃ s, v = .str s ∧ lenOk s = true ∧
            b2 = { b with editor := some s })) ∧
    (∀ (year_now : ℤ) (b b2 : Book) (v : PyVal),
      Book.setattr year_now b .month v = .ok b2 ↔
        ((v = PyVal.none ∧ b2 = { b with month := Option.none }) ∨
          ∃ s, v = .str s ∧ lenOk s = true ∧
            b2 = { b with month := some s })) ∧
    (∀ (year_now : ℤ) (b b2 : Book) (v : PyVal),
      Book.setattr year_now b .note v = .ok b2 ↔
        ((v = PyVal.none ∧ b2 = { b with note := Option.none }) ∨
          ∃ s, v = .str s ∧ lenOk s = true ∧
            b2 = { b with note := some s })) ∧
    (∀ (year_now : ℤ) (b b2 : Book) (v : PyVal),
      Book.setattr year_now b .number v = .ok b2 ↔
        ((v = PyVal.none ∧ b2 = { b with number := Option.none }) ∨
          ∃ s, v = .str s ∧ lenOk s = true ∧
            b2 = { b with number := some s })) ∧
    (∀ (year_now : ℤ) (b b2 : Book) (v : PyVal),
      Book.setattr year_now b .series v = .ok b2 ↔
        ((v = PyVal.none ∧ b2 = { b with series := Option.none }) ∨
          ∃ s, v = .str s ∧ lenOk s = true ∧
            b2 = { b with series := some s })) ∧
    (∀ (year_now : ℤ) (b b2 : Book) (v : PyVal),
      Book.setattr year_now b .volume v = .ok b2 ↔
        ((v = PyVal.none ∧ b2 = { b with volume := Option.none }) ∨
          ∃ s, v = .str s ∧ lenOk s = true ∧
            b2 = { b with volume := some s })) ∧
    (∀ (year_now : ℤ) (b b2 : Article) (v : PyVal),
      Article.setattr year_now b .author v = .ok b2 ↔
        ∃ s, v = .str s ∧ nameOk s = true ∧ lenOk s = true ∧
          b2 = { b with author := s }) ∧
    (∀ (year_now : ℤ) (b b2 : Article) (v : PyVal),
      Article.setattr year_now b .journal v = .ok b2 ↔
        ∃ s, v = .str s ∧ lenOk s = true ∧
          b2 = { b with journal := s }) ∧
    (∀ (year_now : ℤ) (b b2 : Article) (v : PyVal),
      Article.setattr year_now b .title v = .ok b2 ↔
        ∃ s, v = .str s ∧ lenOk s = true ∧
          b2 = { b with title := s }) ∧
    (∀ (year_now : ℤ) (b b2 : Article) (v : PyVal),
      Article.setattr year_now b .year v = .ok b2 ↔
        ∃ n, pyInt v = some n ∧ yearOk year_now n = true ∧
          b2 = { b with year := n }) ∧
    (∀ (year_now : ℤ) (b b2 : Article) (v : PyVal),
      Article.setattr year_now b .month v = .ok b2 ↔
        ((v = PyVal.none ∧ b2 = { b with month := Option.none }) ∨
          ∃ s, v = .str s ∧ lenOk s = true ∧
            b2 = { b with month := some s })) ∧
    (∀ (year_now : ℤ) (b b2 : Article) (v : PyVal),
      Article.setattr year_now b .note v = .ok b2 ↔
        ((v = PyVal.none ∧ b2 = { b with note := Option.none }) ∨
          ∃ s, v = .str s ∧ lenOk s = true ∧
            b2 = { b with note := some s })) ∧
    (∀ (year_now : ℤ) (b b2 : Article) (v : PyVal),
      Article.setattr year_now b .number v = .ok b2 ↔
        ((v = PyVal.none ∧ b2 = { b with number := Option.none }) ∨
          ∃ s, v = .str s ∧ lenOk s = true ∧
            b2 = { b with number := some s })) ∧
    (∀ (year_now : ℤ) (b b2 : Article) (v : PyVal),
      Article.setattr year_now b .pages v = .ok b2 ↔
        ((v = PyVal.none ∧ b2 = { b with pages := Option.none }) ∨
          ∃ s, v = .str s ∧ lenOk s = true ∧
            b2 = { b with pages := some s })) ∧
    (∀ (year_now : ℤ) (b b2 : Article) (v : PyVal),
      Article.setattr year_now b .volume v = .ok b2 ↔
        ((v = PyVal.none ∧ b2 = { b with volume := Option.none }) ∨
          ∃ s, v = .str s ∧ lenOk s = true ∧
            b2 = { b with volume := some s })) ∧
    (∀ (year_now : ℤ) (b b2 : Inproceedings) (v : PyVal),
      Inproceedings.setattr year_now b .author v = .ok b2 ↔
        ∃ s, v = .str s ∧ nameOk s = true ∧ lenOk s = true ∧
          b2 = { b with author := s }) ∧
    (∀ (year_now : ℤ) (b b2 : Inproceedings) (v : PyVal),
      Inproceedings.setattr year_now b .title v = .ok b2 ↔
        ∃ s, v = .str s ∧ lenOk s = true ∧
          b2 = { b with title := s }) ∧
    (∀ (year_now : ℤ) (b b2 : Inproceedings) (v : PyVal),
      Inproceedings.setattr year_now b .year v = .ok b2 ↔
        ∃ n, pyInt v = some n ∧ yearOk year_now n = true ∧
          b2 = { b with year := n }) ∧
    (∀ (year_now : ℤ) (b b2 : Inproceedings) (v : PyVal),
      Inproceedings.setattr year_now b .booktitle v = .ok b2 ↔
        ∃ s, v = .str s ∧ lenOk s = true ∧
          b2 = { b with booktitle := s }) ∧
    (∀ (year_now : ℤ) (b b2 : Inproceedings) (v : PyVal),
      Inproceedings.setattr year_now b .address v = .ok b2 ↔
        ((v = PyVal.none ∧ b2 = { b with address := Option.none }) ∨
          ∃ s, v = .str s ∧ lenOk s = true ∧
            b2 = { b with address := some s })) ∧
    (∀ (year_now : ℤ) (b b2 : Inproceedings) (v : PyVal),
      Inproceedings.setattr year_now b .editor v = .ok b2 ↔
        ((v = PyVal.none ∧ b2 = { b with editor := Option.none }) ∨
          ∃ s, v = .str s ∧ lenOk s = true ∧
            b2 = { b with editor := some s })) ∧
    (∀ (year_now : ℤ) (b b2 : Inproceedings) (v : PyVal),
      Inproceedings.setattr year_now b .month v = .ok b2 ↔
        ((v = PyVal.none ∧ b2 = { b with month := Option.none }) ∨
          ∃ s, v = .str s ∧ lenOk s = true ∧
            b2 = { b with month := some s })) ∧
    (∀ (year_now : ℤ) (b b2 : Inproceedings) (v : PyVal),
      Inproceedings.setattr year_now b .note v = .ok b2 ↔
        ((v = PyVal.none ∧ b2 = { b with note := Option.none }) ∨
          ∃ s, v = .str s ∧ lenOk s = true ∧
            b2 = { b with note := some s })) ∧
    (∀ (year_now : ℤ) (b b2 : Inproceedings) (v : PyVal),
      Inproceedings.setattr year_now b .number v = .ok b2 ↔
        ((v = PyVal.none ∧ b2 = { b with number := Option.none }) ∨
          ∃ s, v = .str s ∧ lenOk s = true ∧
            b2 = { b with number := some s })) ∧
    (∀ (year_now : ℤ) (b b2 : Inproceedings) (v : PyVal),
      Inproceedings.setattr year_now b .organization v = .ok b2 ↔
        ((v = PyVal.none ∧ b2 = { b with organization := Option.none }) ∨
          ∃ s, v = .str s ∧ lenOk s = true ∧
            b2 = { b with organization := some s })) ∧
    (∀ (year_now : ℤ) (b b2 : Inproceedings) (v : PyVal),
      Inproceedings.setattr year_now b .pages v = .ok b2 ↔
        ((v = PyVal.none ∧ b2 = { b with pages := Option.none }) ∨
          ∃ s, v = .str s ∧ lenOk s = true ∧
            b2 = { b with pages := some s })) ∧
    (∀ (year_now : ℤ) (b b2 : Inproceedings) (v : PyVal),
      Inproceedings.setattr year_now b .publisher v = .ok b2 ↔
        ((v = PyVal.none ∧ b2 = { b with publisher := Option.none }) ∨
          ∃ s, v = .str s ∧ lenOk s = true ∧
            b2 = { b with publisher := some s })) ∧
    (∀ (year_now : ℤ) (b b2 : Inproceedings) (v : PyVal),
      Inproceedings.setattr year_now b .series v = .ok b2 ↔
        ((v = PyVal.none ∧ b2 = { b with series := Option.none }) ∨
          ∃ s, v = .str s ∧ lenOk s = true ∧
            b2 = { b with series := some s })) ∧
    (∀ (year_now : ℤ) (b b2 : Inproceedings) (v : PyVal),
      Inproceedings.setattr year_now b .volume v = .ok b2 ↔
        ((v = PyVal.none ∧ b2 = { b with volume := Option.none }) ∨
          ∃ s, v = .str s ∧ lenOk s = true ∧
            b2 = { b with volume := some s })) := by
  refine ⟨?_, ?_, ?_, ?_, ?_, ?_, ?_, ?_, ?_, ?_, ?_, ?_, ?_, ?_, ?_, ?_, ?_, ?_, ?_, ?_, ?_, ?_, ?_, ?_, ?_, ?_, ?_, ?_, ?_, ?_, ?_, ?_, ?_, ?_, ?_⟩
  · intro year_now b b2 v
    constructor
    · intro hset
      rcases (bind_eq_ok _ _ _).mp hset with ⟨s, hs, hpure⟩
      rcases (authorField_eq_ok _ _).mp hs with ⟨rfl, hn, hl⟩
      exact ⟨s, rfl, hn, hl, ((pure_eq_ok _ _).mp hpure).symm⟩
    · rintro ⟨s, rfl, hn, hl, rfl⟩
      exact (bind_eq_ok _ _ _).mpr
        ⟨s, (authorField_eq_ok _ _).mpr ⟨rfl, hn, hl⟩, rfl⟩
  · intro year_now b b2 v
    constructor
    · intro hset
      rcases (bind_eq_ok _ _ _).mp hset with ⟨s, hs, hpure⟩
      rcases (strField_eq_ok _ _ _).mp hs with ⟨rfl, hl⟩
      exact ⟨s, rfl, hl, ((pure_eq_ok _ _).mp hpure).symm⟩
    · rintro ⟨s, rfl, hl, rfl⟩
      exact (bind_eq_ok _ _ _).mpr
        ⟨s, (strField_eq_ok _ _ _).mpr ⟨rfl, hl⟩, rfl⟩
  · intro year_now b b2 v
    constructor
    · intro hset
      rcases (bind_eq_ok _ _ _).mp hset with ⟨n, hcv, hrest⟩
      rcases (bind_eq_ok _ _ _).mp hrest with ⟨u, hcy, hpure⟩
      cases u
      exact ⟨n, (convert_year_eq_ok _ _).mp hcv,
        (check_year_ok _ _).mp hcy, ((pure_eq_ok _ _).mp hpure).symm⟩
    · rintro ⟨n, hn, hy, rfl⟩
      exact (bind_eq_ok _ _ _).mpr ⟨n, (convert_year_eq_ok _ _).mpr hn,
        (bind_eq_ok _ _ _).mpr ⟨(), (check_year_ok _ _).mpr hy, rfl⟩⟩
  · intro year_now b b2 v
    constructor
    · intro hset
      rcases (bind_eq_ok _ _ _).mp hset with ⟨s, hs, hpure⟩
      rcases (strField_eq_ok _ _ _).mp hs with ⟨rfl, hl⟩
      exact ⟨s, rfl, hl, ((pure_eq_ok _ _).mp hpure).symm⟩
    · rintro ⟨s, rfl, hl, rfl⟩
      exact (bind_eq_ok _ _ _).mpr
        ⟨s, (strField_eq_ok _ _ _).mpr ⟨rfl, hl⟩, rfl⟩
  · intro year_now b b2 v
    constructor
    · intro hset
      rcases (bind_eq_ok _ _ _).mp hset with ⟨o, ho, hpure⟩
      rcases (optField_eq_ok _ _).mp ho with ⟨hw, rfl⟩ | ⟨s, hw, hl, rfl⟩
      · exact Or.inl ⟨(by simpa using hw),
          ((pure_eq_ok _ _).mp hpure).symm⟩
      · exact Or.inr ⟨s, (by simpa using hw), hl,
          ((pure_eq_ok _ _).mp hpure).symm⟩
    · rintro (⟨rfl, rfl⟩ | ⟨s, rfl, hl, rfl⟩)
      · exact (bind_eq_ok _ _ _).mpr
          ⟨Option.none, (optField_eq_ok _ _).mpr (Or.inl ⟨rfl, rfl⟩), rfl⟩
      · exact (bind_eq_ok _ _ _).mpr
          ⟨some s, (optField_eq_ok _ _).mpr (Or.inr ⟨s, rfl, hl, rfl⟩), rfl⟩
  · intro year_now b b2 v
    constructor
    · intro hset
      rcases (bind_eq_ok _ _ _).mp hset with ⟨o, ho, hpure⟩
      rcases (optField_eq_ok _ _).mp ho with ⟨hw, rfl⟩ | ⟨s, hw, hl, rfl⟩
      · exact Or.inl ⟨(by simpa using hw),
          ((pure_eq_ok _ _).mp hpure).symm⟩
      · exact Or.inr ⟨s, (by simpa using hw), hl,
          ((pure_eq_ok _ _).mp hpure).symm⟩
    · rintro (⟨rfl, rfl⟩ | ⟨s, rfl, hl, rfl⟩)
      · exact (bind_eq_ok _ _ _).mpr
          ⟨Option.none, (optField_eq_ok _ _).mpr (Or.inl ⟨rfl, rfl⟩), rfl⟩
      · exact (bind_eq_ok _ _ _).mpr
          ⟨some s, (optField_eq_ok _ _).mpr (Or.inr ⟨s, rfl, hl, rfl⟩), rfl⟩
  · intro year_now b b2 v
    constructor
    · intro hset
      rcases (bind_eq_ok _ _ _).mp hset with ⟨o, ho, hpure⟩
      rcases (optField_eq_ok _ _).mp ho with ⟨hw, rfl⟩ | ⟨s, hw, hl, rfl⟩
      · exact Or.inl ⟨(by simpa using hw),
          ((pure_eq_ok _ _).mp hpure).symm⟩
      · exact Or.inr ⟨s, (by simpa using hw), hl,
          ((pure_eq_ok _ _).mp hpure).symm⟩
    · rintro (⟨rfl, rfl⟩ | ⟨s, rfl, hl, rfl⟩)
      · exact (bind_eq_ok _ _ _).mpr
          ⟨Option.none, (optField_eq_ok _ _).mpr (Or.inl ⟨rfl, rfl⟩), rfl⟩
      · exact (bind_eq_ok _ _ _).mpr
          ⟨some s, (optField_eq_ok _ _).mpr (Or.inr ⟨s, rfl, hl, rfl⟩), rfl⟩
  · intro year_now b b2 v
    constructor
    · intro hset
      rcases (bind_eq_ok _ _ _).mp hset with ⟨o, ho, hpure⟩
      rcases (optField_eq_ok _ _).mp ho with ⟨hw, rfl⟩ | ⟨s, hw, hl, rfl⟩
      · exact Or.inl ⟨(by simpa using hw),
          ((pure_eq_ok _ _).mp hpure).symm⟩
      · exact Or.inr ⟨s, (by simpa using hw), hl,
          ((pure_eq_ok _ _).mp hpure).symm⟩
    · rintro (⟨rfl, rfl⟩ | ⟨s, rfl, hl, rfl⟩)
      · exact (bind_eq_ok _ _ _).mpr
          ⟨Option.none, (optField_eq_ok _ _).mpr (Or.inl ⟨rfl, rfl⟩), rfl⟩
      · exact (bind_eq_ok _ _ _).mpr
          ⟨some s, (optField_eq_ok _ _).mpr (Or.inr ⟨s, rfl, hl, rfl⟩), rfl⟩
  · intro year_now b b2 v
    constructor
    · intro hset
      rcases (bind_eq_ok _ _ _).mp hset with ⟨o, ho, hpure⟩
      rcases (optField_eq_ok _ _).mp ho with ⟨hw, rfl⟩ | ⟨s, hw, hl, rfl⟩
      · exact Or.inl ⟨(by simpa using hw),
          ((pure_eq_ok _ _).mp hpure).symm⟩
      · exact Or.inr ⟨s, (by simpa using hw), hl,
          ((pure_eq_ok _ _).mp hpure).symm⟩
    · rintro (⟨rfl, rfl⟩ | ⟨s, rfl, hl, rfl⟩)
      · exact (bind_eq_ok _ _ _).mpr
          ⟨Option.none, (optField_eq_ok _ _).mpr (Or.inl ⟨rfl, rfl⟩), rfl⟩
      · exact (bind_eq_ok _ _ _).mpr
          ⟨some s, (optField_eq_ok _ _).mpr (Or.inr ⟨s, rfl, hl, rfl⟩), rfl⟩
  · intro year_now b b2 v
    constructor
    · intro hset
      rcases (bind_eq_ok _ _ _).mp hset with ⟨o, ho, hpure⟩
      rcases (optField_eq_ok _ _).mp ho with ⟨hw, rfl⟩ | ⟨s, hw, hl, rfl⟩
      · exact Or.inl ⟨(by simpa using hw),
          ((pure_eq_ok _ _).mp hpure).symm⟩
      · exact Or.inr ⟨s, (by simpa using hw), hl,
          ((pure_eq_ok _ _).mp hpure).symm⟩
    · rintro (⟨rfl, rfl⟩ | ⟨s, rfl, hl, rfl⟩)
      · exact (bind_eq_ok _ _ _).mpr
          ⟨Option.none, (optField_eq_ok _ _).mpr (Or.inl ⟨rfl, rfl⟩), rfl⟩
      · exact (bind_eq_ok _ _ _).mpr
          ⟨some s, (optField_eq_ok _ _).mpr (Or.inr ⟨s, rfl, hl, rfl⟩), rfl⟩
  · intro year_now b b2 v
    constructor
    · intro hset
      rcases (bind_eq_ok _ _ _).mp hset with ⟨o, ho, hpure⟩
      rcases (optField_eq_ok _ _).mp ho with ⟨hw, rfl⟩ | ⟨s, hw, hl, rfl⟩
      · exact Or.inl ⟨(by simpa using hw),
          ((pure_eq_ok _ _).mp hpure).symm⟩
      · exact Or.inr ⟨s, (by simpa using hw), hl,
          ((pure_eq_ok _ _).mp hpure).symm⟩
    · rintro (⟨rfl, rfl⟩ | ⟨s, rfl, hl, rfl⟩)
      · exact (bind_eq_ok _ _ _).mpr
          ⟨Option.none, (optField_eq_ok _ _).mpr (Or.inl ⟨rfl, rfl⟩), rfl⟩
      · exact (bind_eq_ok _ _ _).mpr
          ⟨some s, (optField_eq_ok _ _).mpr (Or.inr ⟨s, rfl, hl, rfl⟩), rfl⟩
  · intro year_now b b2 v
    constructor
    · intro hset
      rcases (bind_eq_ok _ _ _).mp hset with ⟨o, ho, hpure⟩
      rcases (optField_eq_ok _ _).mp ho with ⟨hw, rfl⟩ | ⟨s, hw, hl, rfl⟩
      · exact Or.inl ⟨(by simpa using hw),
          ((pure_eq_ok _ _).mp hpure).symm⟩
      · exact Or.inr ⟨s, (by simpa using hw), hl,
          ((pure_eq_ok _ _).mp hpure).symm⟩
    · rintro (⟨rfl, rfl⟩ | ⟨s, rfl, hl, rfl⟩)
      · exact (bind_eq_ok _ _ _).mpr
          ⟨Option.none, (optField_eq_ok _ _).mpr (Or.inl ⟨rfl, rfl⟩), rfl⟩
      · exact (bind_eq_ok _ _ _).mpr
          ⟨some s, (optField_eq_ok _ _).mpr (Or.inr ⟨s, rfl, hl, rfl⟩), rfl⟩
  · intro year_now b b2 v
    constructor
    · intro hset
      rcases (bind_eq_ok _ _ _).mp hset with ⟨s, hs, hpure⟩
      rcases (authorField_eq_ok _ _).mp hs with ⟨rfl, hn, hl⟩
      exact ⟨s, rfl, hn, hl, ((pure_eq_ok _ _).mp hpure).symm⟩
    · rintro ⟨s, rfl, hn, hl, rfl⟩
      exact (bind_eq_ok _ _ _).mpr
        ⟨s, (authorField_eq_ok _ _).mpr ⟨rfl, hn, hl⟩, rfl⟩
  · intro year_now b b2 v
    constructor
    · intro hset
      rcases (bind_eq_ok _ _ _).mp hset with ⟨s, hs, hpure⟩
      rcases (strField_eq_ok _ _ _).mp hs with ⟨rfl, hl⟩
      exact ⟨s, rfl, hl, ((pure_eq_ok _ _).mp hpure).symm⟩
    · rintro ⟨s, rfl, hl, rfl⟩
      exact (bind_eq_ok _ _ _).mpr
        ⟨s, (strField_eq_ok _ _ _).mpr ⟨rfl, hl⟩, rfl⟩
  · intro year_now b b2 v
    constructor
    · intro hset
      rcases (bind_eq_ok _ _ _).mp hset with ⟨s, hs, hpure⟩
      rcases (strField_eq_ok _ _ _).mp hs with ⟨rfl, hl⟩
      exact ⟨s, rfl, hl, ((pure_eq_ok _ _).mp hpure).symm⟩
    · rintro ⟨s, rfl, hl, rfl⟩
      exact (bind_eq_ok _ _ _).mpr
        ⟨s, (strField_eq_ok _ _ _).mpr ⟨rfl, hl⟩, rfl⟩
  · intro year_now b b2 v
    constructor
    · intro hset
      rcases (bind_eq_ok _ _ _).mp hset with ⟨n, hcv, hrest⟩
      rcases (bind_eq_ok _ _ _).mp hrest with ⟨u, hcy, hpure⟩
      cases u
      exact ⟨n, (convert_year_eq_ok _ _).mp hcv,
        (check_year_ok _ _).mp hcy, ((pure_eq_ok _ _).mp hpure).symm⟩
    · rintro ⟨n, hn, hy, rfl⟩
      exact (bind_eq_ok _ _ _).mpr ⟨n, (convert_year_eq_ok _ _).mpr hn,
        (bind_eq_ok _ _ _).mpr ⟨(), (check_year_ok _ _).mpr hy, rfl⟩⟩
  · intro year_now b b2 v
    constructor
    · intro hset
      rcases (bind_eq_ok _ _ _).mp hset with ⟨o, ho, hpure⟩
      rcases (optField_eq_ok _ _).mp ho with ⟨hw, rfl⟩ | ⟨s, hw, hl, rfl⟩
      · exact Or.inl ⟨(by simpa using hw),
          ((pure_eq_ok _ _).mp hpure).symm⟩
      · exact Or.inr ⟨s, (by simpa using hw), hl,
          ((pure_eq_ok _ _).mp hpure).symm⟩
    · rintro (⟨rfl, rfl⟩ | ⟨s, rfl, hl, rfl⟩)
      · exact (bind_eq_ok _ _ _).mpr
          ⟨Option.none, (optField_eq_ok _ _).mpr (Or.inl ⟨rfl, rfl⟩), rfl⟩
      · exact (bind_eq_ok _ _ _).mpr
          ⟨some s, (optField_eq_ok _ _).mpr (Or.inr ⟨s, rfl, hl, rfl⟩), rfl⟩
  · intro year_now b b2 v
    constructor
    · intro hset
      rcases (bind_eq_ok _ _ _).mp hset with ⟨o, ho, hpure⟩
      rcases (optField_eq_ok _ _).mp ho with ⟨hw, rfl⟩ | ⟨s, hw, hl, rfl⟩
      · exact Or.inl ⟨(by simpa using hw),
          ((pure_eq_ok _ _).mp hpure).symm⟩
      · exact Or.inr ⟨s, (by simpa using hw), hl,
          ((pure_eq_ok _ _).mp hpure).symm⟩
    · rintro (⟨rfl, rfl⟩ | ⟨s, rfl, hl, rfl⟩)
      · exact (bind_eq_ok _ _ _).mpr
          ⟨Option.none, (optField_eq_ok _ _).mpr (Or.inl ⟨rfl, rfl⟩), rfl⟩
      · exact (bind_eq_ok _ _ _).mpr
          ⟨some s, (optField_eq_ok _ _).mpr (Or.inr ⟨s, rfl, hl, rfl⟩), rfl⟩
  · intro year_now b b2 v
    constructor
    · intro hset
      rcases (bind_eq_ok _ _ _).mp hset with ⟨o, ho, hpure⟩
      rcases (optField_eq_ok _ _).mp ho with ⟨hw, rfl⟩ | ⟨s, hw, hl, rfl⟩
      · exact Or.inl ⟨(by simpa using hw),
          ((pure_eq_ok _ _).mp hpure).symm⟩
      · exact Or.inr ⟨s, (by simpa using hw), hl,
          ((pure_eq_ok _ _).mp hpure).symm⟩
    · rintro (⟨rfl, rfl⟩ | ⟨s, rfl, hl, rfl⟩)
      · exact (bind_eq_ok _ _ _).mpr
          ⟨Option.none, (optField_eq_ok _ _).mpr (Or.inl ⟨rfl, rfl⟩), rfl⟩
      · exact (bind_eq_ok _ _ _).mpr
          ⟨some s, (optField_eq_ok _ _).mpr (Or.inr ⟨s, rfl, hl, rfl⟩), rfl⟩
  · intro year_now b b2 v
    constructor
    · intro hset
      rcases (bind_eq_ok _ _ _).mp hset with ⟨o, ho, hpure⟩
      rcases (optField_eq_ok _ _).mp ho with ⟨hw, rfl⟩ | ⟨s, hw, hl, rfl⟩
      · exact Or.inl ⟨(by simpa using hw),
          ((pure_eq_ok _ _).mp hpure).symm⟩
      · exact Or.inr ⟨s, (by simpa using hw), hl,
          ((pure_eq_ok _ _).mp hpure).symm⟩
    · rintro (⟨rfl, rfl⟩ | ⟨s, rfl, hl, rfl⟩)
      · exact (bind_eq_ok _ _ _).mpr
          ⟨Option.none, (optField_eq_ok _ _).mpr (Or.inl ⟨rfl, rfl⟩), rfl⟩
      · exact (bind_eq_ok _ _ _).mpr
          ⟨some s, (optField_eq_ok _ _).mpr (Or.inr ⟨s, rfl, hl, rfl⟩), rfl⟩
  · intro year_now b b2 v
    constructor
    · intro hset
      rcases (bind_eq_ok _ _ _).mp hset with ⟨o, ho, hpure⟩
      rcases (optField_eq_ok _ _).mp ho with ⟨hw, rfl⟩ | ⟨s, hw, hl, rfl⟩
      · exact Or.inl ⟨(by simpa using hw),
          ((pure_eq_ok _ _).mp hpure).symm⟩
      · exact Or.inr ⟨s, (by simpa using hw), hl,
          ((pure_eq_ok _ _).mp hpure).symm⟩
    · rintro (⟨rfl, rfl⟩ | ⟨s, rfl, hl, rfl⟩)
      · exact (bind_eq_ok _ _ _).mpr
          ⟨Option.none, (optField_eq_ok _ _).mpr (Or.inl ⟨rfl, rfl⟩), rfl⟩
      · exact (bind_eq_ok _ _ _).mpr
          ⟨some s, (optField_eq_ok _ _).mpr (Or.inr ⟨s, rfl, hl, rfl⟩), rfl⟩
  · intro year_now b b2 v
    constructor
    · intro hset
      rcases (bind_eq_ok _ _ _).mp hset with ⟨s, hs, hpure⟩
      rcases (authorField_eq_ok _ _).mp hs with ⟨rfl, hn, hl⟩
      exact ⟨s, rfl, hn, hl, ((pure_eq_ok _ _).mp hpure).symm⟩
    · rintro ⟨s, rfl, hn, hl, rfl⟩
      exact (bind_eq_ok _ _ _).mpr
        ⟨s, (authorField_eq_ok _ _).mpr ⟨rfl, hn, hl⟩, rfl⟩
  · intro year_now b b2 v
    constructor
    · intro hset
      rcases (bind_eq_ok _ _ _).mp hset with ⟨s, hs, hpure⟩
      rcases (strField_eq_ok _ _ _).mp hs with ⟨rfl, hl⟩
      exact ⟨s, rfl, hl, ((pure_eq_ok _ _).mp hpure).symm⟩
    · rintro ⟨s, rfl, hl, rfl⟩
      exact (bind_eq_ok _ _ _).mpr
        ⟨s, (strField_eq_ok _ _ _).mpr ⟨rfl, hl⟩, rfl⟩
  · intro year_now b b2 v
    constructor
    · intro hset
      rcases (bind_eq_ok _ _ _).mp hset with ⟨n, hcv, hrest⟩
      rcases (bind_eq_ok _ _ _).mp hrest with ⟨u, hcy, hpure⟩
      cases u
      exact ⟨n, (convert_year_eq_ok _ _).mp hcv,
        (check_year_ok _ _).mp hcy, ((pure_eq_ok _ _).mp hpure).symm⟩
    · rintro ⟨n, hn, hy, rfl⟩
      exact (bind_eq_ok _ _ _).mpr ⟨n, (convert_year_eq_ok _ _).mpr hn,
        (bind_eq_ok _ _ _).mpr ⟨(), (check_year_ok _ _).mpr hy, rfl⟩⟩
  · intro year_now b b2 v
    constructor
    · intro hset
      rcases (bind_eq_ok _ _ _).mp hset with ⟨s, hs, hpure⟩
      rcases (strField_eq_ok _ _ _).mp hs with ⟨rfl, hl⟩
      exact ⟨s, rfl, hl, ((pure_eq_ok _ _).mp hpure).symm⟩
    · rintro ⟨s, rfl, hl, rfl⟩
      exact (bind_eq_ok _ _ _).mpr
        ⟨s, (strField_eq_ok _ _ _).mpr ⟨rfl, hl⟩, rfl⟩
  · intro year_now b b2 v
    constructor
    · intro hset
      rcases (bind_eq_ok _ _ _).mp hset with ⟨o, ho, hpure⟩
      rcases (optField_eq_ok _ _).mp ho with ⟨hw, rfl⟩ | ⟨s, hw, hl, rfl⟩
      · exact Or.inl ⟨(by simpa using hw),
          ((pure_eq_ok _ _).mp hpure).symm⟩
      · exact Or.inr ⟨s, (by simpa using hw), hl,
          ((pure_eq_ok _ _).mp hpure).symm⟩
    · rintro (⟨rfl, rfl⟩ | ⟨s, rfl, hl, rfl⟩)
      · exact (bind_eq_ok _ _ _).mpr
          ⟨Option.none, (optField_eq_ok _ _).mpr (Or.inl ⟨rfl, rfl⟩), rfl⟩
      · exact (bind_eq_ok _ _ _).mpr
          ⟨some s, (optField_eq_ok _ _).mpr (Or.inr ⟨s, rfl, hl, rfl⟩), rfl⟩
  · intro year_now b b2 v
    constructor
    · intro hset
      rcases (bind_eq_ok _ _ _).mp hset with ⟨o, ho, hpure⟩
      rcases (optField_eq_ok _ _).mp ho with ⟨hw, rfl⟩ | ⟨s, hw, hl, rfl⟩
      · exact Or.inl ⟨(by simpa using hw),
          ((pure_eq_ok _ _).mp hpure).symm⟩
      · exact Or.inr ⟨s, (by simpa using hw), hl,
          ((pure_eq_ok _ _).mp hpure).symm⟩
    · rintro (⟨rfl, rfl⟩ | ⟨s, rfl, hl, rfl⟩)
      · exact (bind_eq_ok _ _ _).mpr
          ⟨Option.none, (optField_eq_ok _ _).mpr (Or.inl ⟨rfl, rfl⟩), rfl⟩
      · exact (bind_eq_ok _ _ _).mpr
          ⟨some s, (optField_eq_ok _ _).mpr (Or.inr ⟨s, rfl, hl, rfl⟩), rfl⟩
  · intro year_now b b2 v
    constructor
    · intro hset
      rcases (bind_eq_ok _ _ _).mp hset with ⟨o, ho, hpure⟩
      rcases (optField_eq_ok _ _).mp ho with ⟨hw, rfl⟩ | ⟨s, hw, hl, rfl⟩
      · exact Or.inl ⟨(by simpa using hw),
          ((pure_eq_ok _ _).mp hpure).symm⟩
      · exact Or.inr ⟨s, (by simpa using hw), hl,
          ((pure_eq_ok _ _).mp hpure).symm⟩
    · rintro (⟨rfl, rfl⟩ | ⟨s, rfl, hl, rfl⟩)
      · exact (bind_eq_ok _ _ _).mpr
          ⟨Option.none, (optField_eq_ok _ _).mpr (Or.inl ⟨rfl, rfl⟩), rfl⟩
      · exact (bind_eq_ok _ _ _).mpr
          ⟨some s, (optField_eq_ok _ _).mpr (Or.inr ⟨s, rfl, hl, rfl⟩), rfl⟩
  · intro year_now b b2 v
    constructor
    · intro hset
      rcases (bind_eq_ok _ _ _).mp hset with ⟨o, ho, hpure⟩
      rcases (optField_eq_ok _ _).mp ho with ⟨hw, rfl⟩ | ⟨s, hw, hl, rfl⟩
      · exact Or.inl ⟨(by simpa using hw),
          ((pure_eq_ok _ _).mp hpure).symm⟩
      · exact Or.inr ⟨s, (by simpa using hw), hl,
          ((pure_eq_ok _ _).mp hpure).symm⟩
    · rintro (⟨rfl, rfl⟩ | ⟨s, rfl, hl, rfl⟩)
      · exact (bind_eq_ok _ _ _).mpr
          ⟨Option.none, (optField_eq_ok _ _).mpr (Or.inl ⟨rfl, rfl⟩), rfl⟩
      · exact (bind_eq_ok _ _ _).mpr
          ⟨some s, (optField_eq_ok _ _).mpr (Or.inr ⟨s, rfl, hl, rfl⟩), rfl⟩
  · intro year_now b b2 v
    constructor
    · intro hset
      rcases (bind_eq_ok _ _ _).mp hset with ⟨o, ho, hpure⟩
      rcases (optField_eq_ok _ _).mp ho with ⟨hw, rfl⟩ | ⟨s, hw, hl, rfl⟩
      · exact Or.inl ⟨(by simpa using hw),
          ((pure_eq_ok _ _).mp hpure).symm⟩
      · exact Or.inr ⟨s, (by simpa using hw), hl,
          ((pure_eq_ok _ _).mp hpure).symm⟩
    · rintro (⟨rfl, rfl⟩ | ⟨s, rfl, hl, rfl⟩)
      · exact (bind_eq_ok _ _ _).mpr
          ⟨Option.none, (optField_eq_ok _ _).mpr (Or.inl ⟨rfl, rfl⟩), rfl⟩
      · exact (bind_eq_ok _ _ _).mpr
          ⟨some s, (optField_eq_ok _ _).mpr (Or.inr ⟨s, rfl, hl, rfl⟩), rfl⟩
  · intro year_now b b2 v
    constructor
    · intro hset
      rcases (bind_eq_ok _ _ _).mp hset with ⟨o, ho, hpure⟩
      rcases (optField_eq_ok _ _).mp ho with ⟨hw, rfl⟩ | ⟨s, hw, hl, rfl⟩
      · exact Or.inl ⟨(by simpa using hw),
          ((pure_eq_ok _ _).mp hpure).symm⟩
      · exact Or.inr ⟨s, (by simpa using hw), hl,
          ((pure_eq_ok _ _).mp hpure).symm⟩
    · rintro (⟨rfl, rfl⟩ | ⟨s, rfl, hl, rfl⟩)
      · exact (bind_eq_ok _ _ _).mpr
          ⟨Option.none, (optField_eq_ok _ _).mpr (Or.inl ⟨rfl, rfl⟩), rfl⟩
      · exact (bind_eq_ok _ _ _).mpr
          ⟨some s, (optField_eq_ok _ _).mpr (Or.inr ⟨s, rfl, hl, rfl⟩), rfl⟩
  · intro year_now b b2 v
    constructor
    · intro hset
      rcases (bind_eq_ok _ _ _).mp hset with ⟨o, ho, hpure⟩
      rcases (optField_eq_ok _ _).mp ho with ⟨hw, rfl⟩ | ⟨s, hw, hl, rfl⟩
      · exact Or.inl ⟨(by simpa using hw),
          ((pure_eq_ok _ _).mp hpure).symm⟩
      · exact Or.inr ⟨s, (by simpa using hw), hl,
          ((pure_eq_ok _ _).mp hpure).symm⟩
    · rintro (⟨rfl, rfl⟩ | ⟨s, rfl, hl, rfl⟩)
      · exact (bind_eq_ok _ _ _).mpr
          ⟨Option.none, (optField_eq_ok _ _).mpr (Or.inl ⟨rfl, rfl⟩), rfl⟩
      · exact (bind_eq_ok _ _ _).mpr
          ⟨some s, (optField_eq_ok _ _).mpr (Or.inr ⟨s, rfl, hl, rfl⟩), rfl⟩
  · intro year_now b b2 v
    constructor
    · intro hset
      rcases (bind_eq_ok _ _ _).mp hset with ⟨o, ho, hpure⟩
      rcases (optField_eq_ok _ _).mp ho with ⟨hw, rfl⟩ | ⟨s, hw, hl, rfl⟩
      · exact Or.inl ⟨(by simpa using hw),
          ((pure_eq_ok _ _).mp hpure).symm⟩
      · exact Or.inr ⟨s, (by simpa using hw), hl,
          ((pure_eq_ok _ _).mp hpure).symm⟩
    · rintro (⟨rfl, rfl⟩ | ⟨s, rfl, hl, rfl⟩)
      · exact (bind_eq_ok _ _ _).mpr
          ⟨Option.none, (optField_eq_ok _ _).mpr (Or.inl ⟨rfl, rfl⟩), rfl⟩
      · exact (bind_eq_ok _ _ _).mpr
          ⟨some s, (optField_eq_ok _ _).mpr (Or.inr ⟨s, rfl, hl, rfl⟩), rfl⟩
  · intro year_now b b2 v
    constructor
    · intro hset
      rcases (bind_eq_ok _ _ _).mp hset with ⟨o, ho, hpure⟩
      rcases (optField_eq_ok _ _).mp ho with ⟨hw, rfl⟩ | ⟨s, hw, hl, rfl⟩
      · exact Or.inl ⟨(by simpa using hw),
          ((pure_eq_ok _ _).mp hpure).symm⟩
      · exact Or.inr ⟨s, (by simpa using hw), hl,
          ((pure_eq_ok _ _).mp hpure).symm⟩
    · rintro (⟨rfl, rfl⟩ | ⟨s, rfl, hl, rfl⟩)
      · exact (bind_eq_ok _ _ _).mpr
          ⟨Option.none, (optField_eq_ok _ _).mpr (Or.inl ⟨rfl, rfl⟩), rfl⟩
      · exact (bind_eq_ok _ _ _).mpr
          ⟨some s, (optField_eq_ok _ _).mpr (Or.inr ⟨s, rfl, hl, rfl⟩), rfl⟩
  · intro year_now b b2 v
    constructor
    · intro hset
      rcases (bind_eq_ok _ _ _).mp hset with ⟨o, ho, hpure⟩
      rcases (optField_eq_ok _ _).mp ho with ⟨hw, rfl⟩ | ⟨s, hw, hl, rfl⟩
      · exact Or.inl ⟨(by simpa using hw),
          ((pure_eq_ok _ _).mp hpure).symm⟩
      · exact Or.inr ⟨s, (by simpa using hw), hl,
          ((pure_eq_ok _ _).mp hpure).symm⟩
    · rintro (⟨rfl, rfl⟩ | ⟨s, rfl, hl, rfl⟩)
      · exact (bind_eq_ok _ _ _).mpr
          ⟨Option.none, (optField_eq_ok _ _).mpr (Or.inl ⟨rfl, rfl⟩), rfl⟩
      · exact (bind_eq_ok _ _ _).mpr
          ⟨some s, (optField_eq_ok _ _).mpr (Or.inr ⟨s, rfl, hl, rfl⟩), rfl⟩

/-- Claim C4: whenever the raw inputs satisfy every field constraint of
the spec (valid name format and length for `author`, string within the
length limit for the other required string fields, coercible in-range
`year`, and `None`-or-short-string optional values), construction succeeds
and every stored field equals the corresponding input exactly — with
`year` stored as the coerced integer.  Stated for all three entry
types. -/
theorem C4_exact_fields :
    (∀ (year_now : ℤ) (a t y p : PyVal)
      (o1 o2 o3 o4 o5 o6 o7 o8 : Option PyVal),
      validAuthorInput a = true → validStrInput t = true →
      validYearInput year_now y = true → validStrInput p = true →
      validOptInput o1 = true → validOptInput o2 = true →
      validOptInput o3 = true → validOptInput o4 = true →
      validOptInput o5 = true → validOptInput o6 = true →
      validOptInput o7 = true → validOptInput o8 = true →
      mkBook year_now a t y p o1 o2 o3 o4 o5 o6 o7 o8 =
        .ok ⟨pyStrOf a, pyStrOf t, (pyInt y).getD 0, pyStrOf p,
          pyOptStrOf o1, pyOptStrOf o2, pyOptStrOf o3, pyOptStrOf o4,
          pyOptStrOf o5, pyOptStrOf o6, pyOptStrOf o7, pyOptStrOf o8⟩) ∧
    (∀ (year_now : ℤ) (a j t y : PyVal) (o1 o2 o3 o4 o5 : Option PyVal),
      validAuthorInput a = true → validStrInput j = true →
      validStrInput t = true → validYearInput year_now y = true →
      validOptInput o1 = true → validOptInput o2 = true →
      validOptInput o3 = true → validOptInput o4 = true →
      validOptInput o5 = true →
      mkArticle year_now a j t y o1 o2 o3 o4 o5 =
        .ok ⟨pyStrOf a, pyStrOf j, pyStrOf t, (pyInt y).getD 0,
          pyOptStrOf o1, pyOptStrOf o2, pyOptStrOf o3, pyOptStrOf o4,
          pyOptStrOf o5⟩) ∧
    (∀ (year_now : ℤ) (a t y bk : PyVal)
      (o1 o2 o3 o4 o5 o6 o7 o8 o9 o10 : Option PyVal),
      validAuthorInput a = true → validStrInput t = true →
      validYearInput year_now y = true → validStrInput bk = true →
      validOptInput o1 = true → validOptInput o2 = true →
      validOptInput o3 = true → validOptInput o4 = true →
      validOptInput o5 = true → validOptInput o6 = true →
      validOptInput o7 = true → validOptInput o8 = true →
      validOptInput o9 = true → validOptInput o10 = true →
      mkInproceedings year_now a t y bk o1 o2 o3 o4 o5 o6 o7 o8 o9 o10 =
        .ok ⟨pyStrOf a, pyStrOf t, (pyInt y).getD 0, pyStrOf bk,
          pyOptStrOf o1, pyOptStrOf o2, pyOptStrOf o3, pyOptStrOf o4,
          pyOptStrOf o5, pyOptStrOf o6, pyOptStrOf o7, pyOptStrOf o8,
          pyOptStrOf o9, pyOptStrOf o10⟩) := by
  refine ⟨?_, ?_, ?_⟩
  · intro year_now a t y p o1 o2 o3 o4 o5 o6 o7 o8 ha ht hy hp k1 k2 k3 k4
      k5 k6 k7 k8
    exact (mkBook_eq_ok _ _ _ _ _ _ _ _ _ _ _ _ _ _).mpr
      ⟨(convert_year_valid _ _ hy).1, authorField_valid a ha,
        strField_valid _ t ht, (convert_year_valid _ _ hy).2,
        strField_valid _ p hp, optField_valid o1 k1, optField_valid o2 k2,
        optField_valid o3 k3, optField_valid o4 k4, optField_valid o5 k5,
        optField_valid o6 k6, optField_valid o7 k7, optField_valid o8 k8⟩
  · intro year_now a j t y o1 o2 o3 o4 o5 ha hj ht hy k1 k2 k3 k4 k5
    exact (mkArticle_eq_ok _ _ _ _ _ _ _ _ _ _ _).mpr
      ⟨(convert_year_valid _ _ hy).1, authorField_valid a ha,
        strField_valid _ j hj, strField_valid _ t ht,
        (convert_year_valid _ _ hy).2, optField_valid o1 k1,
        optField_valid o2 k2, optField_valid o3 k3, optField_valid o4 k4,
        optField_valid o5 k5⟩
  · intro year_now a t y bk o1 o2 o3 o4 o5 o6 o7 o8 o9 o10 ha ht hy hbk k1
      k2 k3 k4 k5 k6 k7 k8 k9 k10
    exact (mkInproceedings_eq_ok _ _ _ _ _ _ _ _ _ _ _ _ _ _ _ _).mpr
      ⟨(convert_year_valid _ _ hy).1, authorField_valid a ha,
        strField_valid _ t ht, (convert_year_valid _ _ hy).2,
        strField_valid _ bk hbk, optField_valid o1 k1, optField_valid o2 k2,
        optField_valid o3 k3, optField_valid o4 k4, optField_valid o5 k5,
        optField_valid o6 k6, optField_valid o7 k7, optField_valid o8 k8,
        optField_valid o9 k9, optField_valid o10 k10⟩

/-- Witness for C4: the three docstring examples — Martin09 (`Book`, with
`year` supplied as the string "2008"), the 1991 `Article`, and the 2011
`Inproceedings` — all constructed under current year 2026, with the
stored fields exactly the (coerced) inputs. -/
theorem C4_exact_fields_witness :
    validAuthorInput (.str authorRM) = true ∧
    validYearInput 2026 (.str "2008".toList) = true ∧
    mkBook 2026 (.str authorRM) (.str titleCC) (.str "2008".toList)
      (.str pubPH) Option.none Option.none Option.none Option.none
      Option.none Option.none Option.none Option.none =
      .ok ⟨authorRM, titleCC, 2008, pubPH, Option.none, Option.none,
        Option.none, Option.none, Option.none, Option.none, Option.none,
        Option.none⟩ ∧
    mkArticle 2026 (.str authorRM) (.str journalAE) (.str titleCC)
      (.int 1991) Option.none Option.none Option.none Option.none
      Option.none =
      .ok ⟨authorRM, journalAE, titleCC, 1991, Option.none, Option.none,
        Option.none, Option.none, Option.none⟩ ∧
    mkInproceedings 2026 (.str authorRM) (.str titleCC) (.int 2011)
      (.str bookSIG) Option.none Option.none Option.none Option.none
      Option.none Option.none Option.none Option.none Option.none
      Option.none =
      .ok ⟨authorRM, titleCC, 2011, bookSIG, Option.none, Option.none,
        Option.none, Option.none, Option.none, Option.none, Option.none,
        Option.none, Option.none, Option.none⟩ :=
  ⟨by decide, by decide,
   C4_exact_fields.1 2026 (.str authorRM) (.str titleCC)
     (.str "2008".toList) (.str pubPH) Option.none Option.none Option.none
     Option.none Option.none Option.none Option.none Option.none
     (by decide) (by decide) (by decide) (by decide) (by decide)
     (by decide) (by decide) (by decide) (by decide) (by decide)
     (by decide) (by decide),
   C4_exact_fields.2.1 2026 (.str authorRM) (.str journalAE) (.str titleCC)
     (.int 1991) Option.none Option.none Option.none Option.none
     Option.none (by decide) (by decide) (by decide) (by decide)
     (by decide) (by decide) (by decide) (by decide) (by decide),
   C4_exact_fields.2.2 2026 (.str authorRM) (.str titleCC) (.int 2011)
     (.str bookSIG) Option.none Option.none Option.none Option.none
     Option.none Option.none Option.none Option.none Option.none
     Option.none (by decide) (by decide) (by decide) (by decide)
     (by decide) (by decide) (by decide) (by decide) (by decide)
     (by decide) (by decide) (by decide) (by decide) (by decide)⟩

theorem check_name_str_short (s : PyStr) (h : (pySplit s).length < 2) :
    check_name (.str s) = .error .nameTooShort := by
  simp only [check_name]
  rw [if_pos h]

/-- Claim C5, counterexample: a 5001-character single-token author string
makes construction fail with the name-format error (`nameTooShort`), not
with `FieldTooLong` — the author validator list runs `check_name` before
`check_len`, so the condition is not `FieldTooLong` "regardless of the
string's content". -/
theorem C5_counterexample :
    authorField (.str (List.replicate 5001 'a')) = .error .nameTooShort ∧
    Err.nameTooShort ≠ Err.strTooLong ∧
    mkBook 2026 (.str (List.replicate 5001 'a')) (.str titleCC) (.int 2008)
      (.str pubPH) Option.none Option.none Option.none Option.none
      Option.none Option.none Option.none Option.none =
      .error .nameTooShort := by
  have hsplit : pySplit (List.replicate 5001 'a') =
      [List.replicate 5001 'a'] :=
    pySplit_nospace _
      (List.length_pos.mp (by rw [List.length_replicate]; omega))
      (replicate_nospace _ _ (by decide))
  have hcn : check_name (.str (List.replicate 5001 'a')) =
      .error .nameTooShort :=
    check_name_str_short _ (by rw [hsplit, List.length_singleton]; omega)
  have hAF : authorField (.str (List.replicate 5001 'a')) =
      .error .nameTooShort := by
    unfold authorField
    simp only [instance_of_str, ok_bind, hcn, error_bind]
  refine ⟨hAF, by decide, ?_⟩
  unfold mkBook
  rw [show convert_year (.int 2008) = .ok 2008 from rfl]
  simp only [ok_bind, hAF, error_bind]

/-- Claim C5, amended: a string longer than 5000 characters always makes
construction fail, and the raised condition is `FieldTooLong` for every
string field except `author`, whose name-format check runs first: an
over-long author that passes the name format still fails with
`FieldTooLong`, while an over-long author violating the name format fails
with the name error instead; strings of length at most 5000 never trigger
`FieldTooLong`. -/
theorem C5_amended :
    (∀ (attr : String) (s : PyStr), 5000 < s.length →
      strField attr (.str s) = .error .strTooLong) ∧
    (∀ s : PyStr, 5000 < s.length →
      optField (some (.str s)) = .error .strTooLong) ∧
    (∀ s : PyStr, 5000 < s.length → check_name (.str s) = .ok () →
      authorField (.str s) = .error .strTooLong) ∧
    (∀ s : PyStr, 5000 < s.length →
      ∃ e, authorField (.str s) = .error e) ∧
    (∀ (attr : String) (s : PyStr), s.length ≤ 5000 →
      authorField (.str s) ≠ .error .strTooLong ∧
      strField attr (.str s) = .ok s ∧
      optField (some (.str s)) = .ok (some s)) := by
  refine ⟨strField_long, optField_long, ?_, ?_, ?_⟩
  · intro s hlen hn
    exact authorField_long s hn hlen
  · intro s hlen
    cases hn : check_name (.str s) with
    | error e =>
      refine ⟨e, ?_⟩
      unfold authorField
      simp only [instance_of_str, ok_bind, hn, error_bind]
    | ok u =>
      cases u
      exact ⟨.strTooLong, authorField_long s hn hlen⟩
  · intro attr s hlen
    exact ⟨authorField_ne_strTooLong s hlen, strField_short attr s hlen,
      optField_short s hlen⟩

/-- Witness for C5: the 5001-character title fails with `strTooLong`; the
5002-character author "A bbb…b" (two alphabetic tokens) passes the name
check and then fails with `strTooLong`; the 13-character fixture string is
accepted. -/
theorem C5_amended_witness :
    (5000 < (List.replicate 5001 'a').length ∧
      strField "title" (.str (List.replicate 5001 'a')) =
        .error .strTooLong) ∧
    (5000 < (['A'] ++ ' ' :: List.replicate 5000 'b').length ∧
      check_name (.str (['A'] ++ ' ' :: List.replicate 5000 'b')) =
        .ok () ∧
      authorField (.str (['A'] ++ ' ' :: List.replicate 5000 'b')) =
        .error .strTooLong) ∧
    (authorRM.length ≤ 5000 ∧
      strField "title" (.str authorRM) = .ok authorRM) := by
  have hlen1 : 5000 < (List.replicate 5001 'a').length := by
    rw [List.length_replicate]
    omega
  have hlen2 : 5000 < (['A'] ++ ' ' :: List.replicate 5000 'b').length := by
    simp only [List.length_append, List.length_cons, List.length_replicate,
      List.length_singleton]
    omega
  have hsplit : pySplit (['A'] ++ ' ' :: List.replicate 5000 'b') =
      [['A'], List.replicate 5000 'b'] :=
    pySplit_two ['A'] (List.replicate 5000 'b') (by simp)
      (List.length_pos.mp (by rw [List.length_replicate]; omega))
      (fun c hc => by rw [List.mem_singleton] at hc; subst hc; decide)
      (replicate_nospace _ _ (by decide))
  have hA : pyStrIsAlpha ['A'] = true := by decide
  have hb : pyStrIsAlpha (List.replicate 5000 'b') = true :=
    replicate_strIsAlpha 5000 'b' (by omega) (by decide)
  have hcn : check_name (.str (['A'] ++ ' ' :: List.replicate 5000 'b')) =
      .ok () := by
    rw [check_name_str_ok]
    unfold nameOk
    rw [hsplit]
    simp only [List.length_cons, List.length_singleton, List.all_cons,
      List.all_nil, hA, hb]
    decide
  exact ⟨⟨hlen1, C5_amended.1 "title" _ hlen1⟩,
    ⟨hlen2, hcn, C5_amended.2.2.1 _ hlen2 hcn⟩,
    ⟨by decide, (C5_amended.2.2.2.2 "title" authorRM (by decide)).2.1⟩⟩

/-- Claim C6, counterexample: with an invalid first-declared field
(`author` "bad", one token) and an uncoercible `year` ("abc"), the
construction error is the year converter's (`intCoerce`), not the first
invalid field's — the `int` converter runs in the assignment phase before
any validator.  Moreover, an over-long `title` and an over-long `address`
produce the identical error value (`strTooLong`), so the raised error does
not identify which field was violated. -/
theorem C6_counterexample :
    check_name (.str "bad".toList) = .error .nameTooShort ∧
    mkBook 2026 (.str "bad".toList) (.str titleCC) (.str "abc".toList)
      (.str pubPH) Option.none Option.none Option.none Option.none
      Option.none Option.none Option.none Option.none =
      .error .intCoerce ∧
    Err.intCoerce ≠ Err.nameTooShort ∧
    mkBook 2026 (.str authorRM) (.str (List.replicate 5001 'x'))
      (.int 2008) (.str pubPH) Option.none Option.none Option.none
      Option.none Option.none Option.none Option.none Option.none =
      .error .strTooLong ∧
    mkBook 2026 (.str authorRM) (.str titleCC) (.int 2008) (.str pubPH)
      (some (.str (List.replicate 5001 'y'))) Option.none Option.none
      Option.none Option.none Option.none Option.none Option.none =
      .error .strTooLong := by
  have hT : strField "title" (.str (List.replicate 5001 'x')) =
      .error .strTooLong :=
    strField_long _ _ (by rw [List.length_replicate]; omega)
  have hAd : optField (some (.str (List.replicate 5001 'y'))) =
      .error .strTooLong :=
    optField_long _ (by rw [List.length_replicate]; omega)
  refine ⟨by decide, by decide, by decide, ?_, ?_⟩
  · simp only [mkBook,
      show convert_year (.int 2008) = .ok 2008 from rfl,
      show authorField (.str authorRM) = .ok authorRM from rfl,
      hT, ok_bind, error_bind]
  · simp only [mkBook,
      show convert_year (.int 2008) = .ok 2008 from rfl,
      show authorField (.str authorRM) = .ok authorRM from rfl,
      show strField "title" (.str titleCC) = .ok titleCC from rfl,
      show check_year 2026 2008 = .ok () from by decide,
      show strField "publisher" (.str pubPH) = .ok pubPH from rfl,
      hAd, ok_bind, error_bind]

/-- Claim C6, amended: construction reports exactly one error — the first
failure in evaluation order — and never yields a partial instance; but
the evaluation order is not plain field-declaration order: for each of
the three entry types, the `year` converter runs during the assignment
phase of the generated `__init__`, before any validator (so a coercion
failure preempts an invalid earlier-declared field), after which the
validators run in field declaration order — whenever every earlier stage
passes, the first failing stage's error is the construction's result,
whatever the later fields hold.  The raised error always identifies the
violated rule, yet identifies the field only for the `attrs`
`instance_of` type errors; the module's own validators raise fixed
field-independent values (one `strTooLong` for every field). -/
theorem C6_amended :
    (∀ (year_now : ℤ) (a t y p : PyVal)
      (o1 o2 o3 o4 o5 o6 o7 o8 : Option PyVal),
      pyInt y = Option.none →
      mkBook year_now a t y p o1 o2 o3 o4 o5 o6 o7 o8 = .error .intCoerce) ∧
    (∀ (year_now : ℤ) (a t y p : PyVal)
      (o1 o2 o3 o4 o5 o6 o7 o8 : Option PyVal) (n : ℤ) (e : Err),
      pyInt y = some n → authorField a = .error e →
      mkBook year_now a t y p o1 o2 o3 o4 o5 o6 o7 o8 = .error e) ∧
    (∀ (year_now : ℤ) (a t y p : PyVal)
      (o1 o2 o3 o4 o5 o6 o7 o8 : Option PyVal) (n : ℤ) (sa : PyStr) (e : Err),
      convert_year y = .ok n →
      authorField a = .ok sa →
      strField "title" t = .error e →
      mkBook year_now a t y p o1 o2 o3 o4 o5 o6 o7 o8 = .error e) ∧
    (∀ (year_now : ℤ) (a t y p : PyVal)
      (o1 o2 o3 o4 o5 o6 o7 o8 : Option PyVal) (n : ℤ) (sa : PyStr) (st : PyStr) (e : Err),
      convert_year y = .ok n →
      authorField a = .ok sa →
      strField "title" t = .ok st →
      check_year year_now n = .error e →
      mkBook year_now a t y p o1 o2 o3 o4 o5 o6 o7 o8 = .error e) ∧
    (∀ (year_now : ℤ) (a t y p : PyVal)
      (o1 o2 o3 o4 o5 o6 o7 o8 : Option PyVal) (n : ℤ) (sa : PyStr) (st : PyStr) (e : Err),
      convert_year y = .ok n →
      authorField a = .ok sa →
      strField "title" t = .ok st →
      check_year year_now n = .ok () →
      strField "publisher" p = .error e →
      mkBook year_now a t y p o1 o2 o3 o4 o5 o6 o7 o8 = .error e) ∧
    (∀ (year_now : ℤ) (a t y p : PyVal)
      (o1 o2 o3 o4 o5 o6 o7 o8 : Option PyVal) (n : ℤ) (sa : PyStr) (st : PyStr) (sp : PyStr) (e : Err),
      convert_year y = .ok n →
      authorField a = .ok sa →
      strField "title" t = .ok st →
      check_year year_now n = .ok () →
      strField "publisher" p = .ok sp →
      optField o1 = .error e →
      mkBook year_now a t y p o1 o2 o3 o4 o5 o6 o7 o8 = .error e) ∧
    (∀ (year_now : ℤ) (a t y p : PyVal)
      (o1 o2 o3 o4 o5 o6 o7 o8 : Option PyVal) (n : ℤ) (sa : PyStr) (st : PyStr) (sp : PyStr) (w1 : Option PyStr) (e : Err),
      convert_year y = .ok n →
      authorField a = .ok sa →
      strField "title" t = .ok st →
      check_year year_now n = .ok () →
      strField "publisher" p = .ok sp →
      optField o1 = .ok w1 →
      optField o2 = .error e →
      mkBook year_now a t y p o1 o2 o3 o4 o5 o6 o7 o8 = .error e) ∧
    (∀ (year_now : ℤ) (a t y p : PyVal)
      (o1 o2 o3 o4 o5 o6 o7 o8 : Option PyVal) (n : ℤ) (sa : PyStr) (st : PyStr) (sp : PyStr) (w1 : Option PyStr) (w2 : Option PyStr) (e : Err),
      convert_year y = .ok n →
      authorField a = .ok sa →
      strField "title" t = .ok st →
      check_year year_now n = .ok () →
      strField "publisher" p = .ok sp →
      optField o1 = .ok w1 →
      optField o2 = .ok w2 →
      optField o3 = .error e →
      mkBook year_now a t y p o1 o2 o3 o4 o5 o6 o7 o8 = .error e) ∧
    (∀ (year_now : ℤ) (a t y p : PyVal)
      (o1 o2 o3 o4 o5 o6 o7 o8 : Option PyVal) (n : ℤ) (sa : PyStr) (st : PyStr) (sp : PyStr) (w1 : Option PyStr) (w2 : Option PyStr) (w3 : Option PyStr) (e : Err),
      convert_year y = .ok n →
      authorField a = .ok sa →
      strField "title" t = .ok st →
      check_year year_now n = .ok () →
      strField "publisher" p = .ok sp →
      optField o1 = .ok w1 →
      optField o2 = .ok w2 →
      optField o3 = .ok w3 →
      optField o4 = .error e →
      mkBook year_now a t y p o1 o2 o3 o4 o5 o6 o7 o8 = .error e) ∧
    (∀ (year_now : ℤ) (a t y p : PyVal)
      (o1 o2 o3 o4 o5 o6 o7 o8 : Option PyVal) (n : ℤ) (sa : PyStr) (st : PyStr) (sp : PyStr) (w1 : Option PyStr) (w2 : Option PyStr) (w3 : Option PyStr) (w4 : Option PyStr) (e : Err),
      convert_year y = .ok n →
      authorField a = .ok sa →
      strField "title" t = .ok st →
      check_year year_now n = .ok () →
      strField "publisher" p = .ok sp →
      optField o1 = .ok w1 →
      optField o2 = .ok w2 →
      optField o3 = .ok w3 →
      optField o4 = .ok w4 →
      optField o5 = .error e →
      mkBook year_now a t y p o1 o2 o3 o4 o5 o6 o7 o8 = .error e) ∧
    (∀ (year_now : ℤ) (a t y p : PyVal)
      (o1 o2 o3 o4 o5 o6 o7 o8 : Option PyVal) (n : ℤ) (sa : PyStr) (st : PyStr) (sp : PyStr) (w1 : Option PyStr) (w2 : Option PyStr) (w3 : Option PyStr) (w4 : Option PyStr) (w5 : Option PyStr) (e : Err),
      convert_year y = .ok n →
      authorField a = .ok sa →
      strField "title" t = .ok st →
      check_year year_now n = .ok () →
      strField "publisher" p = .ok sp →
      optField o1 = .ok w1 →
      optField o2 = .ok w2 →
      optField o3 = .ok w3 →
      optField o4 = .ok w4 →
      optField o5 = .ok w5 →
      optField o6 = .error e →
      mkBook year_now a t y p o1 o2 o3 o4 o5 o6 o7 o8 = .error e) ∧
    (∀ (year_now : ℤ) (a t y p : PyVal)
      (o1 o2 o3 o4 o5 o6 o7 o8 : Option PyVal) (n : ℤ) (sa : PyStr) (st : PyStr) (sp : PyStr) (w1 : Option PyStr) (w2 : Option PyStr) (w3 : Option PyStr) (w4 : Option PyStr) (w5 : Option PyStr) (w6 : Option PyStr) (e : Err),
      convert_year y = .ok n →
      authorField a = .ok sa →
      strField "title" t = .ok st →
      check_year year_now n = .ok () →
      strField "publisher" p = .ok sp →
      optField o1 = .ok w1 →
      optField o2 = .ok w2 →
      optField o3 = .ok w3 →
      optField o4 = .ok w4 →
      optField o5 = .ok w5 →
      optField o6 = .ok w6 →
      optField o7 = .error e →
      mkBook year_now a t y p o1 o2 o3 o4 o5 o6 o7 o8 = .error e) ∧
    (∀ (year_now : ℤ) (a t y p : PyVal)
      (o1 o2 o3 o4 o5 o6 o7 o8 : Option PyVal) (n : ℤ) (sa : PyStr) (st : PyStr) (sp : PyStr) (w1 : Option PyStr) (w2 : Option PyStr) (w3 : Option PyStr) (w4 : Option PyStr) (w5 : Option PyStr) (w6 : Option PyStr) (w7 : Option PyStr) (e : Err),
      convert_year y = .ok n →
      authorField a = .ok sa →
      strField "title" t = .ok st →
      check_year year_now n = .ok () →
      strField "publisher" p = .ok sp →
      optField o1 = .ok w1 →
      optField o2 = .ok w2 →
      optField o3 = .ok w3 →
      optField o4 = .ok w4 →
      optField o5 = .ok w5 →
      optField o6 = .ok w6 →
      optField o7 = .ok w7 →
      optField o8 = .error e →
      mkBook year_now a t y p o1 o2 o3 o4 o5 o6 o7 o8 = .error e) ∧
    (∀ (year_now : ℤ) (a j t y : PyVal) (o1 o2 o3 o4 o5 : Option PyVal),
      pyInt y = Option.none →
      mkArticle year_now a j t y o1 o2 o3 o4 o5 = .error .intCoerce) ∧
    (∀ (year_now : ℤ) (a j t y : PyVal) (o1 o2 o3 o4 o5 : Option PyVal) (n : ℤ) (e : Err),
      convert_year y = .ok n →
      authorField a = .error e →
      mkArticle year_now a j t y o1 o2 o3 o4 o5 = .error e) ∧
    (∀ (year_now : ℤ) (a j t y : PyVal) (o1 o2 o3 o4 o5 : Option PyVal) (n : ℤ) (sa : PyStr) (e : Err),
      convert_year y = .ok n →
      authorField a = .ok sa →
      strField "journal" j = .error e →
      mkArticle year_now a j t y o1 o2 o3 o4 o5 = .error e) ∧
    (∀ (year_now : ℤ) (a j t y : PyVal) (o1 o2 o3 o4 o5 : Option PyVal) (n : ℤ) (sa : PyStr) (sj : PyStr) (e : Err),
      convert_year y = .ok n →
      authorField a = .ok sa →
      strField "journal" j = .ok sj →
      strField "title" t = .error e →
      mkArticle year_now a j t y o1 o2 o3 o4 o5 = .error e) ∧
    (∀ (year_now : ℤ) (a j t y : PyVal) (o1 o2 o3 o4 o5 : Option PyVal) (n : ℤ) (sa : PyStr) (sj : PyStr) (st : PyStr) (e : Err),
      convert_year y = .ok n →
      authorField a = .ok sa →
      strField "journal" j = .ok sj →
      strField "title" t = .ok st →
      check_year year_now n = .error e →
      mkArticle year_now a j t y o1 o2 o3 o4 o5 = .error e) ∧
    (∀ (year_now : ℤ) (a j t y : PyVal) (o1 o2 o3 o4 o5 : Option PyVal) (n : ℤ) (sa : PyStr) (sj : PyStr) (st : PyStr) (e : Err),
      convert_year y = .ok n →
      authorField a = .ok sa →
      strField "journal" j = .ok sj →
      strField "title" t = .ok st →
      check_year year_now n = .ok () →
      optField o1 = .error e →
      mkArticle year_now a j t y o1 o2 o3 o4 o5 = .error e) ∧
    (∀ (year_now : ℤ) (a j t y : PyVal) (o1 o2 o3 o4 o5 : Option PyVal) (n : ℤ) (sa : PyStr) (sj : PyStr) (st : PyStr) (w1 : Option PyStr) (e : Err),
      convert_year y = .ok n →
      authorField a = .ok sa →
      strField "journal" j = .ok sj →
      strField "title" t = .ok st →
      check_year year_now n = .ok () →
      optField o1 = .ok w1 →
      optField o2 = .error e →
      mkArticle year_now a j t y o1 o2 o3 o4 o5 = .error e) ∧
    (∀ (year_now : ℤ) (a j t y : PyVal) (o1 o2 o3 o4 o5 : Option PyVal) (n : ℤ) (sa : PyStr) (sj : PyStr) (st : PyStr) (w1 : Option PyStr) (w2 : Option PyStr) (e : Err),
      convert_year y = .ok n →
      authorField a = .ok sa →
      strField "journal" j = .ok sj →
      strField "title" t = .ok st →
      check_year year_now n = .ok () →
      optField o1 = .ok w1 →
      optField o2 = .ok w2 →
      optField o3 = .error e →
      mkArticle year_now a j t y o1 o2 o3 o4 o5 = .error e) ∧
    (∀ (year_now : ℤ) (a j t y : PyVal) (o1 o2 o3 o4 o5 : Option PyVal) (n : ℤ) (sa : PyStr) (sj : PyStr) (st : PyStr) (w1 : Option PyStr) (w2 : Option PyStr) (w3 : Option PyStr) (e : Err),
      convert_year y = .ok n →
      authorField a = .ok sa →
      strField "journal" j = .ok sj →
      strField "title" t = .ok st →
      check_year year_now n = .ok () →
      optField o1 = .ok w1 →
      optField o2 = .ok w2 →
      optField o3 = .ok w3 →
      optField o4 = .error e →
      mkArticle year_now a j t y o1 o2 o3 o4 o5 = .error e) ∧
    (∀ (year_now : ℤ) (a j t y : PyVal) (o1 o2 o3 o4 o5 : Option PyVal) (n : ℤ) (sa : PyStr) (sj : PyStr) (st : PyStr) (w1 : Option PyStr) (w2 : Option PyStr) (w3 : Option PyStr) (w4 : Option PyStr) (e : Err),
      convert_year y = .ok n →
      authorField a = .ok sa →
      strField "journal" j = .ok sj →
      strField "title" t = .ok st →
      check_year year_now n = .ok () →
      optField o1 = .ok w1 →
      optField o2 = .ok w2 →
      optField o3 = .ok w3 →
      optField o4 = .ok w4 →
      optField o5 = .error e →
      mkArticle year_now a j t y o1 o2 o3 o4 o5 = .error e) ∧
    (∀ (year_now : ℤ) (a t y bk : PyVal)
      (o1 o2 o3 o4 o5 o6 o7 o8 o9 o10 : Option PyVal),
      pyInt y = Option.none →
      mkInproceedings year_now a t y bk o1 o2 o3 o4 o5 o6 o7 o8 o9 o10 = .error .intCoerce) ∧
    (∀ (year_now : ℤ) (a t y bk : PyVal)
      (o1 o2 o3 o4 o5 o6 o7 o8 o9 o10 : Option PyVal) (n : ℤ) (e : Err),
      convert_year y = .ok n →
      authorField a = .error e →
      mkInproceedings year_now a t y bk o1 o2 o3 o4 o5 o6 o7 o8 o9 o10 = .error e) ∧
    (∀ (year_now : ℤ) (a t y bk : PyVal)
      (o1 o2 o3 o4 o5 o6 o7 o8 o9 o10 : Option PyVal) (n : ℤ) (sa : PyStr) (e : Err),
      convert_year y = .ok n →
      authorField a = .ok sa →
      strField "title" t = .error e →
      mkInproceedings year_now a t y bk o1 o2 o3 o4 o5 o6 o7 o8 o9 o10 = .error e) ∧
    (∀ (year_now : ℤ) (a t y bk : PyVal)
      (o1 o2 o3 o4 o5 o6 o7 o8 o9 o10 : Option PyVal) (n : ℤ) (sa : PyStr) (st : PyStr) (e : Err),
      convert_year y = .ok n →
      authorField a = .ok sa →
      strField "title" t = .ok st →
      check_year year_now n = .error e →
      mkInproceedings year_now a t y bk o1 o2 o3 o4 o5 o6 o7 o8 o9 o10 = .error e) ∧
    (∀ (year_now : ℤ) (a t y bk : PyVal)
      (o1 o2 o3 o4 o5 o6 o7 o8 o9 o10 : Option PyVal) (n : ℤ) (sa : PyStr) (st : PyStr) (e : Err),
      convert_year y = .ok n →
      authorField a = .ok sa →
      strField "title" t = .ok st →
      check_year year_now n = .ok () →
      strField "booktitle" bk = .error e →
      mkInproceedings year_now a t y bk o1 o2 o3 o4 o5 o6 o7 o8 o9 o10 = .error e) ∧
    (∀ (year_now : ℤ) (a t y bk : PyVal)
      (o1 o2 o3 o4 o5 o6 o7 o8 o9 o10 : Option PyVal) (n : ℤ) (sa : PyStr) (st : PyStr) (sb : PyStr) (e : Err),
      convert_year y = .ok n →
      authorField a = .ok sa →
      strField "title" t = .ok st →
      check_year year_now n = .ok () →
      strField "booktitle" bk = .ok sb →
      optField o1 = .error e →
      mkInproceedings year_now a t y bk o1 o2 o3 o4 o5 o6 o7 o8 o9 o10 = .error e) ∧
    (∀ (year_now : ℤ) (a t y bk : PyVal)
      (o1 o2 o3 o4 o5 o6 o7 o8 o9 o10 : Option PyVal) (n : ℤ) (sa : PyStr) (st : PyStr) (sb : PyStr) (w1 : Option PyStr) (e : Err),
      convert_year y = .ok n →
      authorField a = .ok sa →
      strField "title" t = .ok st →
      check_year year_now n = .ok () →
      strField "booktitle" bk = .ok sb →
      optField o1 = .ok w1 →
      optField o2 = .error e →
      mkInproceedings year_now a t y bk o1 o2 o3 o4 o5 o6 o7 o8 o9 o10 = .error e) ∧
    (∀ (year_now : ℤ) (a t y bk : PyVal)
      (o1 o2 o3 o4 o5 o6 o7 o8 o9 o10 : Option PyVal) (n : ℤ) (sa : PyStr) (st : PyStr) (sb : PyStr) (w1 : Option PyStr) (w2 : Option PyStr) (e : Err),
      convert_year y = .ok n →
      authorField a = .ok sa →
      strField "title" t = .ok st →
      check_year year_now n = .ok () →
      strField "booktitle" bk = .ok sb →
      optField o1 = .ok w1 →
      optField o2 = .ok w2 →
      optField o3 = .error e →
      mkInproceedings year_now a t y bk o1 o2 o3 o4 o5 o6 o7 o8 o9 o10 = .error e) ∧
    (∀ (year_now : ℤ) (a t y bk : PyVal)
      (o1 o2 o3 o4 o5 o6 o7 o8 o9 o10 : Option PyVal) (n : ℤ) (sa : PyStr) (st : PyStr) (sb : PyStr) (w1 : Option PyStr) (w2 : Option PyStr) (w3 : Option PyStr) (e : Err),
      convert_year y = .ok n →
      authorField a = .ok sa →
      strField "title" t = .ok st →
      check_year year_now n = .ok () →
      strField "booktitle" bk = .ok sb →
      optField o1 = .ok w1 →
      optField o2 = .ok w2 →
      optField o3 = .ok w3 →
      optField o4 = .error e →
      mkInproceedings year_now a t y bk o1 o2 o3 o4 o5 o6 o7 o8 o9 o10 = .error e) ∧
    (∀ (year_now : ℤ) (a t y bk : PyVal)
      (o1 o2 o3 o4 o5 o6 o7 o8 o9 o10 : Option PyVal) (n : ℤ) (sa : PyStr) (st : PyStr) (sb : PyStr) (w1 : Option PyStr) (w2 : Option PyStr) (w3 : Option PyStr) (w4 : Option PyStr) (e : Err),
      convert_year y = .ok n →
      authorField a = .ok sa →
      strField "title" t = .ok st →
      check_year year_now n = .ok () →
      strField "booktitle" bk = .ok sb →
      optField o1 = .ok w1 →
      optField o2 = .ok w2 →
      optField o3 = .ok w3 →
      optField o4 = .ok w4 →
      optField o5 = .error e →
      mkInproceedings year_now a t y bk o1 o2 o3 o4 o5 o6 o7 o8 o9 o10 = .error e) ∧
    (∀ (year_now : ℤ) (a t y bk : PyVal)
      (o1 o2 o3 o4 o5 o6 o7 o8 o9 o10 : Option PyVal) (n : ℤ) (sa : PyStr) (st : PyStr) (sb : PyStr) (w1 : Option PyStr) (w2 : Option PyStr) (w3 : Option PyStr) (w4 : Option PyStr) (w5 : Option PyStr) (e : Err),
      convert_year y = .ok n →
      authorField a = .ok sa →
      strField "title" t = .ok st →
      check_year year_now n = .ok () →
      strField "booktitle" bk = .ok sb →
      optField o1 = .ok w1 →
      optField o2 = .ok w2 →
      optField o3 = .ok w3 →
      optField o4 = .ok w4 →
      optField o5 = .ok w5 →
      optField o6 = .error e →
      mkInproceedings year_now a t y bk o1 o2 o3 o4 o5 o6 o7 o8 o9 o10 = .error e) ∧
    (∀ (year_now : ℤ) (a t y bk : PyVal)
      (o1 o2 o3 o4 o5 o6 o7 o8 o9 o10 : Option PyVal) (n : ℤ) (sa : PyStr) (st : PyStr) (sb : PyStr) (w1 : Option PyStr) (w2 : Option PyStr) (w3 : Option PyStr) (w4 : Option PyStr) (w5 : Option PyStr) (w6 : Option PyStr) (e : Err),
      convert_year y = .ok n →
      authorField a = .ok sa →
      strField "title" t = .ok st →
      check_year year_now n = .ok () →
      strField "booktitle" bk = .ok sb →
      optField o1 = .ok w1 →
      optField o2 = .ok w2 →
      optField o3 = .ok w3 →
      optField o4 = .ok w4 →
      optField o5 = .ok w5 →
      optField o6 = .ok w6 →
      optField o7 = .error e →
      mkInproceedings year_now a t y bk o1 o2 o3 o4 o5 o6 o7 o8 o9 o10 = .error e) ∧
    (∀ (year_now : ℤ) (a t y bk : PyVal)
      (o1 o2 o3 o4 o5 o6 o7 o8 o9 o10 : Option PyVal) (n : ℤ) (sa : PyStr) (st : PyStr) (sb : PyStr) (w1 : Option PyStr) (w2 : Option PyStr) (w3 : Option PyStr) (w4 : Option PyStr) (w5 : Option PyStr) (w6 : Option PyStr) (w7 : Option PyStr) (e : Err),
      convert_year y = .ok n →
      authorField a = .ok sa →
      strField "title" t = .ok st →
      check_year year_now n = .ok () →
      strField "booktitle" bk = .ok sb →
      optField o1 = .ok w1 →
      optField o2 = .ok w2 →
      optField o3 = .ok w3 →
      optField o4 = .ok w4 →
      optField o5 = .ok w5 →
      optField o6 = .ok w6 →
      optField o7 = .ok w7 →
      optField o8 = .error e →
      mkInproceedings year_now a t y bk o1 o2 o3 o4 o5 o6 o7 o8 o9 o10 = .error e) ∧
    (∀ (year_now : ℤ) (a t y bk : PyVal)
      (o1 o2 o3 o4 o5 o6 o7 o8 o9 o10 : Option PyVal) (n : ℤ) (sa : PyStr) (st : PyStr) (sb : PyStr) (w1 : Option PyStr) (w2 : Option PyStr) (w3 : Option PyStr) (w4 : Option PyStr) (w5 : Option PyStr) (w6 : Option PyStr) (w7 : Option PyStr) (w8 : Option PyStr) (e : Err),
      convert_year y = .ok n →
      authorField a = .ok sa →
      strField "title" t = .ok st →
      check_year year_now n = .ok () →
      strField "booktitle" bk = .ok sb →
      optField o1 = .ok w1 →
      optField o2 = .ok w2 →
      optField o3 = .ok w3 →
      optField o4 = .ok w4 →
      optField o5 = .ok w5 →
      optField o6 = .ok w6 →
      optField o7 = .ok w7 →
      optField o8 = .ok w8 →
      optField o9 = .error e →
      mkInproceedings year_now a t y bk o1 o2 o3 o4 o5 o6 o7 o8 o9 o10 = .error e) ∧
    (∀ (year_now : ℤ) (a t y bk : PyVal)
      (o1 o2 o3 o4 o5 o6 o7 o8 o9 o10 : Option PyVal) (n : ℤ) (sa : PyStr) (st : PyStr) (sb : PyStr) (w1 : Option PyStr) (w2 : Option PyStr) (w3 : Option PyStr) (w4 : Option PyStr) (w5 : Option PyStr) (w6 : Option PyStr) (w7 : Option PyStr) (w8 : Option PyStr) (w9 : Option PyStr) (e : Err),
      convert_year y = .ok n →
      authorField a = .ok sa →
      strField "title" t = .ok st →
      check_year year_now n = .ok () →
      strField "booktitle" bk = .ok sb →
      optField o1 = .ok w1 →
      optField o2 = .ok w2 →
      optField o3 = .ok w3 →
      optField o4 = .ok w4 →
      optField o5 = .ok w5 →
      optField o6 = .ok w6 →
      optField o7 = .ok w7 →
      optField o8 = .ok w8 →
      optField o9 = .ok w9 →
      optField o10 = .error e →
      mkInproceedings year_now a t y bk o1 o2 o3 o4 o5 o6 o7 o8 o9 o10 = .error e) ∧
    (∀ (attr : String) (v : PyVal) (e : Err),
      instance_of_str attr v = .error e → e = .notInstanceOfStr attr) ∧
    (∀ (attr1 attr2 : String) (s : PyStr), 5000 < s.length →
      strField attr1 (.str s) = strField attr2 (.str s)) ∧
    (∀ (year_now : ℤ) (a t y p : PyVal)
      (o1 o2 o3 o4 o5 o6 o7 o8 : Option PyVal),
      (∃ b, mkBook year_now a t y p o1 o2 o3 o4 o5 o6 o7 o8 = .ok b) ∨
        (∃ e, mkBook year_now a t y p o1 o2 o3 o4 o5 o6 o7 o8 = .error e)) ∧
    (∀ (year_now : ℤ) (a j t y : PyVal) (o1 o2 o3 o4 o5 : Option PyVal),
      (∃ b, mkArticle year_now a j t y o1 o2 o3 o4 o5 = .ok b) ∨
        (∃ e, mkArticle year_now a j t y o1 o2 o3 o4 o5 = .error e)) ∧
    (∀ (year_now : ℤ) (a t y bk : PyVal)
      (o1 o2 o3 o4 o5 o6 o7 o8 o9 o10 : Option PyVal),
      (∃ b, mkInproceedings year_now a t y bk o1 o2 o3 o4 o5 o6 o7 o8 o9 o10 = .ok b) ∨
        (∃ e, mkInproceedings year_now a t y bk o1 o2 o3 o4 o5 o6 o7 o8 o9 o10 = .error e)) := by
  refine ⟨?_, ?_, ?_, ?_, ?_, ?_, ?_, ?_, ?_, ?_, ?_, ?_, ?_, ?_, ?_, ?_, ?_, ?_, ?_, ?_, ?_, ?_, ?_, ?_, ?_, ?_, ?_, ?_, ?_, ?_, ?_, ?_, ?_, ?_, ?_, ?_, ?_, ?_, ?_, ?_, ?_, ?_, ?_⟩
  · intro year_now a t y p o1 o2 o3 o4 o5 o6 o7 o8 h
    unfold mkBook convert_year
    rw [h]
    rfl
  · intro year_now a t y p o1 o2 o3 o4 o5 o6 o7 o8 n e hy ha
    simp only [mkBook, convert_year, hy, ok_bind, ha, error_bind]
  · intro year_now a t y p o1 o2 o3 o4 o5 o6 o7 o8 n sa e hs0 hs1 he
    simp only [mkBook, hs0, hs1, he, ok_bind, error_bind]
  · intro year_now a t y p o1 o2 o3 o4 o5 o6 o7 o8 n sa st e hs0 hs1 hs2 he
    simp only [mkBook, hs0, hs1, hs2, he, ok_bind, error_bind]
  · intro year_now a t y p o1 o2 o3 o4 o5 o6 o7 o8 n sa st e hs0 hs1 hs2 hs3 he
    simp only [mkBook, hs0, hs1, hs2, hs3, he, ok_bind, error_bind]
  · intro year_now a t y p o1 o2 o3 o4 o5 o6 o7 o8 n sa st sp e hs0 hs1 hs2 hs3 hs4 he
    simp only [mkBook, hs0, hs1, hs2, hs3, hs4, he, ok_bind, error_bind]
  · intro year_now a t y p o1 o2 o3 o4 o5 o6 o7 o8 n sa st sp w1 e hs0 hs1 hs2 hs3 hs4 hs5 he
    simp only [mkBook, hs0, hs1, hs2, hs3, hs4, hs5, he, ok_bind, error_bind]
  · intro year_now a t y p o1 o2 o3 o4 o5 o6 o7 o8 n sa st sp w1 w2 e hs0 hs1 hs2 hs3 hs4 hs5 hs6 he
    simp only [mkBook, hs0, hs1, hs2, hs3, hs4, hs5, hs6, he, ok_bind, error_bind]
  · intro year_now a t y p o1 o2 o3 o4 o5 o6 o7 o8 n sa st sp w1 w2 w3 e hs0 hs1 hs2 hs3 hs4 hs5 hs6 hs7 he
    simp only [mkBook, hs0, hs1, hs2, hs3, hs4, hs5, hs6, hs7, he, ok_bind, error_bind]
  · intro year_now a t y p o1 o2 o3 o4 o5 o6 o7 o8 n sa st sp w1 w2 w3 w4 e hs0 hs1 hs2 hs3 hs4 hs5 hs6 hs7 hs8 he
    simp only [mkBook, hs0, hs1, hs2, hs3, hs4, hs5, hs6, hs7, hs8, he, ok_bind, error_bind]
  · intro year_now a t y p o1 o2 o3 o4 o5 o6 o7 o8 n sa st sp w1 w2 w3 w4 w5 e hs0 hs1 hs2 hs3 hs4 hs5 hs6 hs7 hs8 hs9 he
    simp only [mkBook, hs0, hs1, hs2, hs3, hs4, hs5, hs6, hs7, hs8, hs9, he, ok_bind, error_bind]
  · intro year_now a t y p o1 o2 o3 o4 o5 o6 o7 o8 n sa st sp w1 w2 w3 w4 w5 w6 e hs0 hs1 hs2 hs3 hs4 hs5 hs6 hs7 hs8 hs9 hs10 he
    simp only [mkBook, hs0, hs1, hs2, hs3, hs4, hs5, hs6, hs7, hs8, hs9, hs10, he, ok_bind, error_bind]
  · intro year_now a t y p o1 o2 o3 o4 o5 o6 o7 o8 n sa st sp w1 w2 w3 w4 w5 w6 w7 e hs0 hs1 hs2 hs3 hs4 hs5 hs6 hs7 hs8 hs9 hs10 hs11 he
    simp only [mkBook, hs0, hs1, hs2, hs3, hs4, hs5, hs6, hs7, hs8, hs9, hs10, hs11, he, ok_bind, error_bind]
  · intro year_now a j t y o1 o2 o3 o4 o5 h
    unfold mkArticle convert_year
    rw [h]
    rfl
  · intro year_now a j t y o1 o2 o3 o4 o5 n e hs0 he
    simp only [mkArticle, hs0, he, ok_bind, error_bind]
  · intro year_now a j t y o1 o2 o3 o4 o5 n sa e hs0 hs1 he
    simp only [mkArticle, hs0, hs1, he, ok_bind, error_bind]
  · intro year_now a j t y o1 o2 o3 o4 o5 n sa sj e hs0 hs1 hs2 he
    simp only [mkArticle, hs0, hs1, hs2, he, ok_bind, error_bind]
  · intro year_now a j t y o1 o2 o3 o4 o5 n sa sj st e hs0 hs1 hs2 hs3 he
    simp only [mkArticle, hs0, hs1, hs2, hs3, he, ok_bind, error_bind]
  · intro year_now a j t y o1 o2 o3 o4 o5 n sa sj st e hs0 hs1 hs2 hs3 hs4 he
    simp only [mkArticle, hs0, hs1, hs2, hs3, hs4, he, ok_bind, error_bind]
  · intro year_now a j t y o1 o2 o3 o4 o5 n sa sj st w1 e hs0 hs1 hs2 hs3 hs4 hs5 he
    simp only [mkArticle, hs0, hs1, hs2, hs3, hs4, hs5, he, ok_bind, error_bind]
  · intro year_now a j t y o1 o2 o3 o4 o5 n sa sj st w1 w2 e hs0 hs1 hs2 hs3 hs4 hs5 hs6 he
    simp only [mkArticle, hs0, hs1, hs2, hs3, hs4, hs5, hs6, he, ok_bind, error_bind]
  · intro year_now a j t y o1 o2 o3 o4 o5 n sa sj st w1 w2 w3 e hs0 hs1 hs2 hs3 hs4 hs5 hs6 hs7 he
    simp only [mkArticle, hs0, hs1, hs2, hs3, hs4, hs5, hs6, hs7, he, ok_bind, error_bind]
  · intro year_now a j t y o1 o2 o3 o4 o5 n sa sj st w1 w2 w3 w4 e hs0 hs1 hs2 hs3 hs4 hs5 hs6 hs7 hs8 he
    simp only [mkArticle, hs0, hs1, hs2, hs3, hs4, hs5, hs6, hs7, hs8, he, ok_bind, error_bind]
  · intro year_now a t y bk o1 o2 o3 o4 o5 o6 o7 o8 o9 o10 h
    unfold mkInproceedings convert_year
    rw [h]
    rfl
  · intro year_now a t y bk o1 o2 o3 o4 o5 o6 o7 o8 o9 o10 n e hs0 he
    simp only [mkInproceedings, hs0, he, ok_bind, error_bind]
  · intro year_now a t y bk o1 o2 o3 o4 o5 o6 o7 o8 o9 o10 n sa e hs0 hs1 he
    simp only [mkInproceedings, hs0, hs1, he, ok_bind, error_bind]
  · intro year_now a t y bk o1 o2 o3 o4 o5 o6 o7 o8 o9 o10 n sa st e hs0 hs1 hs2 he
    simp only [mkInproceedings, hs0, hs1, hs2, he, ok_bind, error_bind]
  · intro year_now a t y bk o1 o2 o3 o4 o5 o6 o7 o8 o9 o10 n sa st e hs0 hs1 hs2 hs3 he
    simp only [mkInproceedings, hs0, hs1, hs2, hs3, he, ok_bind, error_bind]
  · intro year_now a t y bk o1 o2 o3 o4 o5 o6 o7 o8 o9 o10 n sa st sb e hs0 hs1 hs2 hs3 hs4 he
    simp only [mkInproceedings, hs0, hs1, hs2, hs3, hs4, he, ok_bind, error_bind]
  · intro year_now a t y bk o1 o2 o3 o4 o5 o6 o7 o8 o9 o10 n sa st sb w1 e hs0 hs1 hs2 hs3 hs4 hs5 he
    simp only [mkInproceedings, hs0, hs1, hs2, hs3, hs4, hs5, he, ok_bind, error_bind]
  · intro year_now a t y bk o1 o2 o3 o4 o5 o6 o7 o8 o9 o10 n sa st sb w1 w2 e hs0 hs1 hs2 hs3 hs4 hs5 hs6 he
    simp only [mkInproceedings, hs0, hs1, hs2, hs3, hs4, hs5, hs6, he, ok_bind, error_bind]
  · intro year_now a t y bk o1 o2 o3 o4 o5 o6 o7 o8 o9 o10 n sa st sb w1 w2 w3 e hs0 hs1 hs2 hs3 hs4 hs5 hs6 hs7 he
    simp only [mkInproceedings, hs0, hs1, hs2, hs3, hs4, hs5, hs6, hs7, he, ok_bind, error_bind]
  · intro year_now a t y bk o1 o2 o3 o4 o5 o6 o7 o8 o9 o10 n sa st sb w1 w2 w3 w4 e hs0 hs1 hs2 hs3 hs4 hs5 hs6 hs7 hs8 he
    simp only [mkInproceedings, hs0, hs1, hs2, hs3, hs4, hs5, hs6, hs7, hs8, he, ok_bind, error_bind]
  · intro year_now a t y bk o1 o2 o3 o4 o5 o6 o7 o8 o9 o10 n sa st sb w1 w2 w3 w4 w5 e hs0 hs1 hs2 hs3 hs4 hs5 hs6 hs7 hs8 hs9 he
    simp only [mkInproceedings, hs0, hs1, hs2, hs3, hs4, hs5, hs6, hs7, hs8, hs9, he, ok_bind, error_bind]
  · intro year_now a t y bk o1 o2 o3 o4 o5 o6 o7 o8 o9 o10 n sa st sb w1 w2 w3 w4 w5 w6 e hs0 hs1 hs2 hs3 hs4 hs5 hs6 hs7 hs8 hs9 hs10 he
    simp only [mkInproceedings, hs0, hs1, hs2, hs3, hs4, hs5, hs6, hs7, hs8, hs9, hs10, he, ok_bind, error_bind]
  · intro year_now a t y bk o1 o2 o3 o4 o5 o6 o7 o8 o9 o10 n sa st sb w1 w2 w3 w4 w5 w6 w7 e hs0 hs1 hs2 hs3 hs4 hs5 hs6 hs7 hs8 hs9 hs10 hs11 he
    simp only [mkInproceedings, hs0, hs1, hs2, hs3, hs4, hs5, hs6, hs7, hs8, hs9, hs10, hs11, he, ok_bind, error_bind]
  · intro year_now a t y bk o1 o2 o3 o4 o5 o6 o7 o8 o9 o10 n sa st sb w1 w2 w3 w4 w5 w6 w7 w8 e hs0 hs1 hs2 hs3 hs4 hs5 hs6 hs7 hs8 hs9 hs10 hs11 hs12 he
    simp only [mkInproceedings, hs0, hs1, hs2, hs3, hs4, hs5, hs6, hs7, hs8, hs9, hs10, hs11, hs12, he, ok_bind, error_bind]
  · intro year_now a t y bk o1 o2 o3 o4 o5 o6 o7 o8 o9 o10 n sa st sb w1 w2 w3 w4 w5 w6 w7 w8 w9 e hs0 hs1 hs2 hs3 hs4 hs5 hs6 hs7 hs8 hs9 hs10 hs11 hs12 hs13 he
    simp only [mkInproceedings, hs0, hs1, hs2, hs3, hs4, hs5, hs6, hs7, hs8, hs9, hs10, hs11, hs12, hs13, he, ok_bind, error_bind]
  · intro attr v e h
    cases v with
    | str s => exact Except.noConfusion h
    | none => cases h; rfl
    | int n => cases h; rfl
    | float q => cases h; rfl
  · intro attr1 attr2 s h
    rw [strField_long attr1 s h, strField_long attr2 s h]
  · intro year_now a t y p o1 o2 o3 o4 o5 o6 o7 o8
    cases hres : mkBook year_now a t y p o1 o2 o3 o4 o5 o6 o7 o8 with
    | ok b => exact Or.inl ⟨b, rfl⟩
    | error e => exact Or.inr ⟨e, rfl⟩
  · intro year_now a j t y o1 o2 o3 o4 o5
    cases hres : mkArticle year_now a j t y o1 o2 o3 o4 o5 with
    | ok b => exact Or.inl ⟨b, rfl⟩
    | error e => exact Or.inr ⟨e, rfl⟩
  · intro year_now a t y bk o1 o2 o3 o4 o5 o6 o7 o8 o9 o10
    cases hres : mkInproceedings year_now a t y bk o1 o2 o3 o4 o5 o6 o7 o8 o9 o10 with
    | ok b => exact Or.inl ⟨b, rfl⟩
    | error e => exact Or.inr ⟨e, rfl⟩

/-- Witness for C6: with author "bad" and year "abc", the reported error
is the converter's, for each entry type; with author "bad" and a valid
year, the reported error is the author's name error; a non-string title
fails at the title stage with the attribute-naming type error. -/
theorem C6_amended_witness :
    pyInt (.str "abc".toList) = Option.none ∧
    mkBook 2026 (.str "bad".toList) (.str titleCC) (.str "abc".toList)
      (.str pubPH) Option.none Option.none Option.none Option.none
      Option.none Option.none Option.none Option.none =
      .error .intCoerce ∧
    pyInt (.int 2008) = some 2008 ∧
    authorField (.str "bad".toList) = .error .nameTooShort ∧
    mkBook 2026 (.str "bad".toList) (.str titleCC) (.int 2008)
      (.str pubPH) Option.none Option.none Option.none Option.none
      Option.none Option.none Option.none Option.none =
      .error .nameTooShort ∧
    mkArticle 2026 (.str authorRM) (.str journalAE) (.str titleCC)
      (.str "abc".toList) Option.none Option.none Option.none Option.none
      Option.none = .error .intCoerce ∧
    mkInproceedings 2026 (.str authorRM) (.str titleCC)
      (.str "abc".toList) (.str bookSIG) Option.none Option.none
      Option.none Option.none Option.none Option.none Option.none
      Option.none Option.none Option.none = .error .intCoerce ∧
    mkBook 2026 (.str authorRM) (.int 7) (.int 2008) (.str pubPH)
      Option.none Option.none Option.none Option.none Option.none
      Option.none Option.none Option.none =
      .error (.notInstanceOfStr "title") :=
  ⟨by decide,
   C6_amended.1 2026 (.str "bad".toList) (.str titleCC)
     (.str "abc".toList) (.str pubPH) Option.none Option.none Option.none
     Option.none Option.none Option.none Option.none Option.none
     (by decide),
   by decide,
   by decide,
   C6_amended.2.1 2026 (.str "bad".toList) (.str titleCC) (.int 2008)
     (.str pubPH) Option.none Option.none Option.none Option.none
     Option.none Option.none Option.none Option.none 2008 .nameTooShort
     (by decide) (by decide),
   C6_amended.2.2.2.2.2.2.2.2.2.2.2.2.2.1 2026 (.str authorRM) (.str journalAE) (.str titleCC)
     (.str "abc".toList) Option.none Option.none Option.none Option.none
     Option.none (by decide),
   C6_amended.2.2.2.2.2.2.2.2.2.2.2.2.2.2.2.2.2.2.2.2.2.2.2.1 2026 (.str authorRM) (.str titleCC) (.str "abc".toList)
     (.str bookSIG) Option.none Option.none Option.none Option.none
     Option.none Option.none Option.none Option.none Option.none
     Option.none (by decide),
   C6_amended.2.2.1 2026 (.str authorRM) (.int 7) (.int 2008) (.str pubPH)
     Option.none Option.none Option.none Option.none Option.none
     Option.none Option.none Option.none 2008 authorRM
     (.notInstanceOfStr "title") (by decide) (by decide) (by decide)⟩

theorem optField_congr (o o2 : Option PyVal)
    (h : o.getD PyVal.none = o2.getD PyVal.none) :
    optField o = optField o2 := by
  unfold optField
  rw [h]

/-- Claim C7: an omitted optional field takes the default `None`, on which
the optional validator list passes without any length or type check
triggering (`optField` on the default is `ok None`, never an error), and
supplying `None` explicitly is equivalent to omission: whenever every
optional slot receives raw values with equal `None`-defaults — in
particular `some None` versus an omitted argument — the construction
results are identical, for all three entry types. -/
theorem C7_optional_none :
    optField Option.none = .ok Option.none ∧
    optField (some PyVal.none) = .ok Option.none ∧
    (∀ (year_now : ℤ) (a t y p : PyVal)
      (o1 o2 o3 o4 o5 o6 o7 o8 k1 k2 k3 k4 k5 k6 k7 k8 : Option PyVal),
      o1.getD PyVal.none = k1.getD PyVal.none →
      o2.getD PyVal.none = k2.getD PyVal.none →
      o3.getD PyVal.none = k3.getD PyVal.none →
      o4.getD PyVal.none = k4.getD PyVal.none →
      o5.getD PyVal.none = k5.getD PyVal.none →
      o6.getD PyVal.none = k6.getD PyVal.none →
      o7.getD PyVal.none = k7.getD PyVal.none →
      o8.getD PyVal.none = k8.getD PyVal.none →
      mkBook year_now a t y p o1 o2 o3 o4 o5 o6 o7 o8 =
        mkBook year_now a t y p k1 k2 k3 k4 k5 k6 k7 k8) ∧
    (∀ (year_now : ℤ) (a j t y : PyVal)
      (o1 o2 o3 o4 o5 k1 k2 k3 k4 k5 : Option PyVal),
      o1.getD PyVal.none = k1.getD PyVal.none →
      o2.getD PyVal.none = k2.getD PyVal.none →
      o3.getD PyVal.none = k3.getD PyVal.none →
      o4.getD PyVal.none = k4.getD PyVal.none →
      o5.getD PyVal.none = k5.getD PyVal.none →
      mkArticle year_now a j t y o1 o2 o3 o4 o5 =
        mkArticle year_now a j t y k1 k2 k3 k4 k5) ∧
    (∀ (year_now : ℤ) (a t y bk : PyVal)
      (o1 o2 o3 o4 o5 o6 o7 o8 o9 o10
        k1 k2 k3 k4 k5 k6 k7 k8 k9 k10 : Option PyVal),
      o1.getD PyVal.none = k1.getD PyVal.none →
      o2.getD PyVal.none = k2.getD PyVal.none →
      o3.getD PyVal.none = k3.getD PyVal.none →
      o4.getD PyVal.none = k4.getD PyVal.none →
      o5.getD PyVal.none = k5.getD PyVal.none →
      o6.getD PyVal.none = k6.getD PyVal.none →
      o7.getD PyVal.none = k7.getD PyVal.none →
      o8.getD PyVal.none = k8.getD PyVal.none →
      o9.getD PyVal.none = k9.getD PyVal.none →
      o10.getD PyVal.none = k10.getD PyVal.none →
      mkInproceedings year_now a t y bk o1 o2 o3 o4 o5 o6 o7 o8 o9 o10 =
        mkInproceedings year_now a t y bk k1 k2 k3 k4 k5 k6 k7 k8 k9
          k10) := by
  refine ⟨rfl, rfl, ?_, ?_, ?_⟩
  · intro year_now a t y p o1 o2 o3 o4 o5 o6 o7 o8 k1 k2 k3 k4 k5 k6 k7 k8
      h1 h2 h3 h4 h5 h6 h7 h8
    unfold mkBook
    rw [optField_congr o1 k1 h1, optField_congr o2 k2 h2,
      optField_congr o3 k3 h3, optField_congr o4 k4 h4,
      optField_congr o5 k5 h5, optField_congr o6 k6 h6,
      optField_congr o7 k7 h7, optField_congr o8 k8 h8]
  · intro year_now a j t y o1 o2 o3 o4 o5 k1 k2 k3 k4 k5 h1 h2 h3 h4 h5
    unfold mkArticle
    rw [optField_congr o1 k1 h1, optField_congr o2 k2 h2,
      optField_congr o3 k3 h3, optField_congr o4 k4 h4,
      optField_congr o5 k5 h5]
  · intro year_now a t y bk o1 o2 o3 o4 o5 o6 o7 o8 o9 o10 k1 k2 k3 k4 k5
      k6 k7 k8 k9 k10 h1 h2 h3 h4 h5 h6 h7 h8 h9 h10
    unfold mkInproceedings
    rw [optField_congr o1 k1 h1, optField_congr o2 k2 h2,
      optField_congr o3 k3 h3, optField_congr o4 k4 h4,
      optField_congr o5 k5 h5, optField_congr o6 k6 h6,
      optField_congr o7 k7 h7, optField_congr o8 k8 h8,
      optField_congr o9 k9 h9, optField_congr o10 k10 h10]

/-- Witness for C7: supplying `address = None` explicitly gives the same
construction result as omitting `address`. -/
theorem C7_optional_none_witness :
    ((some PyVal.none).getD PyVal.none =
      (Option.none : Option PyVal).getD PyVal.none) ∧
    mkBook 2026 (.str authorRM) (.str titleCC) (.int 2008) (.str pubPH)
      (some PyVal.none) Option.none Option.none Option.none Option.none
      Option.none Option.none Option.none =
      mkBook 2026 (.str authorRM) (.str titleCC) (.int 2008) (.str pubPH)
        Option.none Option.none Option.none Option.none Option.none
        Option.none Option.none Option.none :=
  ⟨rfl,
   C7_optional_none.2.2.1 2026 (.str authorRM) (.str titleCC) (.int 2008)
     (.str pubPH) (some PyVal.none) Option.none Option.none Option.none
     Option.none Option.none Option.none Option.none Option.none
     Option.none Option.none Option.none Option.none Option.none
     Option.none Option.none rfl rfl rfl rfl rfl rfl rfl rfl⟩

/-- Claim C8: construction is a pure function of its field inputs and the
current year — the embedding takes the clock year as an explicit
parameter, under which equal inputs give definitionally equal outcomes —
and in particular re-validating an already-valid instance's own field
values (re-constructing from them under the same year) always succeeds
and reproduces an equal instance, for all three entry types. -/
theorem C8_revalidation :
    (∀ (year_now : ℤ) (a t y p : PyVal)
      (o1 o2 o3 o4 o5 o6 o7 o8 : Option PyVal) (b : Book),
      mkBook year_now a t y p o1 o2 o3 o4 o5 o6 o7 o8 = .ok b →
      mkBook year_now (.str b.author) (.str b.title) (.int b.year)
        (.str b.publisher) (some (pyOfOpt b.address))
        (some (pyOfOpt b.edition)) (some (pyOfOpt b.editor))
        (some (pyOfOpt b.month)) (some (pyOfOpt b.note))
        (some (pyOfOpt b.number)) (some (pyOfOpt b.series))
        (some (pyOfOpt b.volume)) = .ok b) ∧
    (∀ (year_now : ℤ) (a j t y : PyVal) (o1 o2 o3 o4 o5 : Option PyVal)
      (b : Article),
      mkArticle year_now a j t y o1 o2 o3 o4 o5 = .ok b →
      mkArticle year_now (.str b.author) (.str b.journal) (.str b.title)
        (.int b.year) (some (pyOfOpt b.month)) (some (pyOfOpt b.note))
        (some (pyOfOpt b.number)) (some (pyOfOpt b.pages))
        (some (pyOfOpt b.volume)) = .ok b) ∧
    (∀ (year_now : ℤ) (a t y bk : PyVal)
      (o1 o2 o3 o4 o5 o6 o7 o8 o9 o10 : Option PyVal), ∀ b : Inproceedings,
      mkInproceedings year_now a t y bk o1 o2 o3 o4 o5 o6 o7 o8 o9 o10 =
        .ok b →
      mkInproceedings year_now (.str b.author) (.str b.title) (.int b.year)
        (.str b.booktitle) (some (pyOfOpt b.address))
        (some (pyOfOpt b.editor)) (some (pyOfOpt b.month))
        (some (pyOfOpt b.note)) (some (pyOfOpt b.number))
        (some (pyOfOpt b.organization)) (some (pyOfOpt b.pages))
        (some (pyOfOpt b.publisher)) (some (pyOfOpt b.series))
        (some (pyOfOpt b.volume)) = .ok b) := by
  refine ⟨?_, ?_, ?_⟩
  · intro year_now a t y p o1 o2 o3 o4 o5 o6 o7 o8 b h
    rcases (mkBook_eq_ok _ _ _ _ _ _ _ _ _ _ _ _ _ _).mp h with
      ⟨hy, ha, ht, hcy, hp, h1, h2, h3, h4, h5, h6, h7, h8⟩
    exact (mkBook_eq_ok _ _ _ _ _ _ _ _ _ _ _ _ _ _).mpr
      ⟨rfl, authorField_reinject _ _ ha, strField_reinject _ _ _ ht, hcy,
        strField_reinject _ _ _ hp, optField_reinject _ _ h1,
        optField_reinject _ _ h2, optField_reinject _ _ h3,
        optField_reinject _ _ h4, optField_reinject _ _ h5,
        optField_reinject _ _ h6, optField_reinject _ _ h7,
        optField_reinject _ _ h8⟩
  · intro year_now a j t y o1 o2 o3 o4 o5 b h
    rcases (mkArticle_eq_ok _ _ _ _ _ _ _ _ _ _ _).mp h with
      ⟨hy, ha, hj, ht, hcy, h1, h2, h3, h4, h5⟩
    exact (mkArticle_eq_ok _ _ _ _ _ _ _ _ _ _ _).mpr
      ⟨rfl, authorField_reinject _ _ ha, strField_reinject _ _ _ hj,
        strField_reinject _ _ _ ht, hcy, optField_reinject _ _ h1,
        optField_reinject _ _ h2, optField_reinject _ _ h3,
        optField_reinject _ _ h4, optField_reinject _ _ h5⟩
  · intro year_now a t y bk o1 o2 o3 o4 o5 o6 o7 o8 o9 o10 b h
    rcases (mkInproceedings_eq_ok _ _ _ _ _ _ _ _ _ _ _ _ _ _ _ _).mp h
      with ⟨hy, ha, ht, hcy, hbk, h1, h2, h3, h4, h5, h6, h7, h8, h9, h10⟩
    exact (mkInproceedings_eq_ok _ _ _ _ _ _ _ _ _ _ _ _ _ _ _ _).mpr
      ⟨rfl, authorField_reinject _ _ ha, strField_reinject _ _ _ ht, hcy,
        strField_reinject _ _ _ hbk, optField_reinject _ _ h1,
        optField_reinject _ _ h2, optField_reinject _ _ h3,
        optField_reinject _ _ h4, optField_reinject _ _ h5,
        optField_reinject _ _ h6, optField_reinject _ _ h7,
        optField_reinject _ _ h8, optField_reinject _ _ h9,
        optField_reinject _ _ h10⟩

/-- Witness for C8: the Martin09 book, the 1991 article and the 2011
conference paper each re-validate to themselves. -/
theorem C8_revalidation_witness :
    mkBook 2026 (.str authorRM) (.str titleCC) (.int 2008) (.str pubPH)
      Option.none Option.none Option.none Option.none Option.none
      Option.none Option.none Option.none = .ok martinBook ∧
    mkBook 2026 (.str martinBook.author) (.str martinBook.title)
      (.int martinBook.year) (.str martinBook.publisher)
      (some (pyOfOpt martinBook.address)) (some (pyOfOpt martinBook.edition))
      (some (pyOfOpt martinBook.editor)) (some (pyOfOpt martinBook.month))
      (some (pyOfOpt martinBook.note)) (some (pyOfOpt martinBook.number))
      (some (pyOfOpt martinBook.series)) (some (pyOfOpt martinBook.volume)) =
      .ok martinBook ∧
    mkArticle 2026 (.str authorRM) (.str journalAE) (.str titleCC)
      (.int 1991) Option.none Option.none Option.none Option.none
      Option.none =
      .ok ⟨authorRM, journalAE, titleCC, 1991, Option.none, Option.none,
        Option.none, Option.none, Option.none⟩ ∧
    mkArticle 2026 (.str authorRM) (.str journalAE) (.str titleCC)
      (.int 1991) (some PyVal.none) (some PyVal.none) (some PyVal.none)
      (some PyVal.none) (some PyVal.none) =
      .ok ⟨authorRM, journalAE, titleCC, 1991, Option.none, Option.none,
        Option.none, Option.none, Option.none⟩ := by
  have h1 : mkBook 2026 (.str authorRM) (.str titleCC) (.int 2008)
      (.str pubPH) Option.none Option.none Option.none Option.none
      Option.none Option.none Option.none Option.none = .ok martinBook := by
    decide
  have h3 : mkArticle 2026 (.str authorRM) (.str journalAE) (.str titleCC)
      (.int 1991) Option.none Option.none Option.none Option.none
      Option.none =
      .ok ⟨authorRM, journalAE, titleCC, 1991, Option.none, Option.none,
        Option.none, Option.none, Option.none⟩ := by decide
  exact ⟨h1,
    C8_revalidation.1 2026 (.str authorRM) (.str titleCC) (.int 2008)
      (.str pubPH) Option.none Option.none Option.none Option.none
      Option.none Option.none Option.none Option.none martinBook h1,
    h3,
    C8_revalidation.2.1 2026 (.str authorRM) (.str journalAE) (.str titleCC)
      (.int 1991) Option.none Option.none Option.none Option.none
      Option.none _ h3⟩

/-- Claim C9: a non-integral float supplied as `year` is not rejected as a
type error — the `int` converter truncates it toward zero (`ratTrunc`,
which agrees with the floor on nonnegative values and is odd under
negation), and construction succeeds exactly when the truncated integer
lies in `[500, current_year + 5]`, storing the truncated integer. -/
theorem C9_float_year :
    (∀ q : ℚ, pyInt (.float q) = some (ratTrunc q)) ∧
    (∀ q : ℚ, 0 ≤ q → ratTrunc q = ⌊q⌋) ∧
    (∀ q : ℚ, ratTrunc (-q) = -ratTrunc q) ∧
    (∀ (year_now : ℤ) (q : ℚ),
      (∃ b, mkBook year_now (.str authorRM) (.str titleCC) (.float q)
          (.str pubPH) Option.none Option.none Option.none Option.none
          Option.none Option.none Option.none Option.none = .ok b) ↔
        (500 ≤ ratTrunc q ∧ ratTrunc q ≤ year_now + 5)) ∧
    (∀ (year_now : ℤ) (q : ℚ), 500 ≤ ratTrunc q →
      ratTrunc q ≤ year_now + 5 →
      mkBook year_now (.str authorRM) (.str titleCC) (.float q)
        (.str pubPH) Option.none Option.none Option.none Option.none
        Option.none Option.none Option.none Option.none =
        .ok ⟨authorRM, titleCC, ratTrunc q, pubPH, Option.none, Option.none,
          Option.none, Option.none, Option.none, Option.none, Option.none,
          Option.none⟩) := by
  refine ⟨fun q => rfl, ?_, ?_, ?_, ?_⟩
  · intro q hq
    rw [Rat.floor_def]
    unfold ratTrunc
    exact Int.tdiv_eq_ediv (Rat.num_nonneg.mpr hq) (Int.natCast_nonneg _)
  · intro q
    unfold ratTrunc
    rw [Rat.num_neg_eq_neg_num, Rat.den_neg_eq_den, Int.neg_tdiv]
  · intro year_now q
    constructor
    · rintro ⟨b, hb⟩
      rcases (mkBook_eq_ok _ _ _ _ _ _ _ _ _ _ _ _ _ _).mp hb with
        ⟨hy, -, -, hcy, -, -, -, -, -, -, -, -, -⟩
      have hq : some (ratTrunc q) = some b.year :=
        (convert_year_eq_ok _ _).mp hy
      have hbq : ratTrunc q = b.year := Option.some.inj hq
      rw [hbq]
      simpa [yearOk] using (check_year_ok _ _).mp hcy
    · rintro ⟨hr1, hr2⟩
      refine ⟨⟨authorRM, titleCC, ratTrunc q, pubPH, Option.none,
        Option.none, Option.none, Option.none, Option.none, Option.none,
        Option.none, Option.none⟩,
        (mkBook_eq_ok _ _ _ _ _ _ _ _ _ _ _ _ _ _).mpr
        ⟨(convert_year_eq_ok _ _).mpr rfl, rfl, rfl,
          (check_year_ok _ _).mpr
            (by simp only [yearOk, decide_eq_true_eq]; exact ⟨hr1, hr2⟩),
          rfl, rfl, rfl, rfl, rfl, rfl, rfl, rfl, rfl⟩⟩
  · intro year_now q hr1 hr2
    exact (mkBook_eq_ok _ _ _ _ _ _ _ _ _ _ _ _ _ _).mpr
      ⟨(convert_year_eq_ok _ _).mpr rfl, rfl, rfl,
        (check_year_ok _ _).mpr
          (by simp only [yearOk, decide_eq_true_eq]; exact ⟨hr1, hr2⟩),
        rfl, rfl, rfl, rfl, rfl, rfl, rfl, rfl, rfl⟩

/-- Witness for C9: the float 2008.9 (the exact rational 20089/10) is
truncated to 2008 and accepted under current year 2026. -/
theorem C9_float_year_witness :
    (0 : ℚ) ≤ mkRat 20089 10 ∧
    ratTrunc (mkRat 20089 10) = 2008 ∧
    ratTrunc (mkRat 20089 10) = ⌊mkRat 20089 10⌋ ∧
    ((500 : ℤ) ≤ ratTrunc (mkRat 20089 10) ∧
      ratTrunc (mkRat 20089 10) ≤ (2026 : ℤ) + 5) ∧
    mkBook 2026 (.str authorRM) (.str titleCC)
      (.float (mkRat 20089 10)) (.str pubPH) Option.none Option.none
      Option.none Option.none Option.none Option.none Option.none
      Option.none =
      .ok ⟨authorRM, titleCC, ratTrunc (mkRat 20089 10), pubPH,
        Option.none, Option.none, Option.none, Option.none, Option.none,
        Option.none, Option.none, Option.none⟩ :=
  ⟨by decide, by decide,
   C9_float_year.2.1 (mkRat 20089 10) (by decide),
   ⟨by decide, by decide⟩,
   C9_float_year.2.2.2.2 2026 (mkRat 20089 10) (by decide) (by decide)⟩

/-- Claim C10: construction establishes every per-field validation
condition (name format, lengths, year range, optional typing), and
attribute reassignment — modelled after the generated `__setattr__`, which
re-runs the field's converter and validator list on the new value before
storing it — preserves them all; a rejected reassignment produces no new
state, so every observable instance state satisfies every per-field
predicate.  Stated for all three entry types. -/
theorem C10_setattr_invariant :
    (∀ (year_now : ℤ) (a t y p : PyVal)
      (o1 o2 o3 o4 o5 o6 o7 o8 : Option PyVal) (b : Book),
      mkBook year_now a t y p o1 o2 o3 o4 o5 o6 o7 o8 = .ok b →
      Book.inv year_now b = true) ∧
    (∀ (year_now : ℤ) (b : Book) (f : BookAttr) (v : PyVal) (b2 : Book),
      Book.inv year_now b = true →
      Book.setattr year_now b f v = .ok b2 →
      Book.inv year_now b2 = true) ∧
    (∀ (year_now : ℤ) (a j t y : PyVal) (o1 o2 o3 o4 o5 : Option PyVal)
      (b : Article),
      mkArticle year_now a j t y o1 o2 o3 o4 o5 = .ok b →
      Article.inv year_now b = true) ∧
    (∀ (year_now : ℤ) (b : Article) (f : ArticleAttr) (v : PyVal)
      (b2 : Article),
      Article.inv year_now b = true →
      Article.setattr year_now b f v = .ok b2 →
      Article.inv year_now b2 = true) ∧
    (∀ (year_now : ℤ) (a t y bk : PyVal)
      (o1 o2 o3 o4 o5 o6 o7 o8 o9 o10 : Option PyVal) (b : Inproceedings),
      mkInproceedings year_now a t y bk o1 o2 o3 o4 o5 o6 o7 o8 o9 o10 =
        .ok b →
      Inproceedings.inv year_now b = true) ∧
    (∀ (year_now : ℤ) (b : Inproceedings) (f : InproceedingsAttr)
      (v : PyVal) (b2 : Inproceedings),
      Inproceedings.inv year_now b = true →
      Inproceedings.setattr year_now b f v = .ok b2 →
      Inproceedings.inv year_now b2 = true) := by
  refine ⟨?_, ?_, ?_, ?_, ?_, ?_⟩
  · intro year_now a t y p o1 o2 o3 o4 o5 o6 o7 o8 b h
    rcases (mkBook_eq_ok _ _ _ _ _ _ _ _ _ _ _ _ _ _).mp h with
      ⟨hy, ha, ht, hcy, hp, h1, h2, h3, h4, h5, h6, h7, h8⟩
    rcases (authorField_eq_ok _ _).mp ha with ⟨-, hn, hl⟩
    rcases (strField_eq_ok _ _ _).mp ht with ⟨-, hlt⟩
    rcases (strField_eq_ok _ _ _).mp hp with ⟨-, hlp⟩
    rw [book_inv_iff]
    exact ⟨hn, hl, hlt, (check_year_ok _ _).mp hcy, hlp,
      optOk_of_optField _ _ h1, optOk_of_optField _ _ h2,
      optOk_of_optField _ _ h3, optOk_of_optField _ _ h4,
      optOk_of_optField _ _ h5, optOk_of_optField _ _ h6,
      optOk_of_optField _ _ h7, optOk_of_optField _ _ h8⟩
  · intro year_now b f v b2 hb hset
    cases f with
    | author =>
      rcases (bind_eq_ok _ _ _).mp hset with ⟨s, hs, hpure⟩
      rcases (authorField_eq_ok _ _).mp hs with ⟨-, hn, hl⟩
      cases (pure_eq_ok _ _).mp hpure
      rw [book_inv_iff] at hb ⊢
      obtain ⟨i1, i2, i3, i4, i5, i6, i7, i8, i9, i10, i11, i12, i13⟩ := hb
      exact ⟨hn, hl, i3, i4, i5, i6, i7, i8, i9, i10, i11, i12, i13⟩
    | title =>
      rcases (bind_eq_ok _ _ _).mp hset with ⟨s, hs, hpure⟩
      rcases (strField_eq_ok _ _ _).mp hs with ⟨-, hl⟩
      cases (pure_eq_ok _ _).mp hpure
      rw [book_inv_iff] at hb ⊢
      obtain ⟨i1, i2, i3, i4, i5, i6, i7, i8, i9, i10, i11, i12, i13⟩ := hb
      exact ⟨i1, i2, hl, i4, i5, i6, i7, i8, i9, i10, i11, i12, i13⟩
    | year =>
      rcases (bind_eq_ok _ _ _).mp hset with ⟨n, hn, hrest⟩
      rcases (bind_eq_ok _ _ _).mp hrest with ⟨u, hcy, hpure⟩
      cases u
      cases (pure_eq_ok _ _).mp hpure
      rw [book_inv_iff] at hb ⊢
      obtain ⟨i1, i2, i3, i4, i5, i6, i7, i8, i9, i10, i11, i12, i13⟩ := hb
      exact ⟨i1, i2, i3, (check_year_ok _ _).mp hcy, i5, i6, i7, i8, i9, i10, i11, i12, i13⟩
    | publisher =>
      rcases (bind_eq_ok _ _ _).mp hset with ⟨s, hs, hpure⟩
      rcases (strField_eq_ok _ _ _).mp hs with ⟨-, hl⟩
      cases (pure_eq_ok _ _).mp hpure
      rw [book_inv_iff] at hb ⊢
      obtain ⟨i1, i2, i3, i4, i5, i6, i7, i8, i9, i10, i11, i12, i13⟩ := hb
      exact ⟨i1, i2, i3, i4, hl, i6, i7, i8, i9, i10, i11, i12, i13⟩
    | address =>
      rcases (bind_eq_ok _ _ _).mp hset with ⟨o, ho, hpure⟩
      cases (pure_eq_ok _ _).mp hpure
      rw [book_inv_iff] at hb ⊢
      obtain ⟨i1, i2, i3, i4, i5, i6, i7, i8, i9, i10, i11, i12, i13⟩ := hb
      exact ⟨i1, i2, i3, i4, i5, optOk_of_optField _ _ ho, i7, i8, i9, i10, i11, i12, i13⟩
    | edition =>
      rcases (bind_eq_ok _ _ _).mp hset with ⟨o, ho, hpure⟩
      cases (pure_eq_ok _ _).mp hpure
      rw [book_inv_iff] at hb ⊢
      obtain ⟨i1, i2, i3, i4, i5, i6, i7, i8, i9, i10, i11, i12, i13⟩ := hb
      exact ⟨i1, i2, i3, i4, i5, i6, optOk_of_optField _ _ ho, i8, i9, i10, i11, i12, i13⟩
    | editor =>
      rcases (bind_eq_ok _ _ _).mp hset with ⟨o, ho, hpure⟩
      cases (pure_eq_ok _ _).mp hpure
      rw [book_inv_iff] at hb ⊢
      obtain ⟨i1, i2, i3, i4, i5, i6, i7, i8, i9, i10, i11, i12, i13⟩ := hb
      exact ⟨i1, i2, i3, i4, i5, i6, i7, optOk_of_optField _ _ ho, i9, i10, i11, i12, i13⟩
    | month =>
      rcases (bind_eq_ok _ _ _).mp hset with ⟨o, ho, hpure⟩
      cases (pure_eq_ok _ _).mp hpure
      rw [book_inv_iff] at hb ⊢
      obtain ⟨i1, i2, i3, i4, i5, i6, i7, i8, i9, i10, i11, i12, i13⟩ := hb
      exact ⟨i1, i2, i3, i4, i5, i6, i7, i8, optOk_of_optField _ _ ho, i10, i11, i12, i13⟩
    | note =>
      rcases (bind_eq_ok _ _ _).mp hset with ⟨o, ho, hpure⟩
      cases (pure_eq_ok _ _).mp hpure
      rw [book_inv_iff] at hb ⊢
      obtain ⟨i1, i2, i3, i4, i5, i6, i7, i8, i9, i10, i11, i12, i13⟩ := hb
      exact ⟨i1, i2, i3, i4, i5, i6, i7, i8, i9, optOk_of_optField _ _ ho, i11, i12, i13⟩
    | number =>
      rcases (bind_eq_ok _ _ _).mp hset with ⟨o, ho, hpure⟩
      cases (pure_eq_ok _ _).mp hpure
      rw [book_inv_iff] at hb ⊢
      obtain ⟨i1, i2, i3, i4, i5, i6, i7, i8, i9, i10, i11, i12, i13⟩ := hb
      exact ⟨i1, i2, i3, i4, i5, i6, i7, i8, i9, i10, optOk_of_optField _ _ ho, i12, i13⟩
    | series =>
      rcases (bind_eq_ok _ _ _).mp hset with ⟨o, ho, hpure⟩
      cases (pure_eq_ok _ _).mp hpure
      rw [book_inv_iff] at hb ⊢
      obtain ⟨i1, i2, i3, i4, i5, i6, i7, i8, i9, i10, i11, i12, i13⟩ := hb
      exact ⟨i1, i2, i3, i4, i5, i6, i7, i8, i9, i10, i11, optOk_of_optField _ _ ho, i13⟩
    | volume =>
      rcases (bind_eq_ok _ _ _).mp hset with ⟨o, ho, hpure⟩
      cases (pure_eq_ok _ _).mp hpure
      rw [book_inv_iff] at hb ⊢
      obtain ⟨i1, i2, i3, i4, i5, i6, i7, i8, i9, i10, i11, i12, i13⟩ := hb
      exact ⟨i1, i2, i3, i4, i5, i6, i7, i8, i9, i10, i11, i12, optOk_of_optField _ _ ho⟩
  · intro year_now a j t y o1 o2 o3 o4 o5 b h
    rcases (mkArticle_eq_ok _ _ _ _ _ _ _ _ _ _ _).mp h with
      ⟨hy, ha, hj, ht, hcy, h1, h2, h3, h4, h5⟩
    rcases (authorField_eq_ok _ _).mp ha with ⟨-, hn, hl⟩
    rcases (strField_eq_ok _ _ _).mp hj with ⟨-, hlj⟩
    rcases (strField_eq_ok _ _ _).mp ht with ⟨-, hlt⟩
    rw [article_inv_iff]
    exact ⟨hn, hl, hlj, hlt, (check_year_ok _ _).mp hcy,
      optOk_of_optField _ _ h1, optOk_of_optField _ _ h2,
      optOk_of_optField _ _ h3, optOk_of_optField _ _ h4,
      optOk_of_optField _ _ h5⟩
  · intro year_now b f v b2 hb hset
    cases f with
    | author =>
      rcases (bind_eq_ok _ _ _).mp hset with ⟨s, hs, hpure⟩
      rcases (authorField_eq_ok _ _).mp hs with ⟨-, hn, hl⟩
      cases (pure_eq_ok _ _).mp hpure
      rw [article_inv_iff] at hb ⊢
      obtain ⟨i1, i2, i3, i4, i5, i6, i7, i8, i9, i10⟩ := hb
      exact ⟨hn, hl, i3, i4, i5, i6, i7, i8, i9, i10⟩
    | journal =>
      rcases (bind_eq_ok _ _ _).mp hset with ⟨s, hs, hpure⟩
      rcases (strField_eq_ok _ _ _).mp hs with ⟨-, hl⟩
      cases (pure_eq_ok _ _).mp hpure
      rw [article_inv_iff] at hb ⊢
      obtain ⟨i1, i2, i3, i4, i5, i6, i7, i8, i9, i10⟩ := hb
      exact ⟨i1, i2, hl, i4, i5, i6, i7, i8, i9, i10⟩
    | title =>
      rcases (bind_eq_ok _ _ _).mp hset with ⟨s, hs, hpure⟩
      rcases (strField_eq_ok _ _ _).mp hs with ⟨-, hl⟩
      cases (pure_eq_ok _ _).mp hpure
      rw [article_inv_iff] at hb ⊢
      obtain ⟨i1, i2, i3, i4, i5, i6, i7, i8, i9, i10⟩ := hb
      exact ⟨i1, i2, i3, hl, i5, i6, i7, i8, i9, i10⟩
    | year =>
      rcases (bind_eq_ok _ _ _).mp hset with ⟨n, hn, hrest⟩
      rcases (bind_eq_ok _ _ _).mp hrest with ⟨u, hcy, hpure⟩
      cases u
      cases (pure_eq_ok _ _).mp hpure
      rw [article_inv_iff] at hb ⊢
      obtain ⟨i1, i2, i3, i4, i5, i6, i7, i8, i9, i10⟩ := hb
      exact ⟨i1, i2, i3, i4, (check_year_ok _ _).mp hcy, i6, i7, i8, i9, i10⟩
    | month =>
      rcases (bind_eq_ok _ _ _).mp hset with ⟨o, ho, hpure⟩
      cases (pure_eq_ok _ _).mp hpure
      rw [article_inv_iff] at hb ⊢
      obtain ⟨i1, i2, i3, i4, i5, i6, i7, i8, i9, i10⟩ := hb
      exact ⟨i1, i2, i3, i4, i5, optOk_of_optField _ _ ho, i7, i8, i9, i10⟩
    | note =>
      rcases (bind_eq_ok _ _ _).mp hset with ⟨o, ho, hpure⟩
      cases (pure_eq_ok _ _).mp hpure
      rw [article_inv_iff] at hb ⊢
      obtain ⟨i1, i2, i3, i4, i5, i6, i7, i8, i9, i10⟩ := hb
      exact ⟨i1, i2, i3, i4, i5, i6, optOk_of_optField _ _ ho, i8, i9, i10⟩
    | number =>
      rcases (bind_eq_ok _ _ _).mp hset with ⟨o, ho, hpure⟩
      cases (pure_eq_ok _ _).mp hpure
      rw [article_inv_iff] at hb ⊢
      obtain ⟨i1, i2, i3, i4, i5, i6, i7, i8, i9, i10⟩ := hb
      exact ⟨i1, i2, i3, i4, i5, i6, i7, optOk_of_optField _ _ ho, i9, i10⟩
    | pages =>
      rcases (bind_eq_ok _ _ _).mp hset with ⟨o, ho, hpure⟩
      cases (pure_eq_ok _ _).mp hpure
      rw [article_inv_iff] at hb ⊢
      obtain ⟨i1, i2, i3, i4, i5, i6, i7, i8, i9, i10⟩ := hb
      exact ⟨i1, i2, i3, i4, i5, i6, i7, i8, optOk_of_optField _ _ ho, i10⟩
    | volume =>
      rcases (bind_eq_ok _ _ _).mp hset with ⟨o, ho, hpure⟩
      cases (pure_eq_ok _ _).mp hpure
      rw [article_inv_iff] at hb ⊢
      obtain ⟨i1, i2, i3, i4, i5, i6, i7, i8, i9, i10⟩ := hb
      exact ⟨i1, i2, i3, i4, i5, i6, i7, i8, i9, optOk_of_optField _ _ ho⟩
  · intro year_now a t y bk o1 o2 o3 o4 o5 o6 o7 o8 o9 o10 b h
    rcases (mkInproceedings_eq_ok _ _ _ _ _ _ _ _ _ _ _ _ _ _ _ _).mp h
      with ⟨hy, ha, ht, hcy, hbk, h1, h2, h3, h4, h5, h6, h7, h8, h9, h10⟩
    rcases (authorField_eq_ok _ _).mp ha with ⟨-, hn, hl⟩
    rcases (strField_eq_ok _ _ _).mp ht with ⟨-, hlt⟩
    rcases (strField_eq_ok _ _ _).mp hbk with ⟨-, hlb⟩
    rw [inproceedings_inv_iff]
    exact ⟨hn, hl, hlt, (check_year_ok _ _).mp hcy, hlb,
      optOk_of_optField _ _ h1, optOk_of_optField _ _ h2,
      optOk_of_optField _ _ h3, optOk_of_optField _ _ h4,
      optOk_of_optField _ _ h5, optOk_of_optField _ _ h6,
      optOk_of_optField _ _ h7, optOk_of_optField _ _ h8,
      optOk_of_optField _ _ h9, optOk_of_optField _ _ h10⟩
  · intro year_now b f v b2 hb hset
    cases f with
    | author =>
      rcases (bind_eq_ok _ _ _).mp hset with ⟨s, hs, hpure⟩
      rcases (authorField_eq_ok _ _).mp hs with ⟨-, hn, hl⟩
      cases (pure_eq_ok _ _).mp hpure
      rw [inproceedings_inv_iff] at hb ⊢
      obtain ⟨i1, i2, i3, i4, i5, i6, i7, i8, i9, i10, i11, i12, i13, i14, i15⟩ := hb
      exact ⟨hn, hl, i3, i4, i5, i6, i7, i8, i9, i10, i11, i12, i13, i14, i15⟩
    | title =>
      rcases (bind_eq_ok _ _ _).mp hset with ⟨s, hs, hpure⟩
      rcases (strField_eq_ok _ _ _).mp hs with ⟨-, hl⟩
      cases (pure_eq_ok _ _).mp hpure
      rw [inproceedings_inv_iff] at hb ⊢
      obtain ⟨i1, i2, i3, i4, i5, i6, i7, i8, i9, i10, i11, i12, i13, i14, i15⟩ := hb
      exact ⟨i1, i2, hl, i4, i5, i6, i7, i8, i9, i10, i11, i12, i13, i14, i15⟩
    | year =>
      rcases (bind_eq_ok _ _ _).mp hset with ⟨n, hn, hrest⟩
      rcases (bind_eq_ok _ _ _).mp hrest with ⟨u, hcy, hpure⟩
      cases u
      cases (pure_eq_ok _ _).mp hpure
      rw [inproceedings_inv_iff] at hb ⊢
      obtain ⟨i1, i2, i3, i4, i5, i6, i7, i8, i9, i10, i11, i12, i13, i14, i15⟩ := hb
      exact ⟨i1, i2, i3, (check_year_ok _ _).mp hcy, i5, i6, i7, i8, i9, i10, i11, i12, i13, i14, i15⟩
    | booktitle =>
      rcases (bind_eq_ok _ _ _).mp hset with ⟨s, hs, hpure⟩
      rcases (strField_eq_ok _ _ _).mp hs with ⟨-, hl⟩
      cases (pure_eq_ok _ _).mp hpure
      rw [inproceedings_inv_iff] at hb ⊢
      obtain ⟨i1, i2, i3, i4, i5, i6, i7, i8, i9, i10, i11, i12, i13, i14, i15⟩ := hb
      exact ⟨i1, i2, i3, i4, hl, i6, i7, i8, i9, i10, i11, i12, i13, i14, i15⟩
    | address =>
      rcases (bind_eq_ok _ _ _).mp hset with ⟨o, ho, hpure⟩
      cases (pure_eq_ok _ _).mp hpure
      rw [inproceedings_inv_iff] at hb ⊢
      obtain ⟨i1, i2, i3, i4, i5, i6, i7, i8, i9, i10, i11, i12, i13, i14, i15⟩ := hb
      exact ⟨i1, i2, i3, i4, i5, optOk_of_optField _ _ ho, i7, i8, i9, i10, i11, i12, i13, i14, i15⟩
    | editor =>
      rcases (bind_eq_ok _ _ _).mp hset with ⟨o, ho, hpure⟩
      cases (pure_eq_ok _ _).mp hpure
      rw [inproceedings_inv_iff] at hb ⊢
      obtain ⟨i1, i2, i3, i4, i5, i6, i7, i8, i9, i10, i11, i12, i13, i14, i15⟩ := hb
      exact ⟨i1, i2, i3, i4, i5, i6, optOk_of_optField _ _ ho, i8, i9, i10, i11, i12, i13, i14, i15⟩
    | month =>
      rcases (bind_eq_ok _ _ _).mp hset with ⟨o, ho, hpure⟩
      cases (pure_eq_ok _ _).mp hpure
      rw [inproceedings_inv_iff] at hb ⊢
      obtain ⟨i1, i2, i3, i4, i5, i6, i7, i8, i9, i10, i11, i12, i13, i14, i15⟩ := hb
      exact ⟨i1, i2, i3, i4, i5, i6, i7, optOk_of_optField _ _ ho, i9, i10, i11, i12, i13, i14, i15⟩
    | note =>
      rcases (bind_eq_ok _ _ _).mp hset with ⟨o, ho, hpure⟩
      cases (pure_eq_ok _ _).mp hpure
      rw [inproceedings_inv_iff] at hb ⊢
      obtain ⟨i1, i2, i3, i4, i5, i6, i7, i8, i9, i10, i11, i12, i13, i14, i15⟩ := hb
      exact ⟨i1, i2, i3, i4, i5, i6, i7, i8, optOk_of_optField _ _ ho, i10, i11, i12, i13, i14, i15⟩
    | number =>
      rcases (bind_eq_ok _ _ _).mp hset with ⟨o, ho, hpure⟩
      cases (pure_eq_ok _ _).mp hpure
      rw [inproceedings_inv_iff] at hb ⊢
      obtain ⟨i1, i2, i3, i4, i5, i6, i7, i8, i9, i10, i11, i12, i13, i14, i15⟩ := hb
      exact ⟨i1, i2, i3, i4, i5, i6, i7, i8, i9, optOk_of_optField _ _ ho, i11, i12, i13, i14, i15⟩
    | organization =>
      rcases (bind_eq_ok _ _ _).mp hset with ⟨o, ho, hpure⟩
      cases (pure_eq_ok _ _).mp hpure
      rw [inproceedings_inv_iff] at hb ⊢
      obtain ⟨i1, i2, i3, i4, i5, i6, i7, i8, i9, i10, i11, i12, i13, i14, i15⟩ := hb
      exact ⟨i1, i2, i3, i4, i5, i6, i7, i8, i9, i10, optOk_of_optField _ _ ho, i12, i13, i14, i15⟩
    | pages =>
      rcases (bind_eq_ok _ _ _).mp hset with ⟨o, ho, hpure⟩
      cases (pure_eq_ok _ _).mp hpure
      rw [inproceedings_inv_iff] at hb ⊢
      obtain ⟨i1, i2, i3, i4, i5, i6, i7, i8, i9, i10, i11, i12, i13, i14, i15⟩ := hb
      exact ⟨i1, i2, i3, i4, i5, i6, i7, i8, i9, i10, i11, optOk_of_optField _ _ ho, i13, i14, i15⟩
    | publisher =>
      rcases (bind_eq_ok _ _ _).mp hset with ⟨o, ho, hpure⟩
      cases (pure_eq_ok _ _).mp hpure
      rw [inproceedings_inv_iff] at hb ⊢
      obtain ⟨i1, i2, i3, i4, i5, i6, i7, i8, i9, i10, i11, i12, i13, i14, i15⟩ := hb
      exact ⟨i1, i2, i3, i4, i5, i6, i7, i8, i9, i10, i11, i12, optOk_of_optField _ _ ho, i14, i15⟩
    | series =>
      rcases (bind_eq_ok _ _ _).mp hset with ⟨o, ho, hpure⟩
      cases (pure_eq_ok _ _).mp hpure
      rw [inproceedings_inv_iff] at hb ⊢
      obtain ⟨i1, i2, i3, i4, i5, i6, i7, i8, i9, i10, i11, i12, i13, i14, i15⟩ := hb
      exact ⟨i1, i2, i3, i4, i5, i6, i7, i8, i9, i10, i11, i12, i13, optOk_of_optField _ _ ho, i15⟩
    | volume =>
      rcases (bind_eq_ok _ _ _).mp hset with ⟨o, ho, hpure⟩
      cases (pure_eq_ok _ _).mp hpure
      rw [inproceedings_inv_iff] at hb ⊢
      obtain ⟨i1, i2, i3, i4, i5, i6, i7, i8, i9, i10, i11, i12, i13, i14, i15⟩ := hb
      exact ⟨i1, i2, i3, i4, i5, i6, i7, i8, i9, i10, i11, i12, i13, i14, optOk_of_optField _ _ ho⟩

/-- Witness for C10: the Martin09 book satisfies the invariant after
construction, and still satisfies it after a validated reassignment of
the optional `note` field. -/
theorem C10_setattr_invariant_witness :
    mkBook 2026 (.str authorRM) (.str titleCC) (.int 2008) (.str pubPH)
      Option.none Option.none Option.none Option.none Option.none
      Option.none Option.none Option.none = .ok martinBook ∧
    Book.inv 2026 martinBook = true ∧
    Book.setattr 2026 martinBook .note (.str "extra".toList) =
      .ok { martinBook with note := some "extra".toList } ∧
    Book.inv 2026 { martinBook with note := some "extra".toList } =
      true := by
  have hmk : mkBook 2026 (.str authorRM) (.str titleCC) (.int 2008)
      (.str pubPH) Option.none Option.none Option.none Option.none
      Option.none Option.none Option.none Option.none = .ok martinBook := by
    decide
  have hinv : Book.inv 2026 martinBook = true :=
    C10_setattr_invariant.1 2026 (.str authorRM) (.str titleCC) (.int 2008)
      (.str pubPH) Option.none Option.none Option.none Option.none
      Option.none Option.none Option.none Option.none martinBook hmk
  have hset : Book.setattr 2026 martinBook .note (.str "extra".toList) =
      .ok { martinBook with note := some "extra".toList } := by decide
  exact ⟨hmk, hinv, hset,
    C10_setattr_invariant.2.1 2026 martinBook .note (.str "extra".toList) _
      hinv hset⟩

end Reference
